import Mathlib

/-!
# The RTMP connection driver of SRS (`trunk/src/app/srs_app_rtmp_conn.cpp`)

A shallow embedding of `SrsRtmpConn`: every method of the driver is a Lean
function that takes the connection fields it reads (`Conn`), the answers of
the collaborators it calls (protocol, source, consumer, receive thread,
configuration, webhooks) and returns its return code, the connection fields
afterwards and the list of collaborator calls it made, in order (`Event`).

Loops that run until the connection is disposed (`while (!disposed)`) consume
one scripted record per iteration. A run whose script ends while the loop is
still running has not returned: its return code is `none`, and the connection
fields and the calls are those up to that point (`Run`).
-/

namespace Srs

/-! ## Error codes, machine integers, doubles -/

/-- Modelled from the spec: the error constants of `srs_kernel_error.hpp`, a
header outside `srs_app_rtmp_conn.cpp`. The driver only ever compares a code
with one of the named constants, so the constants are distinct constructors and
every other value of the `int` is `other n`. -/
inductive ErrCode where
  | ERROR_SUCCESS
  | ERROR_SOCKET_TIMEOUT
  | ERROR_SYSTEM_STREAM_BUSY
  | ERROR_SYSTEM_CLIENT_INVALID
  | ERROR_USER_DISCONNECT
  | ERROR_RTMP_REQ_TCURL
  | ERROR_RTMP_VHOST_NOT_FOUND
  | ERROR_RTMP_DURATION_EXCEED
  | ERROR_CONTROL_RTMP_CLOSE
  | ERROR_CONTROL_REPUBLISH
  | other (code : Int)
  deriving DecidableEq, Repr

open ErrCode

/-- Two's complement reduction of an integer to the range of `int64_t`. -/
def wrap64 (x : Int) : Int :=
  (x + 9223372036854775808) % 18446744073709551616 - 9223372036854775808

/-- Two's complement reduction of an integer to the range of `int`. -/
def wrap32 (x : Int) : Int :=
  (x + 2147483648) % 4294967296 - 2147483648

/-- The C++ cast `(int64_t)d` of a finite `double`, which is a rational number:
the value is truncated toward zero. When the truncated value is out of the range
of `int64_t` the cast is undefined in C++; the conversion instruction of x86-64
yields `INT64_MIN` then, which is the value taken here. -/
def to_int64 (d : Rat) : Int :=
  if -9223372036854775808 ≤ Int.tdiv d.num d.den ∧ Int.tdiv d.num d.den < 9223372036854775808 then
    Int.tdiv d.num d.den
  else -9223372036854775808

/-- The conversion of an integer to `st_utime_t`, the unsigned 64-bit type of the
argument of `st_usleep`. -/
def to_utime (x : Int) : Int :=
  x % 18446744073709551616

/-- The `double` nearest to a rational number, ties to even: the rounding that
the IEEE 754 binary64 arithmetic applies to the exact result of an operation (53
significant bits, exponents from -1022 on, below which the steps no longer
shrink). Beyond the largest `double`, where the arithmetic gives an infinity, the
value rounded to 53 bits is taken: its cast to `int64_t` is out of range either
way. -/
def round_double (q : Rat) : Rat :=
  if q = 0 then 0
  else
    let e0 : Int := (Nat.log2 q.num.natAbs : Int) - (Nat.log2 q.den : Int)
    let e : Int := max (if (2 : Rat) ^ e0 ≤ |q| then e0 else e0 - 1) (-1022)
    let ulp : Rat := (2 : Rat) ^ (e - 52)
    let f : Int := ⌊|q| / ulp⌋
    let r : Rat := |q| / ulp - f
    let m : Int := if r < 1 / 2 then f else if 1 / 2 < r then f + 1 else if f % 2 = 0 then f else f + 1
    (if q < 0 then -1 else 1) * (m * ulp)

/-! ## Build configuration -/

/-- The macros of `srs_core_performance.hpp`, `srs_auto_headers.hpp` and
`srs_kernel_consts.hpp` that the driver tests with `#ifdef` or reads; they are
set outside `srs_app_rtmp_conn.cpp`, so the values are parameters. -/
structure Build where
  SRS_AUTO_KAFKA : Bool
  SRS_AUTO_HTTP_CALLBACK : Bool
  SRS_PERF_QUEUE_COND_WAIT : Bool
  SRS_PERF_MW_SO_SNDBUF : Bool
  SRS_PERF_SO_SNDBUF_SIZE : Option Int
  SRS_PERF_TCP_NODELAY : Bool
  SRS_PERF_MW_SLEEP : Int
  SRS_PERF_MW_MIN_MSGS : Int
  SRS_PERF_MW_MSGS : Int
  SRS_PERF_MIN_LATENCY_ENABLED : Bool
  SRS_CONSTS_RTMP_TIMEOUT_US : Int
  SRS_CONSTS_RTMP_DEFAULT_PORT : Int

/-- The macro `SRS_STREAM_BUSY_SLEEP_US`. -/
def SRS_STREAM_BUSY_SLEEP_US : Int := 3*1000*1000

/-- The macro `SRS_REPUBLISH_SEND_TIMEOUT_US`. -/
def SRS_REPUBLISH_SEND_TIMEOUT_US : Int := 3*60*1000*1000

/-- The macro `SRS_REPUBLISH_RECV_TIMEOUT_US`. -/
def SRS_REPUBLISH_RECV_TIMEOUT_US : Int := 3*60*1000*1000

/-- The macro `SRS_PAUSED_SEND_TIMEOUT_US`. -/
def SRS_PAUSED_SEND_TIMEOUT_US : Int := 30*60*1000*1000

/-- The macro `SRS_PAUSED_RECV_TIMEOUT_US`. -/
def SRS_PAUSED_RECV_TIMEOUT_US : Int := 30*60*1000*1000

/-- The macro `SRS_EDGE_TOKEN_TRAVERSE_TIMEOUT_US`. -/
def SRS_EDGE_TOKEN_TRAVERSE_TIMEOUT_US : Int := 3*1000*1000

/-! ## Data model -/

/-- The fields of `SrsRequest` that the driver reads or writes. -/
structure Request where
  tcUrl : String
  pageUrl : String
  swfUrl : String
  schema : String
  vhost : String
  port : Int
  app : String
  stream : String
  duration : Rat
  ip : String
  deriving DecidableEq, Repr

/-- The kinds of client `identify_client` reports (`SrsRtmpConnType`). -/
inductive SrsRtmpConnType where
  | SrsRtmpConnUnknown
  | SrsRtmpConnPlay
  | SrsRtmpConnFMLEPublish
  | SrsRtmpConnFlashPublish
  deriving DecidableEq, Repr

/-- A media message handed out by the consumer (`SrsSharedPtrMessage`): its
timestamp in milliseconds and a tag standing for its payload. -/
structure SharedMsg where
  timestamp : Int
  payload : Nat
  deriving DecidableEq, Repr

/-- The header predicates of a received `SrsCommonMessage`. -/
structure CommonMessage where
  is_amf0_command : Bool
  is_amf3_command : Bool
  is_amf0_data : Bool
  is_amf3_data : Bool
  is_video : Bool
  is_aggregate : Bool
  is_audio : Bool
  deriving DecidableEq, Repr

/-- Modelled from the spec: the values of `SrsAmf0Any` (`srs_rtmp_amf0.hpp`, a
header outside `srs_app_rtmp_conn.cpp`). The driver only ever builds
`SrsAmf0Any::null()`; every other value is `other tag`. -/
inductive Amf0Any where
  | null
  | other (tag : Nat)
  deriving DecidableEq, Repr

/-- The dynamic type of a decoded `SrsPacket`, with the fields the driver reads. -/
inductive Packet where
  | CloseStream
  | Call (transaction_id : Rat)
  | Pause (is_pause : Bool) (time_ms : Int)
  | FMLEStart (transaction_id : Rat)
  | OnMetaData
  | Unhandled
  deriving DecidableEq, Repr

/-- The fields of `SrsRtmpConn` (and of its base `SrsConnection`) that the
driver itself writes. `disposed` and `expired` are written by other tasks and
are read from the script at each loop top. -/
structure Conn where
  req : Request
  stream_id : Int
  duration : Int
  wakable : Bool
  mw_sleep : Int
  mw_enabled : Bool
  realtime : Bool
  send_min_interval : Rat
  tcp_nodelay : Bool
  publish_1stpkt_timeout : Int
  publish_normal_timeout : Int
  deriving DecidableEq, Repr

/-! ## Collaborator calls -/

/-- The webhooks of `SrsHttpHooks`. -/
inductive Hook where
  | on_connect | on_close | on_publish | on_unpublish | on_play | on_stop
  deriving DecidableEq, Repr

/-- The methods of the driver whose invocation is recorded in the trace. -/
inductive Method where
  | on_disconnect
  | check_vhost
  | service_cycle
  | stream_service_cycle
  | playing
  | publishing
  | release_publish
  | http_hooks_on_connect
  | http_hooks_on_close
  | http_hooks_on_publish
  | http_hooks_on_unpublish
  | http_hooks_on_play
  | http_hooks_on_stop
  deriving DecidableEq, Repr

/-- One call made by the driver, with the arguments the properties speak of.
`enter m` records that the driver's own method `m` was invoked;
`send_call_response` is `send_and_free_packet` of an `SrsCallResPacket` with the
given transaction id, command object and response. -/
inductive Event where
  | enter (m : Method)
  | kafka_on_client
  | kafka_on_close
  | set_recv_timeout (us : Int)
  | set_send_timeout (us : Int)
  | handshake
  | connect_app
  | refer_check (pageUrl : String)
  | http_hook (h : Hook) (url : String)
  | set_window_ack_size (n : Int)
  | set_peer_bandwidth (n : Int) (type : Int)
  | bandwidth_check
  | transport_connect (hostport : String) (timeout_us : Int)
  | client_set_recv_timeout (us : Int)
  | client_set_send_timeout (us : Int)
  | client_handshake
  | client_connect_app (app : String) (tcUrl : String) (debug_srs_upnode : Bool)
  | set_chunk_size (n : Int)
  | response_connect_app
  | on_bw_done
  | identify_client
  | security_check
  | fetch_or_create
  | stat_on_client
  | set_cache (enabled : Bool)
  | start_play (stream_id : Int)
  | start_fmle_publish (stream_id : Int)
  | start_flash_publish (stream_id : Int)
  | create_consumer
  | play_trd_start
  | play_trd_stop
  | decode_message
  | send_call_response (transaction_id : Rat) (command_object response : Amf0Any) (stream_id : Int)
  | rtmp_on_play_client_pause (stream_id : Int) (is_pause : Bool)
  | consumer_on_play_client_pause (is_pause : Bool)
  | consumer_wait (nb_msgs : Int) (duration : Int)
  | dump_packets (count : Int)
  | send_and_free_messages (msgs : List SharedMsg) (stream_id : Int)
  | st_usleep (us : Int)
  | setsockopt_SO_SNDBUF (nb_sbuf : Int)
  | setsockopt_TCP_NODELAY (v : Bool)
  | can_publish (is_edge : Bool)
  | source_on_publish
  | on_edge_start_publish
  | source_on_unpublish
  | on_edge_proxy_unpublish
  | publish_trd_start
  | publish_trd_wait (timeout : Int)
  | publish_trd_stop
  deriving DecidableEq, Repr

/-- The getters of `_srs_config` the driver calls, each a function of the vhost
name. A getter that returns a directive pointer is `none` for `NULL` and
otherwise the arguments of the directive. -/
structure Config where
  get_vhost : String → Option Bool → Option String
  get_vhost_enabled : String → Bool
  get_refer_enabled : String → Bool
  get_bw_check_enabled : String → Bool
  get_vhost_is_edge : String → Bool
  get_vhost_edge_token_traverse : String → Bool
  get_vhost_edge_origin : String → List String
  get_chunk_size : String → Int
  get_gop_cache : String → Bool
  get_realtime_enabled : String → Bool
  get_mw_sleep_ms : String → Int
  get_send_min_interval : String → Rat
  get_tcp_nodelay : String → Bool
  get_publish_1stpkt_timeout : String → Int
  get_publish_normal_timeout : String → Int
  get_vhost_http_hooks_enabled : String → Bool
  get_vhost_on_connect : String → Option (List String)
  get_vhost_on_close : String → Option (List String)
  get_vhost_on_publish : String → Option (List String)
  get_vhost_on_unpublish : String → Option (List String)
  get_vhost_on_play : String → Option (List String)
  get_vhost_on_stop : String → Option (List String)

/-- The answer of the webhook dispatcher `SrsHttpHooks` to the `i`-th callback
of a hook that can reject. -/
structure HooksEnv where
  on_connect : Nat → String → ErrCode
  on_publish : Nat → String → ErrCode
  on_play : Nat → String → ErrCode

/-! ## Webhooks and teardown -/

/-- The loop `for (i...) if ((ret = SrsHttpHooks::on_x(url, req)) != ERROR_SUCCESS) return ret;`
of a hook that can reject: the urls are called in order until one fails. -/
def call_hooks (h : Hook) (answer : Nat → String → ErrCode) : Nat → List String → ErrCode × List Event
  | _, [] => (ERROR_SUCCESS, [])
  | i, url :: rest =>
    if answer i url ≠ ERROR_SUCCESS then (answer i url, [Event.http_hook h url])
    else ((call_hooks h answer (i + 1) rest).1, Event.http_hook h url :: (call_hooks h answer (i + 1) rest).2)

/-- The body shared by `http_hooks_on_connect`, `http_hooks_on_publish` and
`http_hooks_on_play`. -/
def hooks_checked (b : Build) (enabled : Bool) (conf : Option (List String)) (m : Method) (h : Hook)
    (answer : Nat → String → ErrCode) : ErrCode × List Event :=
  if !b.SRS_AUTO_HTTP_CALLBACK then (ERROR_SUCCESS, [Event.enter m])
  else if !enabled then (ERROR_SUCCESS, [Event.enter m])
  else match conf with
    | none => (ERROR_SUCCESS, [Event.enter m])
    | some hooks => ((call_hooks h answer 0 hooks).1, Event.enter m :: (call_hooks h answer 0 hooks).2)

/-- The body shared by `http_hooks_on_close`, `http_hooks_on_unpublish` and
`http_hooks_on_stop`: every url is called and the result is dropped. -/
def hooks_notify (b : Build) (enabled : Bool) (conf : Option (List String)) (m : Method) (h : Hook) :
    List Event :=
  if !b.SRS_AUTO_HTTP_CALLBACK then [Event.enter m]
  else if !enabled then [Event.enter m]
  else match conf with
    | none => [Event.enter m]
    | some hooks => Event.enter m :: hooks.map (Event.http_hook h)

/-- `SrsRtmpConn::http_hooks_on_connect`. -/
def http_hooks_on_connect (b : Build) (cfg : Config) (hk : HooksEnv) (req : Request) : ErrCode × List Event :=
  hooks_checked b (cfg.get_vhost_http_hooks_enabled req.vhost) (cfg.get_vhost_on_connect req.vhost)
    Method.http_hooks_on_connect Hook.on_connect hk.on_connect

/-- `SrsRtmpConn::http_hooks_on_close`. -/
def http_hooks_on_close (b : Build) (cfg : Config) (req : Request) : List Event :=
  hooks_notify b (cfg.get_vhost_http_hooks_enabled req.vhost) (cfg.get_vhost_on_close req.vhost)
    Method.http_hooks_on_close Hook.on_close

/-- `SrsRtmpConn::http_hooks_on_publish`. -/
def http_hooks_on_publish (b : Build) (cfg : Config) (hk : HooksEnv) (req : Request) : ErrCode × List Event :=
  hooks_checked b (cfg.get_vhost_http_hooks_enabled req.vhost) (cfg.get_vhost_on_publish req.vhost)
    Method.http_hooks_on_publish Hook.on_publish hk.on_publish

/-- `SrsRtmpConn::http_hooks_on_unpublish`. -/
def http_hooks_on_unpublish (b : Build) (cfg : Config) (req : Request) : List Event :=
  hooks_notify b (cfg.get_vhost_http_hooks_enabled req.vhost) (cfg.get_vhost_on_unpublish req.vhost)
    Method.http_hooks_on_unpublish Hook.on_unpublish

/-- `SrsRtmpConn::http_hooks_on_play`. -/
def http_hooks_on_play (b : Build) (cfg : Config) (hk : HooksEnv) (req : Request) : ErrCode × List Event :=
  hooks_checked b (cfg.get_vhost_http_hooks_enabled req.vhost) (cfg.get_vhost_on_play req.vhost)
    Method.http_hooks_on_play Hook.on_play hk.on_play

/-- `SrsRtmpConn::http_hooks_on_stop`. -/
def http_hooks_on_stop (b : Build) (cfg : Config) (req : Request) : List Event :=
  hooks_notify b (cfg.get_vhost_http_hooks_enabled req.vhost) (cfg.get_vhost_on_stop req.vhost)
    Method.http_hooks_on_stop Hook.on_stop

/-- `SrsRtmpConn::on_disconnect`: the close hooks, then (with kafka) the kafka
notification, whose code is the result. -/
def on_disconnect (b : Build) (cfg : Config) (req : Request) (kafka_on_close : ErrCode) :
    ErrCode × List Event :=
  if b.SRS_AUTO_KAFKA then
    (kafka_on_close, Event.enter Method.on_disconnect :: (http_hooks_on_close b cfg req ++ [Event.kafka_on_close]))
  else
    (ERROR_SUCCESS, Event.enter Method.on_disconnect :: http_hooks_on_close b cfg req)

/-! ## Socket tuning -/

/-- `SrsRtmpConn::change_mw_sleep`: the `int` product `sleep_ms * kbps` wraps and
the divisions truncate toward zero. -/
def change_mw_sleep (b : Build) (c : Conn) (sleep_ms : Int) : Conn × List Event :=
  if !c.mw_enabled then (c, [])
  else if b.SRS_PERF_MW_SO_SNDBUF then
    let kbps : Int := 5000
    let socket_buffer_size := Int.tdiv (wrap32 (sleep_ms * kbps)) 8
    let nb_sbuf := match b.SRS_PERF_SO_SNDBUF_SIZE with
      | some size => Int.tdiv size 2
      | none => Int.tdiv socket_buffer_size 2
    ({ c with mw_sleep := sleep_ms }, [Event.setsockopt_SO_SNDBUF nb_sbuf])
  else ({ c with mw_sleep := sleep_ms }, [])

/-- `SrsRtmpConn::set_sock_options`. -/
def set_sock_options (b : Build) (cfg : Config) (c : Conn) : Conn × List Event :=
  if cfg.get_tcp_nodelay c.req.vhost ≠ c.tcp_nodelay then
    ({ c with tcp_nodelay := cfg.get_tcp_nodelay c.req.vhost },
      if b.SRS_PERF_TCP_NODELAY then [Event.setsockopt_TCP_NODELAY (cfg.get_tcp_nodelay c.req.vhost)] else [])
  else (c, [])

/-! ## Play -/

/-- What a loop body does at its end: return a code, or go on to the next
iteration (`ret` is then `ERROR_SUCCESS`, the code of the last call made). -/
inductive Flow where
  | ret (code : ErrCode)
  | next
  deriving DecidableEq, Repr

/-- One message pumped from the play receive thread (`NULL` is `none`) and the
answers of the protocol and the consumer while it is processed. -/
structure PlayControl where
  msg : Option CommonMessage
  decode_message : ErrCode
  pkt : Packet
  send_and_free_packet : ErrCode
  rtmp_on_play_client_pause : ErrCode
  consumer_on_play_client_pause : ErrCode

/-- `SrsRtmpConn::process_play_control_msg`. -/
def process_play_control_msg (c : Conn) (m : PlayControl) : ErrCode × List Event :=
  match m.msg with
  | none => (ERROR_SUCCESS, [])
  | some msg =>
    if !msg.is_amf0_command && !msg.is_amf3_command then (ERROR_SUCCESS, [])
    else if m.decode_message ≠ ERROR_SUCCESS then (m.decode_message, [Event.decode_message])
    else match m.pkt with
      | Packet.CloseStream => (ERROR_CONTROL_RTMP_CLOSE, [Event.decode_message])
      | Packet.Call transaction_id =>
        if transaction_id > 0 then
          (m.send_and_free_packet,
            [Event.decode_message, Event.send_call_response transaction_id Amf0Any.null Amf0Any.null 0])
        else (ERROR_SUCCESS, [Event.decode_message])
      | Packet.Pause is_pause _ =>
        if m.rtmp_on_play_client_pause ≠ ERROR_SUCCESS then
          (m.rtmp_on_play_client_pause,
            [Event.decode_message, Event.rtmp_on_play_client_pause c.stream_id is_pause])
        else
          (m.consumer_on_play_client_pause,
            [Event.decode_message, Event.rtmp_on_play_client_pause c.stream_id is_pause,
              Event.consumer_on_play_client_pause is_pause])
      | _ => (ERROR_SUCCESS, [Event.decode_message])

/-- The loop `while (!trd->empty())` of `do_playing`: the pumped messages are
processed in order until one does not return success. -/
def pump_control (c : Conn) : List PlayControl → ErrCode × List Event
  | [] => (ERROR_SUCCESS, [])
  | m :: rest =>
    if (process_play_control_msg c m).1 ≠ ERROR_SUCCESS then process_play_control_msg c m
    else ((pump_control c rest).1, (process_play_control_msg c m).2 ++ (pump_control c rest).2)

/-- The duration bookkeeping of `do_playing` for one message: the pair is
`(duration, starttime)`, both `int64_t`. -/
def collect_duration (s : Int × Int) (msg : SharedMsg) : Int × Int :=
  (wrap64 (s.1 + wrap64 (msg.timestamp - (if s.2 < 0 ∨ s.2 > msg.timestamp then msg.timestamp else s.2))),
    msg.timestamp)

/-- The loop `for (int i = 0; i < count; i++)` of `do_playing` over one batch. -/
def collect_durations (duration starttime : Int) (msgs : List SharedMsg) : Int × Int :=
  msgs.foldl collect_duration (duration, starttime)

/-- What the other tasks and the collaborators do during one iteration of the
play loop. `dump_packets` is the consumer's answer as a function of the
maximum count it is passed. -/
structure PlayIter where
  disposed : Bool
  expired : Bool
  pumped : List PlayControl
  error_code : ErrCode
  dump_packets : Int → ErrCode × List SharedMsg
  send_and_free_messages : ErrCode

/-- The result of one iteration of the play loop. -/
structure PlayStep where
  flow : Flow
  conn : Conn
  starttime : Int
  trace : List Event

/-- The same step with the calls `t` made before it. -/
def PlayStep.after (t : List Event) (s : PlayStep) : PlayStep :=
  { s with trace := t ++ s.trace }

/-- The outcome of a method of the driver over a finite script: `ret` is the code
returned, or `none` when the script ends while the method is still running;
`conn` and `trace` are the connection fields and the calls made up to there. -/
structure Run where
  ret : Option ErrCode
  conn : Conn
  trace : List Event

/-- The same run with the calls `t` made before it. -/
def Run.after (t : List Event) (r : Run) : Run :=
  { r with trace := t ++ r.trace }

/-- The maximum count `do_playing` passes to `consumer->dump_packets`:
`int count = (send_min_interval > 0)? 1 : 0`. -/
def dump_count (c : Conn) : Int :=
  if c.send_min_interval > 0 then 1 else 0

/-- The end of the body of the play loop, for a batch `msgs` that is not empty:
the duration bookkeeping, the send, the duration limit and the pacing sleep,
whose argument is the `double` product `send_min_interval * 1000` cast to
`int64_t` and converted to `st_utime_t`. -/
def do_playing_deliver (user_specified_duration_to_stop : Bool) (c : Conn) (starttime : Int)
    (it : PlayIter) (msgs : List SharedMsg) : PlayStep :=
  let ds := if user_specified_duration_to_stop then collect_durations c.duration starttime msgs
            else (c.duration, starttime)
  if it.send_and_free_messages ≠ ERROR_SUCCESS then
    ⟨Flow.ret it.send_and_free_messages, { c with duration := ds.1 }, ds.2,
      [Event.send_and_free_messages msgs c.stream_id]⟩
  else if user_specified_duration_to_stop ∧ ds.1 ≥ to_int64 c.req.duration then
    ⟨Flow.ret ERROR_RTMP_DURATION_EXCEED, { c with duration := ds.1 }, ds.2,
      [Event.send_and_free_messages msgs c.stream_id]⟩
  else
    ⟨Flow.next, { c with duration := ds.1 }, ds.2,
      Event.send_and_free_messages msgs c.stream_id ::
        (if c.send_min_interval > 0 then
          [Event.st_usleep (to_utime (to_int64 (round_double (c.send_min_interval * 1000))))]
        else [])⟩

/-- The middle of the body of the play loop: the wait on the consumer, the dump
of the packets and, for a batch that is not empty, the delivery. -/
def do_playing_fetch (b : Build) (user_specified_duration_to_stop : Bool) (c : Conn) (starttime : Int)
    (it : PlayIter) : PlayStep :=
  let t_dump := (if b.SRS_PERF_QUEUE_COND_WAIT then
      [Event.consumer_wait (if c.realtime then 0 else b.SRS_PERF_MW_MIN_MSGS) c.mw_sleep]
    else []) ++ [Event.dump_packets (dump_count c)]
  if (it.dump_packets (dump_count c)).1 ≠ ERROR_SUCCESS then
    ⟨Flow.ret (it.dump_packets (dump_count c)).1, c, starttime, t_dump⟩
  else if (it.dump_packets (dump_count c)).2.length ≤ 0 then
    ⟨Flow.next, c, starttime,
      t_dump ++ (if b.SRS_PERF_QUEUE_COND_WAIT then []
        else [Event.st_usleep (to_utime (wrap32 (c.mw_sleep * 1000)))])⟩
  else
    (do_playing_deliver user_specified_duration_to_stop c starttime it (it.dump_packets (dump_count c)).2).after
      t_dump

/-- The body of the loop `while (!disposed)` of `do_playing`. -/
def do_playing_iter (b : Build) (user_specified_duration_to_stop : Bool) (c : Conn) (starttime : Int)
    (it : PlayIter) : PlayStep :=
  if it.expired then ⟨Flow.ret ERROR_USER_DISCONNECT, c, starttime, []⟩
  else if (pump_control c it.pumped).1 ≠ ERROR_SUCCESS then
    ⟨Flow.ret (pump_control c it.pumped).1, c, starttime, (pump_control c it.pumped).2⟩
  else if it.error_code ≠ ERROR_SUCCESS then
    ⟨Flow.ret it.error_code, c, starttime, (pump_control c it.pumped).2⟩
  else
    (do_playing_fetch b user_specified_duration_to_stop c starttime it).after (pump_control c it.pumped).2

/-- The loop `while (!disposed)` of `do_playing`, one script record per
iteration, followed by the final `return ret`. -/
def do_playing_loop (b : Build) (user_specified_duration_to_stop : Bool) :
    Conn → Int → ErrCode → List PlayIter → Run
  | c, _, _, [] => ⟨none, c, []⟩
  | c, starttime, ret, it :: rest =>
    if it.disposed then ⟨some ret, c, []⟩
    else
      match (do_playing_iter b user_specified_duration_to_stop c starttime it).flow with
      | Flow.ret code =>
        ⟨some code, (do_playing_iter b user_specified_duration_to_stop c starttime it).conn,
          (do_playing_iter b user_specified_duration_to_stop c starttime it).trace⟩
      | Flow.next =>
        (do_playing_loop b user_specified_duration_to_stop
          (do_playing_iter b user_specified_duration_to_stop c starttime it).conn
          (do_playing_iter b user_specified_duration_to_stop c starttime it).starttime
          ERROR_SUCCESS rest).after
          (do_playing_iter b user_specified_duration_to_stop c starttime it).trace

/-- What the collaborators do during one `playing`. -/
structure PlayEnv where
  cfg : Config
  refer_check : ErrCode
  create_consumer : ErrCode
  trd_start : ErrCode
  iters : List PlayIter

/-- The connection fields after the set-up of `do_playing` (realtime, merged
write, send_min_interval, socket options) and the calls the set-up makes. -/
def do_playing_setup (b : Build) (c : Conn) (cfg : Config) : Conn × List Event :=
  let c1 := { c with realtime := cfg.get_realtime_enabled c.req.vhost, mw_enabled := true }
  let m := change_mw_sleep b c1 (cfg.get_mw_sleep_ms c.req.vhost)
  let c2 := { m.1 with send_min_interval := cfg.get_send_min_interval c.req.vhost }
  let o := set_sock_options b cfg c2
  (o.1, m.2 ++ o.2)

/-- `SrsRtmpConn::do_playing`. -/
def do_playing (b : Build) (c : Conn) (e : PlayEnv) : Run :=
  if e.cfg.get_refer_enabled c.req.vhost ∧ e.refer_check ≠ ERROR_SUCCESS then
    ⟨some e.refer_check, c, [Event.refer_check c.req.pageUrl]⟩
  else
    (do_playing_loop b (decide (c.req.duration > 0)) (do_playing_setup b c e.cfg).1 (-1) ERROR_SUCCESS
      e.iters).after
      ((if e.cfg.get_refer_enabled c.req.vhost then [Event.refer_check c.req.pageUrl] else []) ++
        (do_playing_setup b c e.cfg).2)

/-- `SrsRtmpConn::playing`. While `do_playing` is running `wakable` is the
consumer; the receive thread is stopped once `do_playing` has returned. -/
def playing (b : Build) (c : Conn) (e : PlayEnv) : Run :=
  if e.create_consumer ≠ ERROR_SUCCESS then
    ⟨some e.create_consumer, c, [Event.enter Method.playing, Event.create_consumer]⟩
  else if e.trd_start ≠ ERROR_SUCCESS then
    ⟨some e.trd_start, c, [Event.enter Method.playing, Event.create_consumer, Event.play_trd_start]⟩
  else
    match (do_playing b { c with wakable := true } e).ret with
    | none =>
      (do_playing b { c with wakable := true } e).after
        [Event.enter Method.playing, Event.create_consumer, Event.play_trd_start]
    | some code =>
      ⟨some code, { (do_playing b { c with wakable := true } e).conn with wakable := false },
        [Event.enter Method.playing, Event.create_consumer, Event.play_trd_start] ++
          (do_playing b { c with wakable := true } e).trace ++ [Event.play_trd_stop]⟩

/-! ## Publish -/

/-- What the other tasks and the publish receive thread show during one
iteration of the publish loop: the flags, then `trd->error_code()` and
`trd->nb_msgs()` after the wait. -/
structure PublishIter where
  disposed : Bool
  expired : Bool
  error_code : ErrCode
  nb_msgs : Int

/-- What the collaborators do during one `publishing`. -/
structure PublishEnv where
  cfg : Config
  hooks : HooksEnv
  refer_check : ErrCode
  can_publish : Bool → Bool
  on_edge_start_publish : ErrCode
  on_publish : ErrCode
  trd_start : ErrCode
  iters : List PublishIter

/-- `SrsRtmpConn::acquire_publish`. -/
def acquire_publish (e : PublishEnv) (is_edge : Bool) : ErrCode × List Event :=
  if !e.can_publish is_edge then (ERROR_SYSTEM_STREAM_BUSY, [Event.can_publish is_edge])
  else if is_edge then (e.on_edge_start_publish, [Event.can_publish is_edge, Event.on_edge_start_publish])
  else (e.on_publish, [Event.can_publish is_edge, Event.source_on_publish])

/-- `SrsRtmpConn::release_publish`. -/
def release_publish (is_edge : Bool) : List Event :=
  if is_edge then [Event.enter Method.release_publish, Event.on_edge_proxy_unpublish]
  else [Event.enter Method.release_publish, Event.source_on_unpublish]

/-- The body of the loop `while (!disposed)` of `do_publishing`; the `Int` is the
local `nb_msgs` afterwards. The `break` on a timeout leaves the loop with
`ret = ERROR_SOCKET_TIMEOUT`, which the function then returns. -/
def do_publishing_iter (c : Conn) (nb_msgs : Int) (it : PublishIter) : Flow × Int × List Event :=
  if it.expired then (Flow.ret ERROR_USER_DISCONNECT, nb_msgs, [])
  else if it.error_code ≠ ERROR_SUCCESS then
    (Flow.ret it.error_code, nb_msgs,
      [Event.publish_trd_wait (if nb_msgs = 0 then c.publish_1stpkt_timeout else c.publish_normal_timeout)])
  else if it.nb_msgs ≤ nb_msgs then
    (Flow.ret ERROR_SOCKET_TIMEOUT, nb_msgs,
      [Event.publish_trd_wait (if nb_msgs = 0 then c.publish_1stpkt_timeout else c.publish_normal_timeout)])
  else
    (Flow.next, it.nb_msgs,
      [Event.publish_trd_wait (if nb_msgs = 0 then c.publish_1stpkt_timeout else c.publish_normal_timeout)])

/-- The loop `while (!disposed)` of `do_publishing` and the final `return ret`;
the code is `none` when the script ends while the loop is still running. -/
def do_publishing_loop (c : Conn) : Int → ErrCode → List PublishIter → Option ErrCode × List Event
  | _, _, [] => (none, [])
  | nb_msgs, ret, it :: rest =>
    if it.disposed then (some ret, [])
    else
      match (do_publishing_iter c nb_msgs it).1 with
      | Flow.ret code => (some code, (do_publishing_iter c nb_msgs it).2.2)
      | Flow.next =>
        ((do_publishing_loop c (do_publishing_iter c nb_msgs it).2.1 ERROR_SUCCESS rest).1,
          (do_publishing_iter c nb_msgs it).2.2 ++
            (do_publishing_loop c (do_publishing_iter c nb_msgs it).2.1 ERROR_SUCCESS rest).2)

/-- The connection fields after the set-up of `do_publishing` (both publish
timeouts, socket options) and the calls the set-up makes. -/
def do_publishing_setup (b : Build) (c : Conn) (cfg : Config) : Conn × List Event :=
  set_sock_options b cfg
    { c with publish_1stpkt_timeout := cfg.get_publish_1stpkt_timeout c.req.vhost,
             publish_normal_timeout := cfg.get_publish_1stpkt_timeout c.req.vhost }

/-- `SrsRtmpConn::do_publishing`. -/
def do_publishing (b : Build) (c : Conn) (e : PublishEnv) : Run :=
  if e.trd_start ≠ ERROR_SUCCESS then ⟨some e.trd_start, c, [Event.publish_trd_start]⟩
  else
    ⟨(do_publishing_loop (do_publishing_setup b c e.cfg).1 0 ERROR_SUCCESS e.iters).1,
      (do_publishing_setup b c e.cfg).1,
      Event.publish_trd_start :: ((do_publishing_setup b c e.cfg).2 ++
        (do_publishing_loop (do_publishing_setup b c e.cfg).1 0 ERROR_SUCCESS e.iters).2)⟩

/-- The end of `publishing`, from the test `ret != ERROR_SYSTEM_STREAM_BUSY` on. -/
def publishing_finish (b : Build) (cfg : Config) (c : Conn) (vhost_is_edge : Bool) (ret : ErrCode) :
    List Event :=
  (if ret ≠ ERROR_SYSTEM_STREAM_BUSY then release_publish vhost_is_edge else []) ++
    http_hooks_on_unpublish b cfg c.req

/-- The calls of `publishing` up to and including `acquire_publish`, when the
referer check and the publish hooks have passed. -/
def publishing_acquire (b : Build) (c : Conn) (e : PublishEnv) : List Event :=
  Event.enter Method.publishing ::
      (if e.cfg.get_refer_enabled c.req.vhost then [Event.refer_check c.req.pageUrl] else []) ++
    (http_hooks_on_publish b e.cfg e.hooks c.req).2 ++
    (acquire_publish e (e.cfg.get_vhost_is_edge c.req.vhost)).2

/-- `SrsRtmpConn::publishing`. -/
def publishing (b : Build) (c : Conn) (e : PublishEnv) : Run :=
  if e.cfg.get_refer_enabled c.req.vhost ∧ e.refer_check ≠ ERROR_SUCCESS then
    ⟨some e.refer_check, c, [Event.enter Method.publishing, Event.refer_check c.req.pageUrl]⟩
  else if (http_hooks_on_publish b e.cfg e.hooks c.req).1 ≠ ERROR_SUCCESS then
    ⟨some (http_hooks_on_publish b e.cfg e.hooks c.req).1, c,
      Event.enter Method.publishing ::
          (if e.cfg.get_refer_enabled c.req.vhost then [Event.refer_check c.req.pageUrl] else []) ++
        (http_hooks_on_publish b e.cfg e.hooks c.req).2⟩
  else if (acquire_publish e (e.cfg.get_vhost_is_edge c.req.vhost)).1 = ERROR_SUCCESS then
    match (do_publishing b c e).ret with
    | none => (do_publishing b c e).after (publishing_acquire b c e)
    | some code =>
      ⟨some code, (do_publishing b c e).conn,
        publishing_acquire b c e ++ (do_publishing b c e).trace ++ [Event.publish_trd_stop] ++
          publishing_finish b e.cfg (do_publishing b c e).conn (e.cfg.get_vhost_is_edge c.req.vhost) code⟩
  else
    ⟨some (acquire_publish e (e.cfg.get_vhost_is_edge c.req.vhost)).1, c,
      publishing_acquire b c e ++
        publishing_finish b e.cfg c (e.cfg.get_vhost_is_edge c.req.vhost)
          (acquire_publish e (e.cfg.get_vhost_is_edge c.req.vhost)).1⟩

/-! ## The service cycle -/

/-- The helpers of `srs_kernel_error.cpp` and `srs_rtmp_stack.cpp` that decide
control flow in the driver; their bodies are outside `srs_app_rtmp_conn.cpp`,
so they are parameters. -/
structure Kernel where
  srs_is_system_control_error : ErrCode → Bool
  strip : Request → Request

/-- What the collaborators do during one `stream_service_cycle`. `stream_id`,
`type`, `stream` and `duration` are what `identify_client` writes through its
reference parameters. -/
structure StreamEnv where
  identify_client : ErrCode
  stream_id : Int
  type : SrsRtmpConnType
  stream : String
  duration : Rat
  security_check : ErrCode
  fetch_or_create : ErrCode
  stat_on_client : ErrCode
  cfg : Config
  hooks : HooksEnv
  start_play : ErrCode
  start_fmle_publish : ErrCode
  start_flash_publish : ErrCode
  play : PlayEnv
  publish : PublishEnv

/-- The connection after `identify_client` has written its reference parameters. -/
def identified (c : Conn) (e : StreamEnv) : Conn :=
  { c with stream_id := e.stream_id, req := { c.req with stream := e.stream, duration := e.duration } }

/-- The connection after `identify_client` and `req->strip()`. -/
def stripped (k : Kernel) (c : Conn) (e : StreamEnv) : Conn :=
  { identified c e with req := k.strip (identified c e).req }

/-- The `case SrsRtmpConnPlay` of `stream_service_cycle`. -/
def stream_service_play (b : Build) (c : Conn) (e : StreamEnv) : Run :=
  if e.start_play ≠ ERROR_SUCCESS then ⟨some e.start_play, c, [Event.start_play c.stream_id]⟩
  else if (http_hooks_on_play b e.cfg e.hooks c.req).1 ≠ ERROR_SUCCESS then
    ⟨some (http_hooks_on_play b e.cfg e.hooks c.req).1, c,
      Event.start_play c.stream_id :: (http_hooks_on_play b e.cfg e.hooks c.req).2⟩
  else
    match (playing b c e.play).ret with
    | none =>
      (playing b c e.play).after (Event.start_play c.stream_id :: (http_hooks_on_play b e.cfg e.hooks c.req).2)
    | some code =>
      ⟨some code, (playing b c e.play).conn,
        Event.start_play c.stream_id :: (http_hooks_on_play b e.cfg e.hooks c.req).2 ++
          (playing b c e.play).trace ++ http_hooks_on_stop b e.cfg (playing b c e.play).conn.req⟩

/-- The `switch (type)` of `stream_service_cycle`. -/
def stream_service_dispatch (b : Build) (c : Conn) (e : StreamEnv) : Run :=
  match e.type with
  | SrsRtmpConnType.SrsRtmpConnPlay => stream_service_play b c e
  | SrsRtmpConnType.SrsRtmpConnFMLEPublish =>
    if e.start_fmle_publish ≠ ERROR_SUCCESS then
      ⟨some e.start_fmle_publish, c, [Event.start_fmle_publish c.stream_id]⟩
    else (publishing b c e.publish).after [Event.start_fmle_publish c.stream_id]
  | SrsRtmpConnType.SrsRtmpConnFlashPublish =>
    if e.start_flash_publish ≠ ERROR_SUCCESS then
      ⟨some e.start_flash_publish, c, [Event.start_flash_publish c.stream_id]⟩
    else (publishing b c e.publish).after [Event.start_flash_publish c.stream_id]
  | SrsRtmpConnType.SrsRtmpConnUnknown => ⟨some ERROR_SYSTEM_CLIENT_INVALID, c, []⟩

/-- The calls of `stream_service_cycle` from `identify_client` to
`source->set_cache`, when all of them succeed. -/
def stream_service_prologue (b : Build) (c : Conn) (e : StreamEnv) : List Event :=
  [Event.enter Method.stream_service_cycle, Event.identify_client, Event.security_check,
    Event.set_recv_timeout b.SRS_CONSTS_RTMP_TIMEOUT_US, Event.set_send_timeout b.SRS_CONSTS_RTMP_TIMEOUT_US,
    Event.fetch_or_create, Event.stat_on_client, Event.set_cache (e.cfg.get_gop_cache c.req.vhost)]

/-- `SrsRtmpConn::stream_service_cycle`. -/
def stream_service_cycle (b : Build) (k : Kernel) (c : Conn) (e : StreamEnv) : Run :=
  if e.identify_client ≠ ERROR_SUCCESS then
    ⟨some e.identify_client, identified c e,
      [Event.enter Method.stream_service_cycle, Event.identify_client]⟩
  else if e.security_check ≠ ERROR_SUCCESS then
    ⟨some e.security_check, stripped k c e,
      [Event.enter Method.stream_service_cycle, Event.identify_client, Event.security_check]⟩
  else if e.fetch_or_create ≠ ERROR_SUCCESS then
    ⟨some e.fetch_or_create, stripped k c e,
      [Event.enter Method.stream_service_cycle, Event.identify_client, Event.security_check,
        Event.set_recv_timeout b.SRS_CONSTS_RTMP_TIMEOUT_US,
        Event.set_send_timeout b.SRS_CONSTS_RTMP_TIMEOUT_US, Event.fetch_or_create]⟩
  else if e.stat_on_client ≠ ERROR_SUCCESS then
    ⟨some e.stat_on_client, stripped k c e,
      [Event.enter Method.stream_service_cycle, Event.identify_client, Event.security_check,
        Event.set_recv_timeout b.SRS_CONSTS_RTMP_TIMEOUT_US,
        Event.set_send_timeout b.SRS_CONSTS_RTMP_TIMEOUT_US, Event.fetch_or_create, Event.stat_on_client]⟩
  else
    (stream_service_dispatch b (stripped k c e) e).after (stream_service_prologue b (stripped k c e) e)

/-! ## Edge token traversal -/

/-- What the origins and the upstream client answer during the traversal:
`connect i hostport` is the result of `transport->connect` for origin `i`. -/
structure TraverseEnv where
  connect : Nat → String → ErrCode
  handshake : ErrCode
  connect_app : ErrCode

/-- `SrsRtmpConn::connect_server`. -/
def connect_server (e : TraverseEnv) (i : Nat) (hostport : String) : ErrCode × List Event :=
  (e.connect i hostport, [Event.transport_connect hostport SRS_EDGE_TOKEN_TRAVERSE_TIMEOUT_US])

/-- The loop `for (int i = 0; i < (int)args.size(); i++)` of
`check_edge_token_traverse_auth`, started at index `i` with the current `ret`. -/
def connect_origins (e : TraverseEnv) : Nat → ErrCode → List String → ErrCode × List Event
  | _, ret, [] => (ret, [])
  | i, _, hostport :: rest =>
    if (connect_server e i hostport).1 = ERROR_SUCCESS then (ERROR_SUCCESS, (connect_server e i hostport).2)
    else
      ((connect_origins e (i + 1) (connect_server e i hostport).1 rest).1,
        (connect_server e i hostport).2 ++ (connect_origins e (i + 1) (connect_server e i hostport).1 rest).2)

/-- `SrsRtmpConn::do_token_traverse_auth`. -/
def do_token_traverse_auth (b : Build) (e : TraverseEnv) (req : Request) : ErrCode × List Event :=
  if e.handshake ≠ ERROR_SUCCESS then
    (e.handshake,
      [Event.client_set_recv_timeout b.SRS_CONSTS_RTMP_TIMEOUT_US,
        Event.client_set_send_timeout b.SRS_CONSTS_RTMP_TIMEOUT_US, Event.client_handshake])
  else
    (e.connect_app,
      [Event.client_set_recv_timeout b.SRS_CONSTS_RTMP_TIMEOUT_US,
        Event.client_set_send_timeout b.SRS_CONSTS_RTMP_TIMEOUT_US, Event.client_handshake,
        Event.client_connect_app req.app req.tcUrl true])

/-- `SrsRtmpConn::check_edge_token_traverse_auth`. -/
def check_edge_token_traverse_auth (b : Build) (cfg : Config) (e : TraverseEnv) (req : Request) :
    ErrCode × List Event :=
  if (connect_origins e 0 ERROR_SUCCESS (cfg.get_vhost_edge_origin req.vhost)).1 ≠ ERROR_SUCCESS then
    connect_origins e 0 ERROR_SUCCESS (cfg.get_vhost_edge_origin req.vhost)
  else
    ((do_token_traverse_auth b e req).1,
      (connect_origins e 0 ERROR_SUCCESS (cfg.get_vhost_edge_origin req.vhost)).2 ++
        (do_token_traverse_auth b e req).2)

/-- One pass of the loop `while (!disposed)` of `service_cycle`: the flag read at
the loop top and what the collaborators do during the stream service cycle. -/
structure Episode where
  disposed : Bool
  env : StreamEnv

/-- What the collaborators do during one `service_cycle`. -/
structure ServiceEnv where
  cfg : Config
  set_window_ack_size : ErrCode
  set_peer_bandwidth : ErrCode
  bandwidth_check : ErrCode
  traverse : TraverseEnv
  set_chunk_size : ErrCode
  response_connect_app : ErrCode
  on_bw_done : ErrCode
  episodes : List Episode

/-- What the loop of `service_cycle` does with the code `r` that
`stream_service_cycle` returned: return it (`Flow.ret`), or go on (`Flow.next`)
after the calls given. -/
def service_recover (k : Kernel) (r : ErrCode) : Flow × List Event :=
  if r = ERROR_SUCCESS then (Flow.next, [])
  else if !k.srs_is_system_control_error r then (Flow.ret r, [])
  else if r = ERROR_CONTROL_REPUBLISH then
    (Flow.next,
      [Event.set_send_timeout SRS_REPUBLISH_RECV_TIMEOUT_US, Event.set_recv_timeout SRS_REPUBLISH_SEND_TIMEOUT_US])
  else if r = ERROR_CONTROL_RTMP_CLOSE then
    (Flow.next,
      [Event.set_recv_timeout SRS_PAUSED_RECV_TIMEOUT_US, Event.set_send_timeout SRS_PAUSED_SEND_TIMEOUT_US])
  else (Flow.ret r, [])

/-- The loop `while (!disposed)` of `service_cycle` and the final `return ret`;
`ret` is the value of the local at the loop top. -/
def service_loop (b : Build) (k : Kernel) : Conn → ErrCode → List Episode → Run
  | c, _, [] => ⟨none, c, []⟩
  | c, ret, ep :: rest =>
    if ep.disposed then ⟨some ret, c, []⟩
    else
      match (stream_service_cycle b k c ep.env).ret with
      | none => stream_service_cycle b k c ep.env
      | some r =>
        match (service_recover k r).1 with
        | Flow.ret code =>
          ⟨some code, (stream_service_cycle b k c ep.env).conn, (stream_service_cycle b k c ep.env).trace⟩
        | Flow.next =>
          (service_loop b k (stream_service_cycle b k c ep.env).conn r rest).after
            ((stream_service_cycle b k c ep.env).trace ++ (service_recover k r).2)

/-- The token traversal step of `service_cycle`: run only for an edge vhost with
token traversal enabled. -/
def service_traverse (b : Build) (c : Conn) (e : ServiceEnv) : ErrCode × List Event :=
  if e.cfg.get_vhost_is_edge c.req.vhost && e.cfg.get_vhost_edge_token_traverse c.req.vhost then
    check_edge_token_traverse_auth b e.cfg e.traverse c.req
  else (ERROR_SUCCESS, [])

/-- The calls of `service_cycle` before its loop, when all of them succeed and
no bandwidth check is configured. -/
def service_prologue (b : Build) (c : Conn) (e : ServiceEnv) : List Event :=
  [Event.enter Method.service_cycle, Event.set_window_ack_size 2500000, Event.set_peer_bandwidth 2500000 2] ++
    (service_traverse b c e).2 ++
    [Event.set_chunk_size (e.cfg.get_chunk_size c.req.vhost), Event.response_connect_app, Event.on_bw_done]

/-- `SrsRtmpConn::service_cycle`. -/
def service_cycle (b : Build) (k : Kernel) (c : Conn) (e : ServiceEnv) : Run :=
  if e.set_window_ack_size ≠ ERROR_SUCCESS then
    ⟨some e.set_window_ack_size, c, [Event.enter Method.service_cycle, Event.set_window_ack_size 2500000]⟩
  else if e.set_peer_bandwidth ≠ ERROR_SUCCESS then
    ⟨some e.set_peer_bandwidth, c,
      [Event.enter Method.service_cycle, Event.set_window_ack_size 2500000,
        Event.set_peer_bandwidth 2500000 2]⟩
  else if e.cfg.get_bw_check_enabled c.req.vhost then
    ⟨some e.bandwidth_check, c,
      [Event.enter Method.service_cycle, Event.set_window_ack_size 2500000,
        Event.set_peer_bandwidth 2500000 2, Event.bandwidth_check]⟩
  else if (service_traverse b c e).1 ≠ ERROR_SUCCESS then
    ⟨some (service_traverse b c e).1, c,
      [Event.enter Method.service_cycle, Event.set_window_ack_size 2500000,
        Event.set_peer_bandwidth 2500000 2] ++ (service_traverse b c e).2⟩
  else if e.set_chunk_size ≠ ERROR_SUCCESS then
    ⟨some e.set_chunk_size, c,
      [Event.enter Method.service_cycle, Event.set_window_ack_size 2500000,
        Event.set_peer_bandwidth 2500000 2] ++ (service_traverse b c e).2 ++
        [Event.set_chunk_size (e.cfg.get_chunk_size c.req.vhost)]⟩
  else if e.response_connect_app ≠ ERROR_SUCCESS then
    ⟨some e.response_connect_app, c,
      [Event.enter Method.service_cycle, Event.set_window_ack_size 2500000,
        Event.set_peer_bandwidth 2500000 2] ++ (service_traverse b c e).2 ++
        [Event.set_chunk_size (e.cfg.get_chunk_size c.req.vhost), Event.response_connect_app]⟩
  else if e.on_bw_done ≠ ERROR_SUCCESS then
    ⟨some e.on_bw_done, c, service_prologue b c e⟩
  else (service_loop b k c ERROR_SUCCESS e.episodes).after (service_prologue b c e)

/-! ## The connection cycle -/

/-- What the collaborators do during one `do_cycle`. `req` is the request as
`connect_app` fills it, `ip` the peer address of the connection. -/
structure CycleEnv where
  ip : String
  kafka_on_client : ErrCode
  handshake : ErrCode
  connect_app : ErrCode
  req : Request
  cfg : Config
  hooks : HooksEnv
  refer_check : ErrCode
  service : ServiceEnv
  cfg_disconnect : Config
  kafka_on_close : ErrCode

/-- The end of `check_vhost`, from the referer check on, for the request `req`
with the resolved vhost name. -/
def check_vhost_policy (b : Build) (cfg : Config) (hk : HooksEnv) (refer_check : ErrCode) (req : Request) :
    ErrCode × Request × List Event :=
  if cfg.get_refer_enabled req.vhost ∧ refer_check ≠ ERROR_SUCCESS then
    (refer_check, req, [Event.enter Method.check_vhost, Event.refer_check req.pageUrl])
  else
    ((http_hooks_on_connect b cfg hk req).1, req,
      Event.enter Method.check_vhost ::
        ((if cfg.get_refer_enabled req.vhost then [Event.refer_check req.pageUrl] else []) ++
          (http_hooks_on_connect b cfg hk req).2))

/-- `SrsRtmpConn::check_vhost`; the request is returned as the method leaves it. -/
def check_vhost (b : Build) (cfg : Config) (hk : HooksEnv) (refer_check : ErrCode) (req : Request)
    (try_default_vhost : Bool) : ErrCode × Request × List Event :=
  match cfg.get_vhost req.vhost (some try_default_vhost) with
  | none => (ERROR_RTMP_VHOST_NOT_FOUND, req, [Event.enter Method.check_vhost])
  | some arg0 =>
    if !cfg.get_vhost_enabled req.vhost then (ERROR_RTMP_VHOST_NOT_FOUND, req, [Event.enter Method.check_vhost])
    else
      check_vhost_policy b cfg hk refer_check (if req.vhost ≠ arg0 then { req with vhost := arg0 } else req)

/-- The calls of `do_cycle` up to and including the handshake. -/
def do_cycle_greeting (b : Build) : List Event :=
  (if b.SRS_AUTO_KAFKA then [Event.kafka_on_client] else []) ++
    [Event.set_recv_timeout b.SRS_CONSTS_RTMP_TIMEOUT_US, Event.set_send_timeout b.SRS_CONSTS_RTMP_TIMEOUT_US,
      Event.handshake]

/-- The request of `do_cycle` after `connect_app`, `req->ip = ip` and the vhost
discovery. -/
def discovered (cfg : Config) (req : Request) (ip : String) : Request :=
  match cfg.get_vhost req.vhost none with
  | some arg0 => { req with ip := ip, vhost := arg0 }
  | none => { req with ip := ip }

/-- The calls of `do_cycle` before `service_cycle`, when all of them succeed. -/
def do_cycle_prologue (b : Build) (e : CycleEnv) : List Event :=
  do_cycle_greeting b ++ [Event.connect_app] ++
    (check_vhost b e.cfg e.hooks e.refer_check (discovered e.cfg e.req e.ip) true).2.2

/-- The connection with which `do_cycle` enters `service_cycle`. -/
def do_cycle_conn (b : Build) (c : Conn) (e : CycleEnv) : Conn :=
  { c with req := (check_vhost b e.cfg e.hooks e.refer_check (discovered e.cfg e.req e.ip) true).2.1 }

/-- `SrsRtmpConn::do_cycle`. The result of `on_disconnect` is dropped. -/
def do_cycle (b : Build) (k : Kernel) (c : Conn) (e : CycleEnv) : Run :=
  if b.SRS_AUTO_KAFKA ∧ e.kafka_on_client ≠ ERROR_SUCCESS then
    ⟨some e.kafka_on_client, c, [Event.kafka_on_client]⟩
  else if e.handshake ≠ ERROR_SUCCESS then ⟨some e.handshake, c, do_cycle_greeting b⟩
  else if e.connect_app ≠ ERROR_SUCCESS then
    ⟨some e.connect_app, { c with req := e.req }, do_cycle_greeting b ++ [Event.connect_app]⟩
  else if (discovered e.cfg e.req e.ip).schema.isEmpty ∨ (discovered e.cfg e.req e.ip).vhost.isEmpty ∨
      (discovered e.cfg e.req e.ip).port = 0 ∨ (discovered e.cfg e.req e.ip).app.isEmpty then
    ⟨some ERROR_RTMP_REQ_TCURL, { c with req := discovered e.cfg e.req e.ip },
      do_cycle_greeting b ++ [Event.connect_app]⟩
  else if (check_vhost b e.cfg e.hooks e.refer_check (discovered e.cfg e.req e.ip) true).1 ≠
      ERROR_SUCCESS then
    ⟨some (check_vhost b e.cfg e.hooks e.refer_check (discovered e.cfg e.req e.ip) true).1,
      do_cycle_conn b c e, do_cycle_prologue b e⟩
  else
    match (service_cycle b k (do_cycle_conn b c e) e.service).ret with
    | none => (service_cycle b k (do_cycle_conn b c e) e.service).after (do_cycle_prologue b e)
    | some ret =>
      ⟨some ret, (service_cycle b k (do_cycle_conn b c e) e.service).conn,
        do_cycle_prologue b e ++ (service_cycle b k (do_cycle_conn b c e) e.service).trace ++
          (on_disconnect b e.cfg_disconnect (service_cycle b k (do_cycle_conn b c e) e.service).conn.req
            e.kafka_on_close).2⟩

/-- The constructor `SrsRtmpConn::SrsRtmpConn`: it does not initialise the two
publish timeouts, which are therefore arbitrary. -/
def SrsRtmpConn (b : Build) (req : Request) (stream_id publish_1stpkt_timeout publish_normal_timeout : Int) :
    Conn :=
  { req := req, stream_id := stream_id, duration := 0, wakable := false, mw_sleep := b.SRS_PERF_MW_SLEEP,
    mw_enabled := false, realtime := b.SRS_PERF_MIN_LATENCY_ENABLED, send_min_interval := 0,
    tcp_nodelay := false, publish_1stpkt_timeout := publish_1stpkt_timeout,
    publish_normal_timeout := publish_normal_timeout }

/-! ## Messages of a publisher -/

/-- One call made while a message of a publisher is handled.
`handle_publish_message` is not called from within `srs_app_rtmp_conn.cpp`: the
publish receive thread calls it for each message it receives, so its calls are
kept apart from the calls of the connection's own task. -/
inductive PublishCall where
  | decode_message
  | fmle_unpublish (stream_id : Int) (transaction_id : Rat)
  | on_edge_proxy_publish
  | on_audio
  | on_video
  | on_aggregate
  | on_meta_data
  deriving DecidableEq, Repr

/-- One message received from a publisher and the answers of the protocol and
the source while it is handled. -/
structure PublishMsg where
  msg : CommonMessage
  decode_message : ErrCode
  pkt : Packet
  fmle_unpublish : ErrCode
  on_edge_proxy_publish : ErrCode
  on_audio : ErrCode
  on_video : ErrCode
  on_aggregate : ErrCode
  on_meta_data : ErrCode

/-- `SrsRtmpConn::process_publish_message`. -/
def process_publish_message (m : PublishMsg) (vhost_is_edge : Bool) : ErrCode × List PublishCall :=
  if vhost_is_edge then (m.on_edge_proxy_publish, [PublishCall.on_edge_proxy_publish])
  else if m.msg.is_audio then (m.on_audio, [PublishCall.on_audio])
  else if m.msg.is_video then (m.on_video, [PublishCall.on_video])
  else if m.msg.is_aggregate then (m.on_aggregate, [PublishCall.on_aggregate])
  else if m.msg.is_amf0_data || m.msg.is_amf3_data then
    if m.decode_message ≠ ERROR_SUCCESS then (m.decode_message, [PublishCall.decode_message])
    else match m.pkt with
      | Packet.OnMetaData => (m.on_meta_data, [PublishCall.decode_message, PublishCall.on_meta_data])
      | _ => (ERROR_SUCCESS, [PublishCall.decode_message])
  else (ERROR_SUCCESS, [])

/-- `SrsRtmpConn::handle_publish_message`. -/
def handle_publish_message (c : Conn) (m : PublishMsg) (is_fmle vhost_is_edge : Bool) :
    ErrCode × List PublishCall :=
  if m.msg.is_amf0_command || m.msg.is_amf3_command then
    if m.decode_message ≠ ERROR_SUCCESS then (m.decode_message, [PublishCall.decode_message])
    else if !is_fmle then (ERROR_CONTROL_REPUBLISH, [PublishCall.decode_message])
    else match m.pkt with
      | Packet.FMLEStart transaction_id =>
        if m.fmle_unpublish ≠ ERROR_SUCCESS then
          (m.fmle_unpublish,
            [PublishCall.decode_message, PublishCall.fmle_unpublish c.stream_id transaction_id])
        else
          (ERROR_CONTROL_REPUBLISH,
            [PublishCall.decode_message, PublishCall.fmle_unpublish c.stream_id transaction_id])
      | _ => (ERROR_SUCCESS, [PublishCall.decode_message])
  else process_publish_message m vhost_is_edge

/-! ## Reload callbacks -/

/-- The state a session shares with the reload callbacks: the fields of
`SrsRtmpConn` and the two flags `disposed` and `expired` of its base
`SrsConnection`, which the play and the publish loop read at their top. -/
structure Session where
  conn : Conn
  disposed : Bool
  expired : Bool
  deriving DecidableEq, Repr

/-- `SrsRtmpConn::on_reload_vhost_removed`: on both paths it only logs. -/
def on_reload_vhost_removed (s : Session) (vhost : String) : ErrCode × Session × List Event :=
  if s.conn.req.vhost ≠ vhost then (ERROR_SUCCESS, s, [])
  else (ERROR_SUCCESS, s, [])

/-- `SrsRtmpConn::on_reload_vhost_play`. -/
def on_reload_vhost_play (cfg : Config) (s : Session) (vhost : String) : ErrCode × Session × List Event :=
  if s.conn.req.vhost ≠ vhost then (ERROR_SUCCESS, s, [])
  else if cfg.get_send_min_interval vhost ≠ s.conn.send_min_interval then
    (ERROR_SUCCESS, { s with conn := { s.conn with send_min_interval := cfg.get_send_min_interval vhost } }, [])
  else (ERROR_SUCCESS, s, [])

/-- `SrsRtmpConn::on_reload_vhost_tcp_nodelay`. -/
def on_reload_vhost_tcp_nodelay (b : Build) (cfg : Config) (s : Session) (vhost : String) :
    ErrCode × Session × List Event :=
  if s.conn.req.vhost ≠ vhost then (ERROR_SUCCESS, s, [])
  else (ERROR_SUCCESS, { s with conn := (set_sock_options b cfg s.conn).1 }, (set_sock_options b cfg s.conn).2)

/-- `SrsRtmpConn::on_reload_vhost_realtime`. -/
def on_reload_vhost_realtime (cfg : Config) (s : Session) (vhost : String) : ErrCode × Session × List Event :=
  if s.conn.req.vhost ≠ vhost then (ERROR_SUCCESS, s, [])
  else if cfg.get_realtime_enabled s.conn.req.vhost ≠ s.conn.realtime then
    (ERROR_SUCCESS, { s with conn := { s.conn with realtime := cfg.get_realtime_enabled s.conn.req.vhost } }, [])
  else (ERROR_SUCCESS, s, [])

/-- `SrsRtmpConn::on_reload_vhost_publish`. -/
def on_reload_vhost_publish (cfg : Config) (s : Session) (vhost : String) : ErrCode × Session × List Event :=
  if s.conn.req.vhost ≠ vhost then (ERROR_SUCCESS, s, [])
  else
    let p1stpt := cfg.get_publish_1stpkt_timeout s.conn.req.vhost
    let c1 := if p1stpt ≠ s.conn.publish_1stpkt_timeout then { s.conn with publish_1stpkt_timeout := p1stpt }
              else s.conn
    let pnt := cfg.get_publish_normal_timeout s.conn.req.vhost
    let c2 := if pnt ≠ c1.publish_normal_timeout then { c1 with publish_normal_timeout := pnt } else c1
    (ERROR_SUCCESS, { s with conn := c2 }, [])

/-- The script record of a play iteration whose loop top reads the flags
`disposed` and `expired` of the session `s`. -/
def PlayIter.reading (it : PlayIter) (s : Session) : PlayIter :=
  { it with disposed := s.disposed, expired := s.expired }

/-- The script record of a publish iteration whose loop top reads the flags
`disposed` and `expired` of the session `s`. -/
def PublishIter.reading (it : PublishIter) (s : Session) : PublishIter :=
  { it with disposed := s.disposed, expired := s.expired }

/-! ## Observations on traces -/

/-- The messages handed to `send_and_free_messages`, in order. -/
def sent_messages : List Event → List SharedMsg
  | [] => []
  | Event.send_and_free_messages msgs _ :: t => msgs ++ sent_messages t
  | _ :: t => sent_messages t

/-- The driver methods invoked, in order. -/
def entered : List Event → List Method
  | [] => []
  | Event.enter m :: t => m :: entered t
  | _ :: t => entered t

/-- The webhook callbacks made, in order. -/
def hooked : List Event → List (Hook × String)
  | [] => []
  | Event.http_hook h url :: t => (h, url) :: hooked t
  | _ :: t => hooked t

/-- The calls that release a publish on the source, in order: `true` stands for
`source->on_edge_proxy_unpublish()` and `false` for `source->on_unpublish()`,
the two calls of `release_publish`. -/
def released : List Event → List Bool
  | [] => []
  | Event.source_on_unpublish :: t => false :: released t
  | Event.on_edge_proxy_unpublish :: t => true :: released t
  | _ :: t => released t

/-- The maximum counts passed to `consumer->dump_packets`, in order. -/
def dump_counts : List Event → List Int
  | [] => []
  | Event.dump_packets count :: t => count :: dump_counts t
  | _ :: t => dump_counts t

/-- The timestamp of the last message of a list, `dflt` for the empty list. -/
def last_timestamp (dflt : Int) : List SharedMsg → Int
  | [] => dflt
  | m :: rest => last_timestamp m.timestamp rest

/-- The batches `consumer->dump_packets` hands out with success along a run of the
play loop, in order, up to the point where the loop returns or the script ends. -/
def dumped_batches (b : Build) (user_specified_duration_to_stop : Bool) :
    Conn → Int → List PlayIter → List (List SharedMsg)
  | _, _, [] => []
  | c, starttime, it :: rest =>
    if it.disposed then []
    else
      (if it.expired = false ∧ (pump_control c it.pumped).1 = ERROR_SUCCESS ∧
          it.error_code = ERROR_SUCCESS ∧ (it.dump_packets (dump_count c)).1 = ERROR_SUCCESS then
        [(it.dump_packets (dump_count c)).2]
      else []) ++
      match (do_playing_iter b user_specified_duration_to_stop c starttime it).flow with
      | Flow.ret _ => []
      | Flow.next =>
        dumped_batches b user_specified_duration_to_stop
          (do_playing_iter b user_specified_duration_to_stop c starttime it).conn
          (do_playing_iter b user_specified_duration_to_stop c starttime it).starttime rest

/-! ## Concrete builds, configurations and runs -/

/-- A vhost configuration with every optional feature off. -/
def plain_config : Config :=
  { get_vhost := fun v _ => some v, get_vhost_enabled := fun _ => true, get_refer_enabled := fun _ => false,
    get_bw_check_enabled := fun _ => false, get_vhost_is_edge := fun _ => false,
    get_vhost_edge_token_traverse := fun _ => false, get_vhost_edge_origin := fun _ => [],
    get_chunk_size := fun _ => 60000, get_gop_cache := fun _ => true, get_realtime_enabled := fun _ => false,
    get_mw_sleep_ms := fun _ => 350, get_send_min_interval := fun _ => 0, get_tcp_nodelay := fun _ => false,
    get_publish_1stpkt_timeout := fun _ => 20000, get_publish_normal_timeout := fun _ => 5000,
    get_vhost_http_hooks_enabled := fun _ => false, get_vhost_on_connect := fun _ => none,
    get_vhost_on_close := fun _ => none, get_vhost_on_publish := fun _ => none,
    get_vhost_on_unpublish := fun _ => none, get_vhost_on_play := fun _ => none,
    get_vhost_on_stop := fun _ => none }

/-- A build with webhooks, condition wait, send buffer and nodelay tuning, and
no kafka. -/
def plain_build : Build :=
  { SRS_AUTO_KAFKA := false, SRS_AUTO_HTTP_CALLBACK := true, SRS_PERF_QUEUE_COND_WAIT := true,
    SRS_PERF_MW_SO_SNDBUF := true, SRS_PERF_SO_SNDBUF_SIZE := none, SRS_PERF_TCP_NODELAY := true,
    SRS_PERF_MW_SLEEP := 350, SRS_PERF_MW_MIN_MSGS := 8, SRS_PERF_MW_MSGS := 128,
    SRS_PERF_MIN_LATENCY_ENABLED := false, SRS_CONSTS_RTMP_TIMEOUT_US := 30000000,
    SRS_CONSTS_RTMP_DEFAULT_PORT := 1935 }

/-- A request for `rtmp://h/live/x` with the given play duration. -/
def live_request (duration : Rat) : Request :=
  { tcUrl := "rtmp://h/live", pageUrl := "", swfUrl := "", schema := "rtmp", vhost := "h", port := 1935,
    app := "live", stream := "x", duration := duration, ip := "1.2.3.4" }

/-- A freshly constructed connection whose request asks for the given duration. -/
def fresh_conn (duration : Rat) : Conn :=
  SrsRtmpConn plain_build (live_request duration) 1 0 0

/-- A play iteration in which nothing goes wrong and the consumer hands out
`msgs` whatever maximum it is given. -/
def quiet_iter (msgs : List SharedMsg) : PlayIter :=
  { disposed := false, expired := false, pumped := [], error_code := ERROR_SUCCESS,
    dump_packets := fun _ => (ERROR_SUCCESS, msgs), send_and_free_messages := ERROR_SUCCESS }

/-- The loop top at which the connection is found disposed. -/
def disposed_iter : PlayIter :=
  { quiet_iter [] with disposed := true }

/-- A `playing` over the given iterations in which nothing goes wrong. -/
def quiet_play (iters : List PlayIter) : PlayEnv :=
  { cfg := plain_config, refer_check := ERROR_SUCCESS, create_consumer := ERROR_SUCCESS,
    trd_start := ERROR_SUCCESS, iters := iters }

/-- Three batches with timestamps 10, 10, 30 / none / 30, 70, then a dispose. -/
def three_batches : PlayEnv :=
  quiet_play
    [quiet_iter [⟨10, 0⟩, ⟨10, 1⟩, ⟨30, 2⟩], quiet_iter [], quiet_iter [⟨30, 3⟩, ⟨70, 4⟩], disposed_iter]

/-- The helpers of the kernel: republish and close are the system control
errors, `strip` changes nothing. -/
def plain_kernel : Kernel :=
  { srs_is_system_control_error := fun r =>
      decide (r = ERROR_CONTROL_RTMP_CLOSE) || decide (r = ERROR_CONTROL_REPUBLISH),
    strip := fun r => r }

/-- A webhook dispatcher that accepts everything. -/
def plain_hooks : HooksEnv :=
  { on_connect := fun _ _ => ERROR_SUCCESS, on_publish := fun _ _ => ERROR_SUCCESS,
    on_play := fun _ _ => ERROR_SUCCESS }

/-- A `publishing` over the given iterations in which nothing else goes wrong. -/
def quiet_publish (iters : List PublishIter) : PublishEnv :=
  { cfg := plain_config, hooks := plain_hooks, refer_check := ERROR_SUCCESS, can_publish := fun _ => true,
    on_edge_start_publish := ERROR_SUCCESS, on_publish := ERROR_SUCCESS, trd_start := ERROR_SUCCESS,
    iters := iters }

/-- A stream service cycle of the given client type in which nothing goes wrong
before the play or publish loop. -/
def quiet_stream (type : SrsRtmpConnType) (play : PlayEnv) (publish : PublishEnv) : StreamEnv :=
  { identify_client := ERROR_SUCCESS, stream_id := 1, type := type, stream := "x", duration := 0,
    security_check := ERROR_SUCCESS, fetch_or_create := ERROR_SUCCESS, stat_on_client := ERROR_SUCCESS,
    cfg := plain_config, hooks := plain_hooks, start_play := ERROR_SUCCESS,
    start_fmle_publish := ERROR_SUCCESS, start_flash_publish := ERROR_SUCCESS, play := play,
    publish := publish }

/-- A play iteration in which the player sends a closeStream command. -/
def close_stream_iter : PlayIter :=
  { quiet_iter [] with
    pumped := [{ msg := some ⟨true, false, false, false, false, false, false⟩,
                 decode_message := ERROR_SUCCESS, pkt := Packet.CloseStream,
                 send_and_free_packet := ERROR_SUCCESS, rtmp_on_play_client_pause := ERROR_SUCCESS,
                 consumer_on_play_client_pause := ERROR_SUCCESS }] }

/-- A play episode that ends with the player's closeStream. -/
def close_episode : Episode :=
  { disposed := false,
    env := quiet_stream SrsRtmpConnType.SrsRtmpConnPlay (quiet_play [quiet_iter [⟨0, 0⟩], close_stream_iter])
      (quiet_publish []) }

/-- An FMLE publish episode in which two waits see new messages and the
receive thread then reports the code `code`. -/
def publish_episode (code : ErrCode) : Episode :=
  { disposed := false,
    env := quiet_stream SrsRtmpConnType.SrsRtmpConnFMLEPublish (quiet_play [])
      (quiet_publish [⟨false, false, ERROR_SUCCESS, 3⟩, ⟨false, false, ERROR_SUCCESS, 7⟩,
        ⟨false, false, code, 7⟩]) }

/-- The loop top of `service_cycle` at which the connection is found disposed. -/
def disposed_episode : Episode :=
  { disposed := true, env := quiet_stream SrsRtmpConnType.SrsRtmpConnUnknown (quiet_play []) (quiet_publish []) }

/-- The calls on the source and on the publish receive thread, which a rejected
publish must not make. -/
def touches_publish : Event → Bool
  | Event.source_on_publish => true
  | Event.on_edge_start_publish => true
  | Event.source_on_unpublish => true
  | Event.on_edge_proxy_unpublish => true
  | Event.enter Method.release_publish => true
  | Event.publish_trd_start => true
  | Event.publish_trd_wait _ => true
  | Event.publish_trd_stop => true
  | _ => false

/-- A play episode whose play hook is configured and rejects. -/
def rejected_play : StreamEnv :=
  { quiet_stream SrsRtmpConnType.SrsRtmpConnPlay (quiet_play []) (quiet_publish []) with
    cfg := { plain_config with get_vhost_http_hooks_enabled := fun _ => true,
                               get_vhost_on_play := fun _ => some ["http://hook/play"] },
    hooks := { plain_hooks with on_play := fun _ _ => ErrCode.other 3000 } }

/-- A token traversal in which every origin accepts. -/
def plain_traverse : TraverseEnv :=
  { connect := fun _ _ => ERROR_SUCCESS, handshake := ERROR_SUCCESS, connect_app := ERROR_SUCCESS }

/-- A `service_cycle` over the given episodes in which nothing else goes wrong. -/
def quiet_service (episodes : List Episode) : ServiceEnv :=
  { cfg := plain_config, set_window_ack_size := ERROR_SUCCESS, set_peer_bandwidth := ERROR_SUCCESS,
    bandwidth_check := ERROR_SUCCESS, traverse := plain_traverse, set_chunk_size := ERROR_SUCCESS,
    response_connect_app := ERROR_SUCCESS, on_bw_done := ERROR_SUCCESS, episodes := episodes }

/-- A `do_cycle` with the given handshake result over the given episodes in
which nothing else goes wrong. -/
def quiet_cycle (handshake : ErrCode) (episodes : List Episode) : CycleEnv :=
  { ip := "1.2.3.4", kafka_on_client := ERROR_SUCCESS, handshake := handshake, connect_app := ERROR_SUCCESS,
    req := live_request 0, cfg := plain_config, hooks := plain_hooks, refer_check := ERROR_SUCCESS,
    service := quiet_service episodes, cfg_disconnect := plain_config, kafka_on_close := ERROR_SUCCESS }

/-- The methods of the driver that a stream service cycle can enter. -/
def stream_methods : List Method :=
  [Method.stream_service_cycle, Method.http_hooks_on_play, Method.playing, Method.http_hooks_on_stop,
    Method.publishing, Method.http_hooks_on_publish, Method.release_publish,
    Method.http_hooks_on_unpublish]

/-- A `do_cycle` on a build with kafka in which the kafka notification at the
end fails, over a player that closes the stream and a dispose. -/
def closing_cycle : CycleEnv :=
  { quiet_cycle ERROR_SUCCESS [close_episode, disposed_episode] with kafka_on_close := ErrCode.other 4000 }

/-- A connection that paces its delivery: `send_min_interval` is 40 ms. -/
def pacing_conn : Conn :=
  { fresh_conn 0 with send_min_interval := 40 }

/-- A play iteration whose consumer holds `queue` and hands out at most the
maximum it is given, everything when the maximum is 0. -/
def honouring_iter (queue : List SharedMsg) : PlayIter :=
  { quiet_iter [] with
    dump_packets := fun n => (ERROR_SUCCESS, if 0 < n then queue.take n.toNat else queue) }

/-- The plain build with the send buffer overridden by `SRS_PERF_SO_SNDBUF_SIZE`. -/
def sized_build : Build :=
  { plain_build with SRS_PERF_SO_SNDBUF_SIZE := some 1024 }

/-- A connection on which merged write has been enabled. -/
def merging_conn : Conn :=
  { fresh_conn 0 with mw_enabled := true }

/-- A pause command of a player, `time_ms = 1000`, with the answers of the
protocol and of the consumer. -/
def pause_control (is_pause : Bool) (rtmp consumer : ErrCode) : PlayControl :=
  { msg := some ⟨true, false, false, false, false, false, false⟩, decode_message := ERROR_SUCCESS,
    pkt := Packet.Pause is_pause 1000, send_and_free_packet := ERROR_SUCCESS,
    rtmp_on_play_client_pause := rtmp, consumer_on_play_client_pause := consumer }

/-- The calls that hand a message of a publisher to the source. -/
def dispatches_to_source : PublishCall → Bool
  | PublishCall.on_edge_proxy_publish => true
  | PublishCall.on_audio => true
  | PublishCall.on_video => true
  | PublishCall.on_aggregate => true
  | PublishCall.on_meta_data => true
  | _ => false

/-- An AMF0 command message of a publisher that decodes to `pkt`, with the
answer of the protocol to `fmle_unpublish`. -/
def publish_command (pkt : Packet) (fmle_unpublish : ErrCode) : PublishMsg :=
  { msg := ⟨true, false, false, false, false, false, false⟩, decode_message := ERROR_SUCCESS, pkt := pkt,
    fmle_unpublish := fmle_unpublish, on_edge_proxy_publish := ERROR_SUCCESS, on_audio := ERROR_SUCCESS,
    on_video := ERROR_SUCCESS, on_aggregate := ERROR_SUCCESS, on_meta_data := ERROR_SUCCESS }

/-- An edge vhost with token traversal and the origins `a:1935` and `b:1935`. -/
def two_origins : Config :=
  { plain_config with get_vhost_is_edge := fun _ => true, get_vhost_edge_token_traverse := fun _ => true,
                      get_vhost_edge_origin := fun _ => ["a:1935", "b:1935"] }

/-- A token traversal in which the first origin refuses and every other accepts. -/
def second_accepts : TraverseEnv :=
  { plain_traverse with connect := fun i _ => if i = 0 then ErrCode.other 1018 else ERROR_SUCCESS }

/-- A token traversal in which origin `i` refuses with the code `1018 + i`. -/
def none_accepts : TraverseEnv :=
  { plain_traverse with connect := fun i _ => ErrCode.other (1018 + i) }

/-- A `service_cycle` on a vhost with bandwidth check enabled, in which the
bandwidth test succeeds. -/
def bw_check_service : ServiceEnv :=
  { quiet_service [close_episode, disposed_episode] with
    cfg := { plain_config with get_bw_check_enabled := fun _ => true } }

/-- A session on the vhost `h` that is neither disposed nor expired. -/
def live_session : Session :=
  { conn := fresh_conn 0, disposed := false, expired := false }

/-- A configuration after a reload that changed the play, nodelay, realtime and
publish settings. -/
def reloaded_config : Config :=
  { plain_config with get_send_min_interval := fun _ => 20, get_tcp_nodelay := fun _ => true,
                      get_realtime_enabled := fun _ => true, get_publish_1stpkt_timeout := fun _ => 10000,
                      get_publish_normal_timeout := fun _ => 3000 }

/-- A `do_cycle` in which `connect_app` leaves the port `-1` in the request. -/
def negative_port_cycle : CycleEnv :=
  { quiet_cycle ERROR_SUCCESS [disposed_episode] with req := { live_request 0 with port := -1 } }

/-- A `publishing` on a stream that already has a publisher. -/
def busy_publish : PublishEnv :=
  { quiet_publish [] with can_publish := fun _ => false }

/-- A `publishing` in which `source->on_publish` fails with the code 1024. -/
def failing_publish : PublishEnv :=
  { quiet_publish [] with on_publish := ErrCode.other 1024 }

/-- A `publishing` whose receive thread gets three messages and then nothing more. -/
def timeout_publish : PublishEnv :=
  quiet_publish [⟨false, false, ERROR_SUCCESS, 3⟩, ⟨false, false, ERROR_SUCCESS, 3⟩]

/-- A `publishing` whose publish hook is configured and rejects. -/
def rejecting_publish : PublishEnv :=
  { quiet_publish [] with
    cfg := { plain_config with get_vhost_http_hooks_enabled := fun _ => true,
                               get_vhost_on_publish := fun _ => some ["http://hook/publish"] },
    hooks := { plain_hooks with on_publish := fun _ _ => ErrCode.other 3000 } }

/-- A configuration in which every vhost has webhooks enabled, one url for
`on_publish`, `on_unpublish` and `on_play` and two for `on_stop`. -/
def hooked_config : Config :=
  { plain_config with get_vhost_http_hooks_enabled := fun _ => true,
                      get_vhost_on_publish := fun _ => some ["http://hook/publish"],
                      get_vhost_on_unpublish := fun _ => some ["http://hook/unpublish"],
                      get_vhost_on_play := fun _ => some ["http://hook/play"],
                      get_vhost_on_stop := fun _ => some ["http://hook/stop", "http://hook/stop2"] }

/-- A play episode that ends with the player's closeStream, on a vhost with
webhooks. -/
def hooked_close_stream : StreamEnv :=
  { close_episode.env with cfg := hooked_config }

/-- A play episode on a vhost with webhooks whose play hook rejects. -/
def hooked_rejected_play : StreamEnv :=
  { rejected_play with cfg := hooked_config }

/-- A `publishing` over the given iterations on a vhost with webhooks, in which
nothing goes wrong. -/
def hooked_publish (iters : List PublishIter) : PublishEnv :=
  { quiet_publish iters with cfg := hooked_config }

/-- A `publishing` on a vhost with webhooks and a stream that already has a
publisher. -/
def hooked_busy_publish : PublishEnv :=
  { hooked_publish [] with can_publish := fun _ => false }

/-- A `publishing` on an edge vhost with webhooks whose receive thread gets three
messages and then nothing more. -/
def hooked_edge_publish : PublishEnv :=
  { quiet_publish [⟨false, false, ERROR_SUCCESS, 3⟩, ⟨false, false, ERROR_SUCCESS, 3⟩] with
    cfg := { hooked_config with get_vhost_is_edge := fun _ => true } }

/-- A build that does not set the send buffer in `change_mw_sleep`. -/
def unsized_build : Build :=
  { plain_build with SRS_PERF_MW_SO_SNDBUF := false }

/-- An AMF0 data message of a publisher with the given decode result, where the
source answers each of its operations with a code of its own. -/
def data_msg (decode_message : ErrCode) (pkt : Packet) : PublishMsg :=
  { msg := ⟨false, false, true, false, false, false, false⟩, decode_message := decode_message, pkt := pkt,
    fmle_unpublish := ERROR_SUCCESS, on_edge_proxy_publish := ErrCode.other 1, on_audio := ErrCode.other 2,
    on_video := ErrCode.other 3, on_aggregate := ErrCode.other 4, on_meta_data := ErrCode.other 5 }

/-- An AMF0 command of a player that decodes to `pkt`, with the answer of the
protocol to the send of a call response. -/
def command_control (pkt : Packet) (send_and_free_packet : ErrCode) : PlayControl :=
  { msg := some ⟨true, false, false, false, false, false, false⟩, decode_message := ERROR_SUCCESS, pkt := pkt,
    send_and_free_packet := send_and_free_packet, rtmp_on_play_client_pause := ErrCode.other 1,
    consumer_on_play_client_pause := ErrCode.other 2 }

/-- A video message of a player, which is not a command. -/
def video_control : PlayControl :=
  { command_control Packet.CloseStream ERROR_SUCCESS with
    msg := some ⟨false, false, false, false, true, false, false⟩ }

theorem wrap64_id (x : Int) (h0 : -9223372036854775808 ≤ x) (h1 : x < 9223372036854775808) :
    wrap64 x = x := by
  unfold wrap64; omega

theorem sent_messages_append (a b : List Event) :
    sent_messages (a ++ b) = sent_messages a ++ sent_messages b := by
  induction a with
  | nil => rfl
  | cons x xs ih =>
    cases x <;> simp [sent_messages, ih]

theorem last_timestamp_ge (st : Int) (msgs : List SharedMsg)
    (hs : List.Pairwise (fun a b : SharedMsg => a.timestamp ≤ b.timestamp) msgs)
    (hst : ∀ m ∈ msgs, st ≤ m.timestamp) : st ≤ last_timestamp st msgs := by
  induction msgs generalizing st with
  | nil => simp [last_timestamp]
  | cons m rest ih =>
    simp only [last_timestamp]
    have hm : st ≤ m.timestamp := hst m (List.mem_cons_self _ _)
    rw [List.pairwise_cons] at hs
    have := ih m.timestamp hs.2 (fun x hx => hs.1 x hx)
    omega

theorem collect_durations_sorted (d st : Int) (msgs : List SharedMsg)
    (hs : List.Pairwise (fun a b : SharedMsg => a.timestamp ≤ b.timestamp) msgs)
    (hst : ∀ m ∈ msgs, st ≤ m.timestamp) (h0 : 0 ≤ st) (hd : 0 ≤ d)
    (hb : d + (last_timestamp st msgs - st) < 9223372036854775808) :
    collect_durations d st msgs = (d + (last_timestamp st msgs - st), last_timestamp st msgs) := by
  induction msgs generalizing d st with
  | nil => simp [collect_durations, last_timestamp]
  | cons m rest ih =>
    have hm : st ≤ m.timestamp := hst m (List.mem_cons_self _ _)
    rw [List.pairwise_cons] at hs
    have hge := last_timestamp_ge m.timestamp rest hs.2 (fun x hx => hs.1 x hx)
    simp only [last_timestamp] at hb ⊢
    have hstep : collect_duration (d, st) m = (d + (m.timestamp - st), m.timestamp) := by
      unfold collect_duration
      have hc : ¬ (st < 0 ∨ st > m.timestamp) := by omega
      simp only [hc, if_false]
      rw [wrap64_id (m.timestamp - st) (by omega) (by omega), wrap64_id _ (by omega) (by omega)]
    have := ih (d + (m.timestamp - st)) m.timestamp hs.2 (fun x hx => hs.1 x hx) (by omega) (by omega)
      (by omega)
    unfold collect_durations at this ⊢
    rw [List.foldl_cons, hstep, this]
    congr 1
    omega

theorem sent_messages_process (c : Conn) (m : PlayControl) :
    sent_messages (process_play_control_msg c m).2 = [] := by
  unfold process_play_control_msg
  repeat' split
  all_goals simp [sent_messages]

theorem sent_messages_pump (c : Conn) (l : List PlayControl) :
    sent_messages (pump_control c l).2 = [] := by
  induction l with
  | nil => simp [pump_control, sent_messages]
  | cons m rest ih =>
    unfold pump_control
    split
    · exact sent_messages_process c m
    · simp [sent_messages_append, sent_messages_process, ih]

theorem collect_durations_append (d st : Int) (a b : List SharedMsg) :
    collect_durations d st (a ++ b) =
      collect_durations (collect_durations d st a).1 (collect_durations d st a).2 b := by
  simp [collect_durations, List.foldl_append]

theorem do_playing_deliver_duration (u : Bool) (c : Conn) (st : Int) (it : PlayIter)
    (msgs : List SharedMsg) :
    ((do_playing_deliver u c st it msgs).conn.duration, (do_playing_deliver u c st it msgs).starttime) =
      if u then collect_durations c.duration st (sent_messages (do_playing_deliver u c st it msgs).trace)
      else (c.duration, st) := by
  generalize hs : do_playing_deliver u c st it msgs = s
  simp only [do_playing_deliver] at hs
  cases u <;> split_ifs at hs <;> subst hs <;> simp_all [sent_messages]

theorem do_playing_fetch_duration (b : Build) (u : Bool) (c : Conn) (st : Int) (it : PlayIter) :
    ((do_playing_fetch b u c st it).conn.duration, (do_playing_fetch b u c st it).starttime) =
      if u then collect_durations c.duration st (sent_messages (do_playing_fetch b u c st it).trace)
      else (c.duration, st) := by
  have hd := do_playing_deliver_duration u c st it (it.dump_packets (dump_count c)).2
  generalize hs : do_playing_fetch b u c st it = s
  simp only [do_playing_fetch] at hs
  split_ifs at hs <;> subst hs <;>
    simp_all [sent_messages_append, sent_messages, collect_durations, PlayStep.after]

theorem do_playing_iter_duration (b : Build) (u : Bool) (c : Conn) (st : Int) (it : PlayIter) :
    ((do_playing_iter b u c st it).conn.duration, (do_playing_iter b u c st it).starttime) =
      if u then collect_durations c.duration st (sent_messages (do_playing_iter b u c st it).trace)
      else (c.duration, st) := by
  have hd := do_playing_fetch_duration b u c st it
  generalize hs : do_playing_iter b u c st it = s
  simp only [do_playing_iter] at hs
  split_ifs at hs <;> subst hs <;>
    simp_all [sent_messages_append, sent_messages_pump, sent_messages, collect_durations, PlayStep.after]

theorem do_playing_loop_nil (b : Build) (u : Bool) (c : Conn) (st : Int) (ret : ErrCode) :
    do_playing_loop b u c st ret [] = ⟨none, c, []⟩ := by
  simp [do_playing_loop]

theorem do_playing_loop_disposed (b : Build) (u : Bool) (c : Conn) (st : Int) (ret : ErrCode)
    (it : PlayIter) (rest : List PlayIter) (hd : it.disposed = true) :
    do_playing_loop b u c st ret (it :: rest) = ⟨some ret, c, []⟩ := by
  simp [do_playing_loop, hd]

theorem do_playing_loop_ret (b : Build) (u : Bool) (c : Conn) (st : Int) (ret code : ErrCode)
    (it : PlayIter) (rest : List PlayIter) (hd : it.disposed = false)
    (hf : (do_playing_iter b u c st it).flow = Flow.ret code) :
    do_playing_loop b u c st ret (it :: rest) =
      ⟨some code, (do_playing_iter b u c st it).conn, (do_playing_iter b u c st it).trace⟩ := by
  simp only [do_playing_loop, hd, Bool.false_eq_true, if_false]
  rw [hf]

theorem do_playing_loop_next (b : Build) (u : Bool) (c : Conn) (st : Int) (ret : ErrCode)
    (it : PlayIter) (rest : List PlayIter) (hd : it.disposed = false)
    (hf : (do_playing_iter b u c st it).flow = Flow.next) :
    do_playing_loop b u c st ret (it :: rest) =
      (do_playing_loop b u (do_playing_iter b u c st it).conn (do_playing_iter b u c st it).starttime
        ERROR_SUCCESS rest).after (do_playing_iter b u c st it).trace := by
  simp only [do_playing_loop, hd, Bool.false_eq_true, if_false]
  rw [hf]

/-- An induction principle for the play loop: a property of its runs that holds
when the script ends, when the connection is found disposed, when the body
returns, and that is carried over an iteration that goes on, holds of every run. -/
theorem do_playing_loop_induct (b : Build) (u : Bool)
    (P : Conn → Int → ErrCode → List PlayIter → Prop)
    (hnil : ∀ c st ret, P c st ret [])
    (hdis : ∀ c st ret it rest, it.disposed = true → P c st ret (it :: rest))
    (hret : ∀ c st ret it rest code, it.disposed = false →
      (do_playing_iter b u c st it).flow = Flow.ret code → P c st ret (it :: rest))
    (hnext : ∀ c st ret it rest, it.disposed = false →
      (do_playing_iter b u c st it).flow = Flow.next →
      P (do_playing_iter b u c st it).conn (do_playing_iter b u c st it).starttime ERROR_SUCCESS rest →
      P c st ret (it :: rest)) :
    ∀ iters c st ret, P c st ret iters := by
  intro iters
  induction iters with
  | nil => exact hnil
  | cons it rest ih =>
    intro c st ret
    by_cases hd : it.disposed = true
    · exact hdis c st ret it rest hd
    · have hd2 : it.disposed = false := by simpa using hd
      cases hf : (do_playing_iter b u c st it).flow with
      | ret code => exact hret c st ret it rest code hd2 hf
      | next => exact hnext c st ret it rest hd2 hf (ih _ _ _)

theorem do_playing_loop_duration (b : Build) (u : Bool) (iters : List PlayIter) (c : Conn) (st : Int)
    (ret : ErrCode) :
    (do_playing_loop b u c st ret iters).conn.duration =
      if u then (collect_durations c.duration st (sent_messages (do_playing_loop b u c st ret iters).trace)).1
      else c.duration := by
  revert iters c st ret
  apply do_playing_loop_induct b u
  · intro c st ret
    rw [do_playing_loop_nil]
    cases u <;> simp [sent_messages, collect_durations]
  · intro c st ret it rest hd
    rw [do_playing_loop_disposed _ _ _ _ _ _ _ hd]
    cases u <;> simp [sent_messages, collect_durations]
  · intro c st ret it rest code hd hf
    rw [do_playing_loop_ret _ _ _ _ _ _ _ _ hd hf]
    have h := do_playing_iter_duration b u c st it
    rw [Prod.ext_iff] at h
    cases u <;> simp_all
  · intro c st ret it rest hd hf ih
    rw [do_playing_loop_next _ _ _ _ _ _ _ hd hf]
    have h := do_playing_iter_duration b u c st it
    rw [Prod.ext_iff] at h
    cases u
    · simp_all [Run.after]
    · simp only [if_true, Run.after] at ih h ⊢
      rw [ih, sent_messages_append, collect_durations_append, ← h.1, ← h.2]

theorem last_timestamp_of_getLast (dflt : Int) (l : List SharedMsg) (last : SharedMsg)
    (h : l.getLast? = some last) : last_timestamp dflt l = last.timestamp := by
  induction l generalizing dflt with
  | nil => simp at h
  | cons m rest ih =>
    cases rest with
    | nil =>
      simp only [List.getLast?_singleton, Option.some.injEq] at h
      simp [last_timestamp, h]
    | cons x xs =>
      rw [List.getLast?_cons_cons] at h
      simp only [last_timestamp]
      exact ih m.timestamp h

theorem do_playing_setup_duration (b : Build) (c : Conn) (cfg : Config) :
    (do_playing_setup b c cfg).1.duration = c.duration ∧ (do_playing_setup b c cfg).1.req = c.req ∧
      sent_messages (do_playing_setup b c cfg).2 = [] := by
  simp only [do_playing_setup, change_mw_sleep, set_sock_options]
  refine ⟨?_, ?_, ?_⟩ <;> (repeat' split) <;> simp_all [sent_messages, sent_messages_append]

/-- The messages `do_playing` sends are those its loop sends. -/
theorem sent_messages_do_playing (b : Build) (c : Conn) (e : PlayEnv)
    (href : ¬ (e.cfg.get_refer_enabled c.req.vhost ∧ e.refer_check ≠ ERROR_SUCCESS)) :
    do_playing b c e =
        (do_playing_loop b (decide (c.req.duration > 0)) (do_playing_setup b c e.cfg).1 (-1) ERROR_SUCCESS
          e.iters).after
          ((if e.cfg.get_refer_enabled c.req.vhost then [Event.refer_check c.req.pageUrl] else []) ++
            (do_playing_setup b c e.cfg).2) ∧
      sent_messages (do_playing b c e).trace =
        sent_messages (do_playing_loop b (decide (c.req.duration > 0)) (do_playing_setup b c e.cfg).1 (-1)
          ERROR_SUCCESS e.iters).trace := by
  have hrun : do_playing b c e =
        (do_playing_loop b (decide (c.req.duration > 0)) (do_playing_setup b c e.cfg).1 (-1) ERROR_SUCCESS
          e.iters).after
          ((if e.cfg.get_refer_enabled c.req.vhost then [Event.refer_check c.req.pageUrl] else []) ++
            (do_playing_setup b c e.cfg).2) := by
    unfold do_playing
    rw [if_neg href]
  refine ⟨hrun, ?_⟩
  rw [hrun]
  simp only [Run.after, sent_messages_append, (do_playing_setup_duration b c e.cfg).2.2]
  split <;> simp [sent_messages]

/-- C1. In `do_playing` with `req->duration > 0`, entered with `duration = 0` (the
method itself sets `starttime = -1`): whenever the messages handed out by the
consumer and sent so far, in whatever batches, have non-negative,
non-decreasing `int64_t` timestamps, the accumulated `duration` equals the
timestamp of the last message minus the timestamp of the first. -/
theorem do_playing_duration_last_minus_first (b : Build) (c : Conn) (e : PlayEnv)
    (first last : SharedMsg)
    (hdur : c.req.duration > 0) (hzero : c.duration = 0)
    (hfirst : (sent_messages (do_playing b c e).trace).head? = some first)
    (hlast : (sent_messages (do_playing b c e).trace).getLast? = some last)
    (hsorted : (sent_messages (do_playing b c e).trace).Pairwise (fun x y => x.timestamp ≤ y.timestamp))
    (hrange : ∀ m ∈ sent_messages (do_playing b c e).trace,
      0 ≤ m.timestamp ∧ m.timestamp < 9223372036854775808) :
    (do_playing b c e).conn.duration = last.timestamp - first.timestamp := by
  obtain ⟨hsd, -, -⟩ := do_playing_setup_duration b c e.cfg
  by_cases href : e.cfg.get_refer_enabled c.req.vhost ∧ e.refer_check ≠ ERROR_SUCCESS
  · have : do_playing b c e = ⟨some e.refer_check, c, [Event.refer_check c.req.pageUrl]⟩ := by
      unfold do_playing
      rw [if_pos href]
    rw [this] at hfirst
    simp [sent_messages] at hfirst
  · obtain ⟨hrun, hs⟩ := sent_messages_do_playing b c e href
    rw [hs] at hfirst hlast hsorted hrange
    have hl := do_playing_loop_duration b (decide (c.req.duration > 0)) e.iters
      (do_playing_setup b c e.cfg).1 (-1) ERROR_SUCCESS
    rw [hrun]
    simp only [Run.after]
    simp only [hdur, decide_True, if_true, hsd, hzero] at hl hfirst hlast hsorted hrange ⊢
    rw [hl]
    cases hall : sent_messages (do_playing_loop b true (do_playing_setup b c e.cfg).1 (-1) ERROR_SUCCESS
        e.iters).trace with
    | nil => simp [hall] at hfirst
    | cons m rest =>
      rw [hall] at hfirst hlast hsorted hrange
      simp only [List.head?_cons, Option.some.injEq] at hfirst
      subst hfirst
      have hm := hrange m (List.mem_cons_self _ _)
      rw [List.pairwise_cons] at hsorted
      have hlt : last_timestamp m.timestamp rest = last.timestamp := by
        have := last_timestamp_of_getLast (-1) (m :: rest) last hlast
        simpa [last_timestamp] using this
      have hlast_mem : last ∈ m :: rest := List.mem_of_getLast?_eq_some hlast
      have hlr := hrange last hlast_mem
      have hstep : collect_duration (0, -1) m = (0, m.timestamp) := by
        unfold collect_duration
        simp [wrap64]
      have hrest := collect_durations_sorted 0 m.timestamp rest hsorted.2 (fun x hx => hsorted.1 x hx)
        hm.1 (le_refl 0) (by rw [hlt]; omega)
      unfold collect_durations at hrest ⊢
      rw [List.foldl_cons, hstep, hrest, hlt]
      simp

/-- A concrete instance, on three batches with timestamps 10, 10, 30 / none / 30, 70. -/
theorem do_playing_duration_last_minus_first_witness :
    (do_playing plain_build (fresh_conn 100) three_batches).conn.duration = 70 - 10 :=
  do_playing_duration_last_minus_first plain_build (fresh_conn 100) three_batches ⟨10, 0⟩ ⟨70, 4⟩
    (by decide) (by decide) (by decide) (by decide) (by decide) (by decide)

/-! ## The duration limit -/

/-- The calls of the play loop body between the control messages and the
delivery: the wait on the consumer and the dump. -/
theorem do_playing_iter_reaches_deliver (b : Build) (u : Bool) (c : Conn) (st : Int) (it : PlayIter)
    (hexp : it.expired = false) (hpump : (pump_control c it.pumped).1 = ERROR_SUCCESS)
    (herr : it.error_code = ERROR_SUCCESS)
    (hdump : (it.dump_packets (dump_count c)).1 = ERROR_SUCCESS)
    (hne : (it.dump_packets (dump_count c)).2 ≠ []) :
    do_playing_iter b u c st it =
      ((do_playing_deliver u c st it (it.dump_packets (dump_count c)).2).after
        ((if b.SRS_PERF_QUEUE_COND_WAIT then
            [Event.consumer_wait (if c.realtime then 0 else b.SRS_PERF_MW_MIN_MSGS) c.mw_sleep]
          else []) ++ [Event.dump_packets (dump_count c)])).after (pump_control c it.pumped).2 := by
  have hlen : ¬ (it.dump_packets (dump_count c)).2.length ≤ 0 := by
    cases h : (it.dump_packets (dump_count c)).2 with
    | nil => exact absurd h hne
    | cons x xs => simp
  simp only [do_playing_iter, do_playing_fetch, hexp, hpump, herr, hdump, hlen, ne_eq, not_true_eq_false,
    if_false, Bool.false_eq_true]

/-- The cast `(int64_t)d` of a positive `double` below 2^63 is its integer part. -/
theorem to_int64_in_range (d : Rat) (h0 : d > 0) (h1 : d < 9223372036854775808) :
    to_int64 d = ⌊d⌋ := by
  have hnum : 0 ≤ d.num := le_of_lt (Rat.num_pos.mpr h0)
  have hden : (0 : Int) ≤ (d.den : Int) := Int.natCast_nonneg _
  have ht : Int.tdiv d.num d.den = ⌊d⌋ := by
    rw [Int.tdiv_eq_ediv hnum hden, Rat.floor_def]
  have hlo : (0 : Int) ≤ ⌊d⌋ := Int.floor_nonneg.mpr (le_of_lt h0)
  have hhi : ⌊d⌋ < (9223372036854775808 : Int) := by
    rw [Int.floor_lt]
    exact_mod_cast h1
  unfold to_int64
  rw [ht, if_pos ⟨by omega, hhi⟩]

/-- C2 (amended). In a duration-limited play whose `req->duration` is below 2^63,
so that the cast `(int64_t)req->duration` is in range, after a batch has been
sent the play loop returns `ERROR_RTMP_DURATION_EXCEED` if and only if the
accumulated duration in milliseconds is at least `(int64_t)req->duration`, the
integer part of the requested duration: the requested duration is compared as it
is, not multiplied by 1000. -/
theorem do_playing_iter_duration_exceed_iff (b : Build) (c : Conn) (st : Int) (it : PlayIter)
    (hdur : c.req.duration > 0) (hrng : c.req.duration < 9223372036854775808)
    (hexp : it.expired = false) (hpump : (pump_control c it.pumped).1 = ERROR_SUCCESS)
    (herr : it.error_code = ERROR_SUCCESS)
    (hdump : (it.dump_packets (dump_count c)).1 = ERROR_SUCCESS)
    (hne : (it.dump_packets (dump_count c)).2 ≠ [])
    (hsend : it.send_and_free_messages = ERROR_SUCCESS) :
    ((do_playing_iter b (decide (c.req.duration > 0)) c st it).flow = Flow.ret ERROR_RTMP_DURATION_EXCEED ↔
        (do_playing_iter b (decide (c.req.duration > 0)) c st it).conn.duration ≥ to_int64 c.req.duration) ∧
      to_int64 c.req.duration = ⌊c.req.duration⌋ := by
  refine ⟨?_, to_int64_in_range _ hdur hrng⟩
  rw [do_playing_iter_reaches_deliver b _ c st it hexp hpump herr hdump hne]
  by_cases h : (collect_durations c.duration st (it.dump_packets (dump_count c)).2).1 ≥
      to_int64 c.req.duration <;>
    simp [PlayStep.after, do_playing_deliver, hsend, hdur, h]

/-- A concrete instance: a batch with the timestamps 0 and 2 ms under `req->duration = 2`. -/
theorem do_playing_iter_duration_exceed_iff_witness :
    (do_playing_iter plain_build (decide ((fresh_conn 2).req.duration > 0)) (fresh_conn 2) (-1)
        (quiet_iter [⟨0, 0⟩, ⟨2, 1⟩])).flow = Flow.ret ERROR_RTMP_DURATION_EXCEED ↔
      (do_playing_iter plain_build (decide ((fresh_conn 2).req.duration > 0)) (fresh_conn 2) (-1)
        (quiet_iter [⟨0, 0⟩, ⟨2, 1⟩])).conn.duration ≥ to_int64 (fresh_conn 2).req.duration :=
  (do_playing_iter_duration_exceed_iff plain_build (fresh_conn 2) (-1) (quiet_iter [⟨0, 0⟩, ⟨2, 1⟩])
    (by decide) (by decide) (by decide) (by decide) (by decide) (by decide) (by decide) (by decide)).1

/-- The limit is not `req->duration * 1000`: with `req->duration = 2` a batch with the
timestamps 0 and 2 ms is sent and the loop returns `ERROR_RTMP_DURATION_EXCEED`
with 2 ms accumulated, far below 2 * 1000 ms. -/
theorem do_playing_iter_duration_not_scaled :
    ¬ ((do_playing_iter plain_build true (fresh_conn 2) (-1) (quiet_iter [⟨0, 0⟩, ⟨2, 1⟩])).flow =
          Flow.ret ERROR_RTMP_DURATION_EXCEED ↔
        (do_playing_iter plain_build true (fresh_conn 2) (-1) (quiet_iter [⟨0, 0⟩, ⟨2, 1⟩])).conn.duration ≥
          to_int64 (fresh_conn 2).req.duration * 1000) := by
  decide

theorem stream_service_cycle_enters (b : Build) (k : Kernel) (c : Conn) (e : StreamEnv) :
    (stream_service_cycle b k c e).trace.head? = some (Event.enter Method.stream_service_cycle) := by
  unfold stream_service_cycle
  (repeat' split) <;> simp [Run.after, stream_service_prologue]

/-- C4. In the loop of `service_cycle`, when `stream_service_cycle` returns
`ERROR_CONTROL_REPUBLISH` the send and the recv timeout of the protocol are both
set to 180,000 ms (passed in microseconds) and the loop goes on at its top;
when it returns `ERROR_CONTROL_RTMP_CLOSE` both are set to 1,800,000 ms and the
loop goes on likewise. Going on at the top, the loop enters
`stream_service_cycle` again, right after the two timeout calls, unless the
connection is found disposed there. The code is a system control error for
`srs_is_system_control_error`. -/
theorem service_loop_republish_and_close (b : Build) (k : Kernel) (c : Conn) (ret r : ErrCode)
    (ep : Episode) (rest : List Episode)
    (hsys : k.srs_is_system_control_error r = true)
    (hdis : ep.disposed = false)
    (hrun : (stream_service_cycle b k c ep.env).ret = some r) :
    (r = ERROR_CONTROL_REPUBLISH →
      service_loop b k c ret (ep :: rest) =
        (service_loop b k (stream_service_cycle b k c ep.env).conn ERROR_CONTROL_REPUBLISH rest).after
          ((stream_service_cycle b k c ep.env).trace ++
            [Event.set_send_timeout (180000 * 1000), Event.set_recv_timeout (180000 * 1000)])) ∧
    (r = ERROR_CONTROL_RTMP_CLOSE →
      service_loop b k c ret (ep :: rest) =
        (service_loop b k (stream_service_cycle b k c ep.env).conn ERROR_CONTROL_RTMP_CLOSE rest).after
          ((stream_service_cycle b k c ep.env).trace ++
            [Event.set_recv_timeout (1800000 * 1000), Event.set_send_timeout (1800000 * 1000)])) ∧
    (∀ (c1 : Conn) (r1 : ErrCode) (ep1 : Episode) (rest1 : List Episode), ep1.disposed = false →
      (service_loop b k c1 r1 (ep1 :: rest1)).trace.head? =
        some (Event.enter Method.stream_service_cycle)) := by
  refine ⟨?_, ?_, ?_⟩
  · intro h
    subst h
    simp [service_loop, hdis, hrun, service_recover, hsys, SRS_REPUBLISH_RECV_TIMEOUT_US,
      SRS_REPUBLISH_SEND_TIMEOUT_US]
  · intro h
    subst h
    simp [service_loop, hdis, hrun, service_recover, hsys, SRS_PAUSED_RECV_TIMEOUT_US,
      SRS_PAUSED_SEND_TIMEOUT_US]
  · intro c1 r1 ep1 rest1 hd1
    have hh := stream_service_cycle_enters b k c1 ep1.env
    simp only [service_loop, hd1, Bool.false_eq_true, if_false]
    split
    · exact hh
    · split
      · exact hh
      · cases ht : (stream_service_cycle b k c1 ep1.env).trace with
        | nil => simp [ht] at hh
        | cons x xs =>
          rw [ht] at hh
          simp only [List.head?_cons, Option.some.injEq] at hh
          simp [Run.after, hh]

/-- A concrete instance: an FMLE publisher that republishes and a player that
closes the stream, each followed by a further episode. -/
theorem service_loop_republish_and_close_witness :
    service_loop plain_build plain_kernel (fresh_conn 0) ERROR_SUCCESS
        [publish_episode ERROR_CONTROL_REPUBLISH, close_episode, disposed_episode] =
      (service_loop plain_build plain_kernel
        (stream_service_cycle plain_build plain_kernel (fresh_conn 0)
          (publish_episode ERROR_CONTROL_REPUBLISH).env).conn
        ERROR_CONTROL_REPUBLISH [close_episode, disposed_episode]).after
        ((stream_service_cycle plain_build plain_kernel (fresh_conn 0)
            (publish_episode ERROR_CONTROL_REPUBLISH).env).trace ++
          [Event.set_send_timeout (180000 * 1000), Event.set_recv_timeout (180000 * 1000)]) ∧
    service_loop plain_build plain_kernel (fresh_conn 0) ERROR_SUCCESS [close_episode, disposed_episode] =
      (service_loop plain_build plain_kernel
        (stream_service_cycle plain_build plain_kernel (fresh_conn 0) close_episode.env).conn
        ERROR_CONTROL_RTMP_CLOSE [disposed_episode]).after
        ((stream_service_cycle plain_build plain_kernel (fresh_conn 0) close_episode.env).trace ++
          [Event.set_recv_timeout (1800000 * 1000), Event.set_send_timeout (1800000 * 1000)]) :=
  ⟨(service_loop_republish_and_close plain_build plain_kernel (fresh_conn 0) ERROR_SUCCESS
      ERROR_CONTROL_REPUBLISH (publish_episode ERROR_CONTROL_REPUBLISH) [close_episode, disposed_episode]
      (by decide) (by decide) (by decide)).1 rfl,
    (service_loop_republish_and_close plain_build plain_kernel (fresh_conn 0) ERROR_SUCCESS
      ERROR_CONTROL_RTMP_CLOSE close_episode [disposed_episode]
      (by decide) (by decide) (by decide)).2.1 rfl⟩

/-! ## Which methods a run enters -/

theorem entered_append (a b : List Event) : entered (a ++ b) = entered a ++ entered b := by
  induction a with
  | nil => rfl
  | cons x xs ih => cases x <;> simp [entered, ih]

theorem entered_call_hooks (h : Hook) (answer : Nat → String → ErrCode) (l : List String) :
    ∀ i, entered (call_hooks h answer i l).2 = [] := by
  induction l with
  | nil => intro i; simp [call_hooks, entered]
  | cons url rest ih =>
    intro i
    unfold call_hooks
    split
    · simp [entered]
    · simp [entered, ih]

theorem entered_hooks_checked (b : Build) (enabled : Bool) (conf : Option (List String)) (m : Method)
    (h : Hook) (answer : Nat → String → ErrCode) :
    entered (hooks_checked b enabled conf m h answer).2 = [m] := by
  unfold hooks_checked
  (repeat' split) <;> simp [entered, entered_call_hooks]

theorem entered_map_http_hook (h : Hook) (l : List String) : entered (l.map (Event.http_hook h)) = [] := by
  induction l with
  | nil => rfl
  | cons x xs ih => simp [entered, ih]

theorem entered_hooks_notify (b : Build) (enabled : Bool) (conf : Option (List String)) (m : Method)
    (h : Hook) : entered (hooks_notify b enabled conf m h) = [m] := by
  unfold hooks_notify
  (repeat' split) <;> simp [entered, entered_map_http_hook]

theorem entered_acquire_publish (e : PublishEnv) (is_edge : Bool) :
    entered (acquire_publish e is_edge).2 = [] := by
  unfold acquire_publish
  (repeat' split) <;> simp [entered]

theorem entered_release_publish (is_edge : Bool) :
    entered (release_publish is_edge) = [Method.release_publish] := by
  unfold release_publish
  split <;> simp [entered]

theorem entered_set_sock_options (b : Build) (cfg : Config) (c : Conn) :
    entered (set_sock_options b cfg c).2 = [] := by
  unfold set_sock_options
  (repeat' split) <;> simp [entered]

theorem entered_change_mw_sleep (b : Build) (c : Conn) (n : Int) :
    entered (change_mw_sleep b c n).2 = [] := by
  unfold change_mw_sleep
  (repeat' split) <;> simp [entered]

theorem entered_do_publishing_loop (c : Conn) (iters : List PublishIter) :
    ∀ (nb : Int) (ret : ErrCode), entered (do_publishing_loop c nb ret iters).2 = [] := by
  induction iters with
  | nil => intro nb ret; simp [do_publishing_loop, entered]
  | cons it rest ih =>
    intro nb ret
    have htr : entered (do_publishing_iter c nb it).2.2 = [] := by
      unfold do_publishing_iter
      (repeat' split) <;> simp [entered]
    simp only [do_publishing_loop]
    split
    · rfl
    · split
      · exact htr
      · simp [entered_append, htr, ih]

theorem entered_do_publishing (b : Build) (c : Conn) (e : PublishEnv) :
    entered (do_publishing b c e).trace = [] := by
  unfold do_publishing
  split
  · rfl
  · simp [entered, entered_append, do_publishing_setup, entered_set_sock_options,
      entered_do_publishing_loop]

theorem entered_publishing_finish (b : Build) (cfg : Config) (c : Conn) (is_edge : Bool) (r : ErrCode) :
    entered (publishing_finish b cfg c is_edge r) =
      if r ≠ ERROR_SYSTEM_STREAM_BUSY then [Method.release_publish, Method.http_hooks_on_unpublish]
      else [Method.http_hooks_on_unpublish] := by
  unfold publishing_finish http_hooks_on_unpublish
  split <;> simp [entered_append, entered_release_publish, entered_hooks_notify, entered]

theorem entered_publishing_acquire (b : Build) (c : Conn) (e : PublishEnv) :
    entered (publishing_acquire b c e) = [Method.publishing, Method.http_hooks_on_publish] := by
  have hrefer : entered (if e.cfg.get_refer_enabled c.req.vhost then [Event.refer_check c.req.pageUrl]
      else []) = [] := by split <;> rfl
  have hhk : entered (http_hooks_on_publish b e.cfg e.hooks c.req).2 = [Method.http_hooks_on_publish] :=
    entered_hooks_checked _ _ _ _ _ _
  simp [publishing_acquire, entered, entered_append, hrefer, hhk, entered_acquire_publish]

/-- The methods `publishing` enters once the referer check and the publish hook
have passed: the release and the unpublish hooks come when it returns. -/
theorem entered_publishing (b : Build) (c : Conn) (e : PublishEnv)
    (href : ¬ (e.cfg.get_refer_enabled c.req.vhost ∧ e.refer_check ≠ ERROR_SUCCESS))
    (hhook : (http_hooks_on_publish b e.cfg e.hooks c.req).1 = ERROR_SUCCESS) :
    entered (publishing b c e).trace = Method.publishing :: Method.http_hooks_on_publish ::
      (match (publishing b c e).ret with
        | none => []
        | some r =>
          if r ≠ ERROR_SYSTEM_STREAM_BUSY then [Method.release_publish, Method.http_hooks_on_unpublish]
          else [Method.http_hooks_on_unpublish]) := by
  unfold publishing
  rw [if_neg href]
  simp only [hhook, ne_eq, not_true_eq_false, if_false]
  by_cases hacq : (acquire_publish e (e.cfg.get_vhost_is_edge c.req.vhost)).1 = ERROR_SUCCESS
  · rw [if_pos hacq]
    cases hdo : (do_publishing b c e).ret with
    | none =>
      simp [Run.after, hdo, entered_append, entered_publishing_acquire, entered_do_publishing]
    | some code =>
      simp only [entered_append, entered_publishing_acquire, entered_do_publishing,
        entered_publishing_finish]
      simp [entered]
  · rw [if_neg hacq]
    simp only [entered_append, entered_publishing_acquire, entered_publishing_finish]
    simp

/-! ## Publish: acquire and release -/

theorem touches_publish_call_hooks (h : Hook) (answer : Nat → String → ErrCode) (l : List String) :
    ∀ i, (call_hooks h answer i l).2.any touches_publish = false := by
  induction l with
  | nil => intro i; simp [call_hooks]
  | cons url rest ih =>
    intro i
    unfold call_hooks
    split
    · simp [touches_publish]
    · simp only [List.any_cons, touches_publish, Bool.false_or]
      exact ih (i + 1)

theorem touches_publish_hooks_checked (b : Build) (enabled : Bool) (conf : Option (List String))
    (m : Method) (h : Hook) (answer : Nat → String → ErrCode) (hm : m ≠ Method.release_publish) :
    (hooks_checked b enabled conf m h answer).2.any touches_publish = false := by
  have he : touches_publish (Event.enter m) = false := by
    cases m <;> simp_all [touches_publish]
  unfold hooks_checked
  (repeat' split) <;> simp [he, touches_publish_call_hooks]

theorem touches_publish_map_http_hook (h : Hook) (l : List String) :
    (l.map (Event.http_hook h)).any touches_publish = false := by
  induction l with
  | nil => rfl
  | cons x xs ih => simp [touches_publish]

theorem touches_publish_hooks_notify (b : Build) (enabled : Bool) (conf : Option (List String))
    (m : Method) (h : Hook) (hm : m ≠ Method.release_publish) :
    (hooks_notify b enabled conf m h).any touches_publish = false := by
  have he : touches_publish (Event.enter m) = false := by
    cases m <;> simp_all [touches_publish]
  unfold hooks_notify
  (repeat' split) <;> simp [he, touches_publish_map_http_hook]

/-- C6. When `source->can_publish(is_edge)` is false, `acquire_publish` returns
`ERROR_SYSTEM_STREAM_BUSY` having called nothing but `can_publish`; and
`publishing`, once the referer check and the publish hook have let it reach
`acquire_publish`, returns `ERROR_SYSTEM_STREAM_BUSY` having called, after
`can_publish`, only the unpublish hooks: the receive thread is not started and
`release_publish`, `on_publish`, `on_edge_start_publish`, `on_unpublish` and
`on_edge_proxy_unpublish` are not called. -/
theorem publishing_stream_busy (b : Build) (c : Conn) (e : PublishEnv)
    (hcan : e.can_publish (e.cfg.get_vhost_is_edge c.req.vhost) = false)
    (href : ¬ (e.cfg.get_refer_enabled c.req.vhost ∧ e.refer_check ≠ ERROR_SUCCESS))
    (hhook : (http_hooks_on_publish b e.cfg e.hooks c.req).1 = ERROR_SUCCESS) :
    (∀ is_edge : Bool, e.can_publish is_edge = false →
        acquire_publish e is_edge = (ERROR_SYSTEM_STREAM_BUSY, [Event.can_publish is_edge])) ∧
      (publishing b c e).ret = some ERROR_SYSTEM_STREAM_BUSY ∧
      (publishing b c e).trace =
        Event.enter Method.publishing ::
            (if e.cfg.get_refer_enabled c.req.vhost then [Event.refer_check c.req.pageUrl] else []) ++
          (http_hooks_on_publish b e.cfg e.hooks c.req).2 ++
          [Event.can_publish (e.cfg.get_vhost_is_edge c.req.vhost)] ++
          http_hooks_on_unpublish b e.cfg c.req ∧
      (publishing b c e).trace.any touches_publish = false := by
  have hacq : acquire_publish e (e.cfg.get_vhost_is_edge c.req.vhost) =
      (ERROR_SYSTEM_STREAM_BUSY, [Event.can_publish (e.cfg.get_vhost_is_edge c.req.vhost)]) := by
    simp [acquire_publish, hcan]
  have hrun : publishing b c e =
      ⟨some ERROR_SYSTEM_STREAM_BUSY, c,
        Event.enter Method.publishing ::
            (if e.cfg.get_refer_enabled c.req.vhost then [Event.refer_check c.req.pageUrl] else []) ++
          (http_hooks_on_publish b e.cfg e.hooks c.req).2 ++
          [Event.can_publish (e.cfg.get_vhost_is_edge c.req.vhost)] ++
          http_hooks_on_unpublish b e.cfg c.req⟩ := by
    unfold publishing
    rw [if_neg href]
    simp [hhook, hacq, publishing_finish, publishing_acquire]
  refine ⟨fun is_edge h => by simp [acquire_publish, h], ?_, ?_, ?_⟩ <;> rw [hrun]
  have h1 : (http_hooks_on_publish b e.cfg e.hooks c.req).2.any touches_publish = false :=
    touches_publish_hooks_checked _ _ _ _ _ _ (by decide)
  have h2 : (http_hooks_on_unpublish b e.cfg c.req).any touches_publish = false :=
    touches_publish_hooks_notify _ _ _ _ _ (by decide)
  have h3 : (if e.cfg.get_refer_enabled c.req.vhost then [Event.refer_check c.req.pageUrl]
      else []).any touches_publish = false := by split <;> simp [touches_publish]
  simp only [List.any_cons, List.any_append, h1, h2, h3, touches_publish, List.any_nil, Bool.or_false]

/-- A concrete instance: a second FMLE publisher on a source that is already
publishing. -/
theorem publishing_stream_busy_witness :
    (publishing plain_build (fresh_conn 0) { quiet_publish [] with can_publish := fun _ => false }).ret =
        some ERROR_SYSTEM_STREAM_BUSY ∧
      (publishing plain_build (fresh_conn 0)
        { quiet_publish [] with can_publish := fun _ => false }).trace.any touches_publish = false :=
  ⟨(publishing_stream_busy plain_build (fresh_conn 0) { quiet_publish [] with can_publish := fun _ => false }
      (by decide) (by decide) (by decide)).2.1,
    (publishing_stream_busy plain_build (fresh_conn 0) { quiet_publish [] with can_publish := fun _ => false }
      (by decide) (by decide) (by decide)).2.2.2⟩

/-! ## Play: the methods entered around `playing` -/

theorem entered_process_play_control_msg (c : Conn) (m : PlayControl) :
    entered (process_play_control_msg c m).2 = [] := by
  unfold process_play_control_msg
  repeat' split
  all_goals simp [entered]

theorem entered_pump_control (c : Conn) (l : List PlayControl) : entered (pump_control c l).2 = [] := by
  induction l with
  | nil => simp [pump_control, entered]
  | cons m rest ih =>
    unfold pump_control
    split
    · exact entered_process_play_control_msg c m
    · simp [entered_append, entered_process_play_control_msg, ih]

theorem entered_do_playing_deliver (u : Bool) (c : Conn) (st : Int) (it : PlayIter) (msgs : List SharedMsg) :
    entered (do_playing_deliver u c st it msgs).trace = [] := by
  unfold do_playing_deliver
  simp only []
  (repeat' split) <;> simp [entered]

theorem entered_do_playing_fetch (b : Build) (u : Bool) (c : Conn) (st : Int) (it : PlayIter) :
    entered (do_playing_fetch b u c st it).trace = [] := by
  unfold do_playing_fetch
  simp only []
  (repeat' split) <;> simp [entered, entered_append, PlayStep.after, entered_do_playing_deliver]

theorem entered_do_playing_iter (b : Build) (u : Bool) (c : Conn) (st : Int) (it : PlayIter) :
    entered (do_playing_iter b u c st it).trace = [] := by
  unfold do_playing_iter
  (repeat' split) <;>
    simp [entered, entered_append, PlayStep.after, entered_do_playing_fetch, entered_pump_control]

theorem entered_do_playing_loop (b : Build) (u : Bool) (iters : List PlayIter) (c : Conn) (st : Int)
    (ret : ErrCode) : entered (do_playing_loop b u c st ret iters).trace = [] := by
  revert iters c st ret
  apply do_playing_loop_induct b u
  · intro c st ret
    rw [do_playing_loop_nil]
    rfl
  · intro c st ret it rest hd
    rw [do_playing_loop_disposed _ _ _ _ _ _ _ hd]
    rfl
  · intro c st ret it rest code hd hf
    rw [do_playing_loop_ret _ _ _ _ _ _ _ _ hd hf]
    exact entered_do_playing_iter b u c st it
  · intro c st ret it rest hd hf ih
    rw [do_playing_loop_next _ _ _ _ _ _ _ hd hf]
    simp [Run.after, entered_append, ih, entered_do_playing_iter]

theorem entered_do_playing (b : Build) (c : Conn) (e : PlayEnv) : entered (do_playing b c e).trace = [] := by
  unfold do_playing
  split
  · rfl
  · have hs : entered (do_playing_setup b c e.cfg).2 = [] := by
      simp [do_playing_setup, entered_append, entered_change_mw_sleep, entered_set_sock_options]
    simp only [Run.after, entered_append, hs, entered_do_playing_loop]
    split <;> rfl

theorem entered_playing (b : Build) (c : Conn) (e : PlayEnv) :
    entered (playing b c e).trace = [Method.playing] := by
  unfold playing
  split
  · rfl
  · split
    · rfl
    · split <;> simp [Run.after, entered_append, entered, entered_do_playing]

/-! ## The connection cycle and `on_disconnect` -/

/-- C8 (amended). When the protocol handshake fails, `do_cycle` returns the
handshake error having made no webhook callback and having entered no method
of the driver: in particular `on_disconnect` is not called, it is called only
after `service_cycle`. -/
theorem do_cycle_handshake_failure (b : Build) (k : Kernel) (c : Conn) (e : CycleEnv)
    (hkafka : ¬ (b.SRS_AUTO_KAFKA ∧ e.kafka_on_client ≠ ERROR_SUCCESS))
    (hhs : e.handshake ≠ ERROR_SUCCESS) :
    (do_cycle b k c e).ret = some e.handshake ∧
      (do_cycle b k c e).trace = do_cycle_greeting b ∧
      hooked (do_cycle b k c e).trace = [] ∧
      entered (do_cycle b k c e).trace = [] := by
  have hrun : do_cycle b k c e = ⟨some e.handshake, c, do_cycle_greeting b⟩ := by
    unfold do_cycle
    rw [if_neg hkafka, if_pos hhs]
  rw [hrun]
  refine ⟨rfl, rfl, ?_, ?_⟩ <;>
  · unfold do_cycle_greeting
    split <;> simp [hooked, entered]

/-- A concrete instance: the handshake fails with the code 2001. -/
theorem do_cycle_handshake_failure_witness :
    (do_cycle plain_build plain_kernel (fresh_conn 0) (quiet_cycle (ErrCode.other 2001) [])).ret =
        some (ErrCode.other 2001) ∧
      hooked (do_cycle plain_build plain_kernel (fresh_conn 0)
        (quiet_cycle (ErrCode.other 2001) [])).trace = [] ∧
      entered (do_cycle plain_build plain_kernel (fresh_conn 0)
        (quiet_cycle (ErrCode.other 2001) [])).trace = [] :=
  ⟨(do_cycle_handshake_failure plain_build plain_kernel (fresh_conn 0) (quiet_cycle (ErrCode.other 2001) [])
      (by decide) (by decide)).1,
    (do_cycle_handshake_failure plain_build plain_kernel (fresh_conn 0) (quiet_cycle (ErrCode.other 2001) [])
      (by decide) (by decide)).2.2⟩

/-- A failed handshake is not followed by `on_disconnect`: `do_cycle` returns
the handshake error and `on_disconnect` has been called 0 times, not once. -/
theorem do_cycle_handshake_failure_no_disconnect :
    (do_cycle plain_build plain_kernel (fresh_conn 0) (quiet_cycle (ErrCode.other 2001) [])).ret =
        some (ErrCode.other 2001) ∧
      (entered (do_cycle plain_build plain_kernel (fresh_conn 0)
        (quiet_cycle (ErrCode.other 2001) [])).trace).count Method.on_disconnect = 0 := by
  decide

theorem entered_publishing_subset (b : Build) (c : Conn) (e : PublishEnv) :
    ∀ m ∈ entered (publishing b c e).trace, m ∈ stream_methods := by
  by_cases href : e.cfg.get_refer_enabled c.req.vhost ∧ e.refer_check ≠ ERROR_SUCCESS
  · unfold publishing
    rw [if_pos href]
    simp [entered, stream_methods]
  · by_cases hhook : (http_hooks_on_publish b e.cfg e.hooks c.req).1 = ERROR_SUCCESS
    · rw [entered_publishing b c e href hhook]
      (repeat' split) <;> simp [stream_methods]
    · unfold publishing
      rw [if_neg href]
      simp only [hhook, ne_eq, not_false_eq_true, if_true]
      have hhk : entered (http_hooks_on_publish b e.cfg e.hooks c.req).2 = [Method.http_hooks_on_publish] :=
        entered_hooks_checked _ _ _ _ _ _
      have hrefer : entered (if e.cfg.get_refer_enabled c.req.vhost then [Event.refer_check c.req.pageUrl]
          else []) = [] := by split <;> rfl
      simp [entered, entered_append, hhk, hrefer, stream_methods]

theorem entered_stream_service_dispatch_subset (b : Build) (c : Conn) (e : StreamEnv) :
    ∀ m ∈ entered (stream_service_dispatch b c e).trace, m ∈ stream_methods := by
  have hhk : entered (http_hooks_on_play b e.cfg e.hooks c.req).2 = [Method.http_hooks_on_play] :=
    entered_hooks_checked _ _ _ _ _ _
  have hpub := entered_publishing_subset b c e.publish
  unfold stream_service_dispatch
  split
  · unfold stream_service_play
    split
    · simp [entered]
    · split
      · simp [entered, hhk, stream_methods]
      · split <;>
          simp [Run.after, entered, entered_append, hhk, entered_playing, http_hooks_on_stop,
            entered_hooks_notify, stream_methods]
  · split
    · simp [entered]
    · simpa [Run.after, entered, entered_append] using hpub
  · split
    · simp [entered]
    · simpa [Run.after, entered, entered_append] using hpub
  · simp [entered]

theorem entered_stream_service_cycle_subset (b : Build) (k : Kernel) (c : Conn) (e : StreamEnv) :
    ∀ m ∈ entered (stream_service_cycle b k c e).trace, m ∈ stream_methods := by
  have hd := entered_stream_service_dispatch_subset b (stripped k c e) e
  unfold stream_service_cycle
  (repeat' split) <;> first | (simp [entered, stream_methods]; done) | skip
  intro m hm
  simp only [Run.after, entered_append, stream_service_prologue, entered, List.mem_append, List.mem_cons,
    List.mem_singleton, List.not_mem_nil, or_false, false_or] at hm
  rcases hm with rfl | hm
  · simp [stream_methods]
  · exact hd m hm

theorem entered_service_recover (k : Kernel) (r : ErrCode) : entered (service_recover k r).2 = [] := by
  unfold service_recover
  (repeat' split) <;> simp [entered]

theorem entered_service_loop_subset (b : Build) (k : Kernel) (eps : List Episode) :
    ∀ (c : Conn) (ret : ErrCode), ∀ m ∈ entered (service_loop b k c ret eps).trace, m ∈ stream_methods := by
  induction eps with
  | nil => intro c ret; simp [service_loop, entered]
  | cons ep rest ih =>
    intro c ret
    have hsub := entered_stream_service_cycle_subset b k c ep.env
    simp only [service_loop]
    split
    · simp [entered]
    · split
      · exact hsub
      · split
        · exact hsub
        · intro m hm
          simp only [Run.after, entered_append, entered_service_recover, List.append_nil,
            List.mem_append] at hm
          rcases hm with hm | hm
          · exact hsub m hm
          · exact ih _ _ m hm

theorem entered_connect_origins (e : TraverseEnv) (l : List String) :
    ∀ (i : Nat) (ret : ErrCode), entered (connect_origins e i ret l).2 = [] := by
  induction l with
  | nil => intro i ret; rfl
  | cons h rest ih =>
    intro i ret
    unfold connect_origins
    split
    · simp [connect_server, entered]
    · simp [connect_server, entered, ih]

theorem entered_service_traverse (b : Build) (c : Conn) (e : ServiceEnv) :
    entered (service_traverse b c e).2 = [] := by
  unfold service_traverse check_edge_token_traverse_auth do_token_traverse_auth
  (repeat' split) <;> simp [entered, entered_append, entered_connect_origins]

theorem entered_service_cycle_subset (b : Build) (k : Kernel) (c : Conn) (e : ServiceEnv) :
    ∀ m ∈ entered (service_cycle b k c e).trace, m ∈ Method.service_cycle :: stream_methods := by
  have htr := entered_service_traverse b c e
  have hloop := entered_service_loop_subset b k e.episodes c ERROR_SUCCESS
  unfold service_cycle
  (repeat' split) <;> first | (simp [entered, entered_append, htr, service_prologue]; done) | skip
  intro m hm
  simp [Run.after, entered, entered_append, htr, service_prologue] at hm
  rcases hm with rfl | hm
  · simp
  · exact List.mem_cons_of_mem _ (hloop m hm)

theorem entered_check_vhost_policy (b : Build) (cfg : Config) (hk : HooksEnv) (rc : ErrCode)
    (req : Request) : Method.on_disconnect ∉ entered (check_vhost_policy b cfg hk rc req).2.2 := by
  have hhk : entered (http_hooks_on_connect b cfg hk req).2 = [Method.http_hooks_on_connect] :=
    entered_hooks_checked _ _ _ _ _ _
  unfold check_vhost_policy
  split
  · simp [entered]
  · simp only [entered, entered_append, hhk]
    split <;> simp [entered]

theorem entered_check_vhost (b : Build) (cfg : Config) (hk : HooksEnv) (rc : ErrCode) (req : Request)
    (d : Bool) : Method.on_disconnect ∉ entered (check_vhost b cfg hk rc req d).2.2 := by
  unfold check_vhost
  split
  · simp [entered]
  · split
    · simp [entered]
    · exact entered_check_vhost_policy _ _ _ _ _

theorem entered_on_disconnect (b : Build) (cfg : Config) (req : Request) (kc : ErrCode) :
    entered (on_disconnect b cfg req kc).2 = [Method.on_disconnect, Method.http_hooks_on_close] := by
  unfold on_disconnect http_hooks_on_close
  split <;> simp [entered, entered_append, entered_hooks_notify]

/-- C9. For every run of `do_cycle` that reaches `service_cycle`: when
`service_cycle` returns, `on_disconnect` is called exactly once, after the calls
of `service_cycle`, and `do_cycle` returns exactly the code `service_cycle`
returned, for every result of `on_disconnect` (every `kafka_on_close`). -/
theorem do_cycle_disconnects_once (b : Build) (k : Kernel) (c : Conn) (e : CycleEnv) (r : ErrCode)
    (hkafka : ¬ (b.SRS_AUTO_KAFKA ∧ e.kafka_on_client ≠ ERROR_SUCCESS))
    (hhs : e.handshake = ERROR_SUCCESS) (hconn : e.connect_app = ERROR_SUCCESS)
    (htc : ¬ ((discovered e.cfg e.req e.ip).schema.isEmpty ∨ (discovered e.cfg e.req e.ip).vhost.isEmpty ∨
      (discovered e.cfg e.req e.ip).port = 0 ∨ (discovered e.cfg e.req e.ip).app.isEmpty))
    (hvhost : (check_vhost b e.cfg e.hooks e.refer_check (discovered e.cfg e.req e.ip) true).1 =
      ERROR_SUCCESS)
    (hservice : (service_cycle b k (do_cycle_conn b c e) e.service).ret = some r) :
    (do_cycle b k c e).ret = some r ∧
      (do_cycle b k c e).trace =
        do_cycle_prologue b e ++ (service_cycle b k (do_cycle_conn b c e) e.service).trace ++
          (on_disconnect b e.cfg_disconnect (service_cycle b k (do_cycle_conn b c e) e.service).conn.req
            e.kafka_on_close).2 ∧
      (entered (do_cycle b k c e).trace).count Method.on_disconnect = 1 := by
  have hrun : do_cycle b k c e =
      ⟨some r, (service_cycle b k (do_cycle_conn b c e) e.service).conn,
        do_cycle_prologue b e ++ (service_cycle b k (do_cycle_conn b c e) e.service).trace ++
          (on_disconnect b e.cfg_disconnect (service_cycle b k (do_cycle_conn b c e) e.service).conn.req
            e.kafka_on_close).2⟩ := by
    unfold do_cycle
    rw [if_neg hkafka]
    simp only [hhs, hconn, ne_eq, not_true_eq_false, if_false]
    rw [if_neg htc]
    simp only [hvhost, not_true_eq_false, if_false, hservice]
  rw [hrun]
  refine ⟨rfl, rfl, ?_⟩
  have hg : entered (do_cycle_greeting b) = [] := by
    unfold do_cycle_greeting
    split <;> simp [entered]
  have hv := entered_check_vhost b e.cfg e.hooks e.refer_check (discovered e.cfg e.req e.ip) true
  have hs : Method.on_disconnect ∉ entered (service_cycle b k (do_cycle_conn b c e) e.service).trace := by
    intro hm
    have := entered_service_cycle_subset _ _ _ _ _ hm
    simp [stream_methods] at this
  simp only [do_cycle_prologue, entered_append, hg, entered, entered_on_disconnect, List.count_append,
    List.nil_append, List.count_eq_zero_of_not_mem hv, List.count_eq_zero_of_not_mem hs]
  simp

/-- A concrete instance: a player closes the stream, the connection is disposed,
and the kafka notification inside `on_disconnect` fails. -/
theorem do_cycle_disconnects_once_witness :
    (on_disconnect { plain_build with SRS_AUTO_KAFKA := true } plain_config (live_request 0)
        closing_cycle.kafka_on_close).1 = ErrCode.other 4000 ∧
      (do_cycle { plain_build with SRS_AUTO_KAFKA := true } plain_kernel (fresh_conn 0) closing_cycle).ret =
        some ERROR_CONTROL_RTMP_CLOSE ∧
      (entered (do_cycle { plain_build with SRS_AUTO_KAFKA := true } plain_kernel (fresh_conn 0)
        closing_cycle).trace).count Method.on_disconnect = 1 :=
  ⟨by decide,
    (do_cycle_disconnects_once { plain_build with SRS_AUTO_KAFKA := true } plain_kernel (fresh_conn 0)
      closing_cycle ERROR_CONTROL_RTMP_CLOSE (by decide) (by decide) (by decide) (by decide) (by decide)
      (by decide)).1,
    (do_cycle_disconnects_once { plain_build with SRS_AUTO_KAFKA := true } plain_kernel (fresh_conn 0)
      closing_cycle ERROR_CONTROL_RTMP_CLOSE (by decide) (by decide) (by decide) (by decide) (by decide)
      (by decide)).2.2⟩

/-! ## The play loop and `send_min_interval` -/

theorem dump_counts_append (a b : List Event) : dump_counts (a ++ b) = dump_counts a ++ dump_counts b := by
  induction a with
  | nil => rfl
  | cons x xs ih => cases x <;> simp [dump_counts, ih]

theorem dump_counts_process (c : Conn) (m : PlayControl) :
    dump_counts (process_play_control_msg c m).2 = [] := by
  unfold process_play_control_msg
  repeat' split
  all_goals simp [dump_counts]

theorem dump_counts_pump (c : Conn) (l : List PlayControl) : dump_counts (pump_control c l).2 = [] := by
  induction l with
  | nil => simp [pump_control, dump_counts]
  | cons m rest ih =>
    unfold pump_control
    split
    · exact dump_counts_process c m
    · simp [dump_counts_append, dump_counts_process, ih]

theorem dump_counts_deliver (u : Bool) (c : Conn) (st : Int) (it : PlayIter) (msgs : List SharedMsg) :
    dump_counts (do_playing_deliver u c st it msgs).trace = [] ∧
      sent_messages (do_playing_deliver u c st it msgs).trace = msgs := by
  unfold do_playing_deliver
  simp only []
  (repeat' split) <;> simp [dump_counts, sent_messages]

theorem dump_counts_fetch (b : Build) (u : Bool) (c : Conn) (st : Int) (it : PlayIter) :
    dump_counts (do_playing_fetch b u c st it).trace = [dump_count c] ∧
      (sent_messages (do_playing_fetch b u c st it).trace = [] ∨
        sent_messages (do_playing_fetch b u c st it).trace = (it.dump_packets (dump_count c)).2) := by
  have hw : dump_counts (if b.SRS_PERF_QUEUE_COND_WAIT then
      [Event.consumer_wait (if c.realtime then 0 else b.SRS_PERF_MW_MIN_MSGS) c.mw_sleep] else []) = [] ∧
      sent_messages (if b.SRS_PERF_QUEUE_COND_WAIT then
      [Event.consumer_wait (if c.realtime then 0 else b.SRS_PERF_MW_MIN_MSGS) c.mw_sleep] else []) = [] := by
    split <;> simp [dump_counts, sent_messages]
  have hs : dump_counts (if b.SRS_PERF_QUEUE_COND_WAIT then []
      else [Event.st_usleep (to_utime (wrap32 (c.mw_sleep * 1000)))]) = [] ∧
      sent_messages (if b.SRS_PERF_QUEUE_COND_WAIT then []
      else [Event.st_usleep (to_utime (wrap32 (c.mw_sleep * 1000)))]) = [] := by
    split <;> simp [dump_counts, sent_messages]
  have hd := dump_counts_deliver u c st it (it.dump_packets (dump_count c)).2
  unfold do_playing_fetch
  simp only []
  split
  · simp [dump_counts_append, sent_messages_append, hw, dump_counts, sent_messages]
  · split
    · simp [dump_counts_append, sent_messages_append, hw, hs, dump_counts, sent_messages]
    · simp [PlayStep.after, dump_counts_append, sent_messages_append, hw, hd, dump_counts, sent_messages]

/-- C10. In each iteration of the play loop `consumer->dump_packets` is called
at most once, namely when the iteration gets past the control messages and the
receive thread error, and the maximum count it is passed is 1 when the current
`send_min_interval` is greater than 0 and 0 (no limit) otherwise; hence, for a
consumer that hands out at most the maximum it is given, at most one message is
sent per iteration whenever `send_min_interval > 0`. -/
theorem do_playing_iter_dump_count (b : Build) (u : Bool) (c : Conn) (st : Int) (it : PlayIter) :
    dump_counts (do_playing_iter b u c st it).trace =
        (if it.expired = false ∧ (pump_control c it.pumped).1 = ERROR_SUCCESS ∧
            it.error_code = ERROR_SUCCESS then
          [if c.send_min_interval > 0 then 1 else 0]
        else []) ∧
      (c.send_min_interval > 0 →
        (∀ n : Int, 0 < n → ((it.dump_packets n).2.length : Int) ≤ n) →
          (sent_messages (do_playing_iter b u c st it).trace).length ≤ 1) := by
  have hf := dump_counts_fetch b u c st it
  have hp := dump_counts_pump c it.pumped
  have hsp := sent_messages_pump c it.pumped
  constructor
  · unfold do_playing_iter
    split
    · simp_all [dump_counts]
    · split
      · simp_all [dump_counts]
      · split
        · simp_all [dump_counts]
        · simp_all [PlayStep.after, dump_counts_append, dump_count]
  · intro hsmi hmax
    have hone : dump_count c = 1 := by simp [dump_count, hsmi]
    have hlen := hmax 1 (by decide)
    rw [hone] at hf
    unfold do_playing_iter
    split
    · simp [sent_messages]
    · split
      · simp [hsp]
      · split
        · simp [hsp]
        · simp only [PlayStep.after, sent_messages_append, hsp, List.nil_append]
          rcases hf.2 with h | h
          · simp [h]
          · rw [h]
            exact_mod_cast hlen

/-- A concrete instance: a consumer holding three messages, asked with the maximum 1. -/
theorem do_playing_iter_dump_count_witness :
    dump_counts (do_playing_iter plain_build false pacing_conn (-1)
        (honouring_iter [⟨0, 0⟩, ⟨40, 1⟩, ⟨80, 2⟩])).trace = [1] ∧
      (sent_messages (do_playing_iter plain_build false pacing_conn (-1)
        (honouring_iter [⟨0, 0⟩, ⟨40, 1⟩, ⟨80, 2⟩])).trace).length ≤ 1 :=
  ⟨by decide,
    (do_playing_iter_dump_count plain_build false pacing_conn (-1)
      (honouring_iter [⟨0, 0⟩, ⟨40, 1⟩, ⟨80, 2⟩])).2 (by decide)
      (by
        intro n hn
        simp only [honouring_iter, hn, if_true, List.length_take]
        omega)⟩

/-! ## The send buffer of merged write -/

/-- C11 (amended). With merged write enabled, on a build that sets the send
buffer (`SRS_PERF_MW_SO_SNDBUF`) and defines `SRS_PERF_SO_SNDBUF_SIZE`,
`change_mw_sleep(new_ms)` requests `SO_SNDBUF = SRS_PERF_SO_SNDBUF_SIZE / 2`
whatever `new_ms` is: the macro replaces the computed size, no maximum is taken.
The value requested equals `max(new_ms * 5000 / 8 / 2, SRS_PERF_SO_SNDBUF_SIZE / 2)`
exactly when the computed size does not exceed `SRS_PERF_SO_SNDBUF_SIZE / 2`. -/
theorem change_mw_sleep_sndbuf_override (b : Build) (c : Conn) (new_ms size : Int)
    (hmw : c.mw_enabled = true) (hso : b.SRS_PERF_MW_SO_SNDBUF = true)
    (hsize : b.SRS_PERF_SO_SNDBUF_SIZE = some size) :
    change_mw_sleep b c new_ms =
        ({ c with mw_sleep := new_ms }, [Event.setsockopt_SO_SNDBUF (Int.tdiv size 2)]) ∧
      (Int.tdiv size 2 = max (Int.tdiv (Int.tdiv (wrap32 (new_ms * 5000)) 8) 2) (Int.tdiv size 2) ↔
        Int.tdiv (Int.tdiv (wrap32 (new_ms * 5000)) 8) 2 ≤ Int.tdiv size 2) := by
  constructor
  · simp [change_mw_sleep, hmw, hso, hsize]
  · constructor
    · intro h
      rw [h]
      exact le_max_left _ _
    · intro h
      exact (max_eq_right h).symm

/-- A concrete instance: the override is 1024 bytes and the sleep 350 ms. -/
theorem change_mw_sleep_sndbuf_override_witness :
    change_mw_sleep sized_build merging_conn 350 =
      ({ merging_conn with mw_sleep := 350 }, [Event.setsockopt_SO_SNDBUF 512]) :=
  (change_mw_sleep_sndbuf_override sized_build merging_conn 350 1024 (by decide) (by decide) (by decide)).1

/-- With the override at 1024 bytes and a sleep of 350 ms the driver requests 512
bytes, while the maximum of the computed size and the override is 109375. -/
theorem change_mw_sleep_sndbuf_not_max :
    (change_mw_sleep sized_build merging_conn 350).2 = [Event.setsockopt_SO_SNDBUF 512] ∧
      max ((350 : Int) * 5000 / 8 / 2) (1024 / 2) = 109375 := by
  decide

/-- C12 (amended). For every `x` with `0 ≤ x ≤ 429496`, so that `x * 5000` fits
a 32-bit `int`. On a build that sets the send buffer (`SRS_PERF_MW_SO_SNDBUF`)
without the override `SRS_PERF_SO_SNDBUF_SIZE`, with merged write enabled
`change_mw_sleep(x)` makes one `setsockopt(SO_SNDBUF)` call, with exactly
`(x * 5000 / 8) / 2` in integer division, so every size it requests is at least
`x * 5000 / 8 / 2`, and it leaves `mw_sleep = x`. On a build without
`SRS_PERF_MW_SO_SNDBUF`, with merged write enabled, it leaves `mw_sleep = x` and
makes no call at all. With merged write disabled it makes no call and changes no
field, on every build. -/
theorem change_mw_sleep_send_buffer (b : Build) (c : Conn) (x : Int)
    (h0 : 0 ≤ x) (h1 : x ≤ 429496) :
    (b.SRS_PERF_MW_SO_SNDBUF = true → b.SRS_PERF_SO_SNDBUF_SIZE = none → c.mw_enabled = true →
      change_mw_sleep b c x = ({ c with mw_sleep := x }, [Event.setsockopt_SO_SNDBUF (x * 5000 / 8 / 2)]) ∧
        (∀ n : Int, Event.setsockopt_SO_SNDBUF n ∈ (change_mw_sleep b c x).2 → n ≥ x * 5000 / 8 / 2) ∧
        (change_mw_sleep b c x).1.mw_sleep = x) ∧
      (b.SRS_PERF_MW_SO_SNDBUF = false → c.mw_enabled = true →
        change_mw_sleep b c x = ({ c with mw_sleep := x }, [])) ∧
      (c.mw_enabled = false → change_mw_sleep b c x = (c, [])) := by
  have hw : wrap32 (x * 5000) = x * 5000 := by unfold wrap32; omega
  have h8 : Int.tdiv (x * 5000) 8 = x * 5000 / 8 := Int.tdiv_eq_ediv (by omega) (by decide)
  have h2 : Int.tdiv (x * 5000 / 8) 2 = x * 5000 / 8 / 2 := Int.tdiv_eq_ediv (by omega) (by decide)
  refine ⟨?_, ?_, ?_⟩
  · intro hso hsize hmw
    have hrun : change_mw_sleep b c x =
        ({ c with mw_sleep := x }, [Event.setsockopt_SO_SNDBUF (x * 5000 / 8 / 2)]) := by
      simp [change_mw_sleep, hmw, hso, hsize, hw, h8, h2]
    rw [hrun]
    refine ⟨rfl, ?_, rfl⟩
    intro n hn
    simp at hn
    omega
  · intro hso hmw
    simp [change_mw_sleep, hmw, hso]
  · intro hmw
    simp [change_mw_sleep, hmw]

/-- A concrete instance: 350 ms with merged write enabled requests 109375 bytes;
800 ms on a fresh connection, where merged write is disabled, does nothing. -/
theorem change_mw_sleep_send_buffer_witness :
    change_mw_sleep plain_build merging_conn 350 =
        ({ merging_conn with mw_sleep := 350 }, [Event.setsockopt_SO_SNDBUF 109375]) ∧
      change_mw_sleep plain_build (fresh_conn 0) 800 = (fresh_conn 0, []) :=
  ⟨((change_mw_sleep_send_buffer plain_build merging_conn 350 (by decide) (by decide)).1 (by decide)
      (by decide) (by decide)).1,
    (change_mw_sleep_send_buffer plain_build (fresh_conn 0) 800 (by decide) (by decide)).2.2 (by decide)⟩

/-- Merged write enabled and no size override do not suffice for a send buffer
to be requested: on a build without `SRS_PERF_MW_SO_SNDBUF`,
`change_mw_sleep(350)` sets `mw_sleep` and makes no `setsockopt(SO_SNDBUF)` call. -/
theorem change_mw_sleep_no_send_buffer :
    merging_conn.mw_enabled = true ∧ unsized_build.SRS_PERF_SO_SNDBUF_SIZE = none ∧
      change_mw_sleep unsized_build merging_conn 350 = ({ merging_conn with mw_sleep := 350 }, []) := by
  decide

/-! ## Control messages of a player -/

/-- C13. For a command message of a player that decodes to a pause packet with
flag `p`: `process_play_control_msg` calls `rtmp->on_play_client_pause(stream_id, p)`
once and, when that succeeds, `consumer->on_play_client_pause(p)` once, in that
order, and returns the code of the consumer call (success when both succeed);
when the protocol call fails the consumer is not called and the code of the
protocol call is returned. -/
theorem process_play_control_msg_pause (c : Conn) (m : PlayControl) (msg : CommonMessage) (p : Bool)
    (time_ms : Int) (hmsg : m.msg = some msg)
    (hcmd : msg.is_amf0_command = true ∨ msg.is_amf3_command = true)
    (hdec : m.decode_message = ERROR_SUCCESS) (hpkt : m.pkt = Packet.Pause p time_ms) :
    (m.rtmp_on_play_client_pause = ERROR_SUCCESS →
      process_play_control_msg c m =
        (m.consumer_on_play_client_pause,
          [Event.decode_message, Event.rtmp_on_play_client_pause c.stream_id p,
            Event.consumer_on_play_client_pause p])) ∧
      (m.rtmp_on_play_client_pause ≠ ERROR_SUCCESS →
        process_play_control_msg c m =
          (m.rtmp_on_play_client_pause,
            [Event.decode_message, Event.rtmp_on_play_client_pause c.stream_id p])) := by
  have hnot : (!msg.is_amf0_command && !msg.is_amf3_command) = false := by
    rcases hcmd with h | h <;> simp [h]
  constructor
  · intro h
    simp [process_play_control_msg, hmsg, hnot, hdec, hpkt, h]
  · intro h
    simp [process_play_control_msg, hmsg, hnot, hdec, hpkt, h]

/-- A concrete instance: the pause of scenario S5 (`is_pause = true`,
`time_ms = 1000`), once with both calls succeeding and once with the protocol
call failing. -/
theorem process_play_control_msg_pause_witness :
    process_play_control_msg (fresh_conn 0) (pause_control true ERROR_SUCCESS ERROR_SUCCESS) =
        (ERROR_SUCCESS,
          [Event.decode_message, Event.rtmp_on_play_client_pause 1 true,
            Event.consumer_on_play_client_pause true]) ∧
      process_play_control_msg (fresh_conn 0) (pause_control true (ErrCode.other 1011) ERROR_SUCCESS) =
        (ErrCode.other 1011, [Event.decode_message, Event.rtmp_on_play_client_pause 1 true]) :=
  ⟨(process_play_control_msg_pause (fresh_conn 0) (pause_control true ERROR_SUCCESS ERROR_SUCCESS)
      ⟨true, false, false, false, false, false, false⟩ true 1000 rfl (by decide) rfl rfl).1 rfl,
    (process_play_control_msg_pause (fresh_conn 0) (pause_control true (ErrCode.other 1011) ERROR_SUCCESS)
      ⟨true, false, false, false, false, false, false⟩ true 1000 rfl (by decide) rfl rfl).2 (by decide)⟩

/-! ## Command messages of a publisher -/

/-- C14. For a message of a publisher that is an AMF0 or AMF3 command and decodes
successfully, `handle_publish_message` makes no call on the source, and: for a
flash publisher it returns `ERROR_CONTROL_REPUBLISH` whatever the packet is,
with no response sent; for an FMLE publisher and an `SrsFMLEStartPacket` it calls
`rtmp->fmle_unpublish(stream_id, transaction_id)` once and returns
`ERROR_CONTROL_REPUBLISH` when the call succeeds and its code otherwise; for an
FMLE publisher and any other packet it sends nothing and returns success. -/
theorem handle_publish_message_command (c : Conn) (m : PublishMsg) (is_fmle vhost_is_edge : Bool)
    (hcmd : m.msg.is_amf0_command = true ∨ m.msg.is_amf3_command = true)
    (hdec : m.decode_message = ERROR_SUCCESS) :
    (is_fmle = false →
      handle_publish_message c m is_fmle vhost_is_edge =
        (ERROR_CONTROL_REPUBLISH, [PublishCall.decode_message])) ∧
      (is_fmle = true → ∀ transaction_id : Rat, m.pkt = Packet.FMLEStart transaction_id →
        handle_publish_message c m is_fmle vhost_is_edge =
          (if m.fmle_unpublish = ERROR_SUCCESS then ERROR_CONTROL_REPUBLISH else m.fmle_unpublish,
            [PublishCall.decode_message, PublishCall.fmle_unpublish c.stream_id transaction_id])) ∧
      (is_fmle = true → (∀ transaction_id : Rat, m.pkt ≠ Packet.FMLEStart transaction_id) →
        handle_publish_message c m is_fmle vhost_is_edge = (ERROR_SUCCESS, [PublishCall.decode_message])) ∧
      (∀ ev ∈ (handle_publish_message c m is_fmle vhost_is_edge).2, dispatches_to_source ev = false) := by
  have hc : (m.msg.is_amf0_command || m.msg.is_amf3_command) = true := by
    rcases hcmd with h | h <;> simp [h]
  refine ⟨?_, ?_, ?_, ?_⟩
  · intro hf
    simp [handle_publish_message, hc, hdec, hf]
  · intro hf tid hp
    by_cases hu : m.fmle_unpublish = ERROR_SUCCESS <;> simp [handle_publish_message, hc, hdec, hf, hp, hu]
  · intro hf hp
    simp only [handle_publish_message, hc, hdec, hf]
    cases hk : m.pkt <;> simp_all
  · simp only [handle_publish_message, hc, hdec]
    cases is_fmle <;> cases hk : m.pkt <;> simp [dispatches_to_source]
    split <;> simp [dispatches_to_source]

/-- A concrete instance: a flash publisher sending any command, an FMLE publisher
sending the FMLE start packet with transaction id 5 (scenario S4), and an FMLE
publisher sending a call. -/
theorem handle_publish_message_command_witness :
    handle_publish_message (fresh_conn 0) (publish_command Packet.OnMetaData ERROR_SUCCESS) false false =
        (ERROR_CONTROL_REPUBLISH, [PublishCall.decode_message]) ∧
      handle_publish_message (fresh_conn 0) (publish_command (Packet.FMLEStart 5) ERROR_SUCCESS) true false =
        (ERROR_CONTROL_REPUBLISH, [PublishCall.decode_message, PublishCall.fmle_unpublish 1 5]) ∧
      handle_publish_message (fresh_conn 0) (publish_command (Packet.Call 3) ERROR_SUCCESS) true false =
        (ERROR_SUCCESS, [PublishCall.decode_message]) :=
  ⟨(handle_publish_message_command (fresh_conn 0) (publish_command Packet.OnMetaData ERROR_SUCCESS) false
      false (by decide) rfl).1 rfl,
    (handle_publish_message_command (fresh_conn 0) (publish_command (Packet.FMLEStart 5) ERROR_SUCCESS) true
      false (by decide) rfl).2.1 rfl 5 rfl,
    (handle_publish_message_command (fresh_conn 0) (publish_command (Packet.Call 3) ERROR_SUCCESS) true
      false (by decide) rfl).2.2.1 rfl (by simp [publish_command])⟩

/-! ## Edge token traversal: the origins -/

theorem connect_origins_skip (e : TraverseEnv) (pre : List String) (o : String) (post : List String) :
    ∀ (i : Nat) (ret : ErrCode), (∀ p ∈ List.enumFrom i pre, e.connect p.1 p.2 ≠ ERROR_SUCCESS) →
      connect_origins e i ret (pre ++ o :: post) =
        ((connect_origins e (i + pre.length) ERROR_SUCCESS (o :: post)).1,
          pre.map (fun h => Event.transport_connect h SRS_EDGE_TOKEN_TRAVERSE_TIMEOUT_US) ++
            (connect_origins e (i + pre.length) ERROR_SUCCESS (o :: post)).2) := by
  induction pre with
  | nil => intro i ret _; simp [connect_origins]
  | cons a rest ih =>
    intro i ret h
    have ha : e.connect i a ≠ ERROR_SUCCESS := h (i, a) (by simp [List.enumFrom_cons])
    have hrest : ∀ p ∈ List.enumFrom (i + 1) rest, e.connect p.1 p.2 ≠ ERROR_SUCCESS := by
      intro p hp
      exact h p (by simp [List.enumFrom_cons, hp])
    have hstep : connect_origins e i ret (a :: (rest ++ o :: post)) =
        ((connect_origins e (i + 1) (e.connect i a) (rest ++ o :: post)).1,
          Event.transport_connect a SRS_EDGE_TOKEN_TRAVERSE_TIMEOUT_US ::
            (connect_origins e (i + 1) (e.connect i a) (rest ++ o :: post)).2) := by
      rw [connect_origins]
      simp [connect_server, ha]
    have hlen : i + (a :: rest).length = i + 1 + rest.length := by
      simp only [List.length_cons]
      omega
    rw [List.cons_append, hstep, ih (i + 1) (e.connect i a) hrest, hlen]
    simp

/-- C15. Let the configured origins be `pre ++ o :: post` where every origin of
`pre` refuses the TCP connect. If `o`, the origin with index `k = pre.length`,
accepts, `check_edge_token_traverse_auth` makes exactly the `k + 1` connects to
`pre ++ [o]`, in configured order and each with the timeout of 3 s, then sets the
timeouts of the upstream client, handshakes and, when the handshake succeeds,
calls `connect_app(app, tcUrl, req, true)`, whose code it returns. If `o` is the
last origin and refuses too, the method returns the code of `o` after the
connects to all origins, with no handshake. -/
theorem check_edge_token_traverse_auth_origins (b : Build) (cfg : Config) (e : TraverseEnv) (req : Request)
    (pre post : List String) (o : String)
    (hpre : ∀ p ∈ List.enumFrom 0 pre, e.connect p.1 p.2 ≠ ERROR_SUCCESS) :
    (cfg.get_vhost_edge_origin req.vhost = pre ++ o :: post → e.connect pre.length o = ERROR_SUCCESS →
      check_edge_token_traverse_auth b cfg e req =
        (if e.handshake ≠ ERROR_SUCCESS then e.handshake else e.connect_app,
          (pre ++ [o]).map (fun h => Event.transport_connect h (3 * 1000 * 1000)) ++
            [Event.client_set_recv_timeout b.SRS_CONSTS_RTMP_TIMEOUT_US,
              Event.client_set_send_timeout b.SRS_CONSTS_RTMP_TIMEOUT_US, Event.client_handshake] ++
            (if e.handshake ≠ ERROR_SUCCESS then [] else [Event.client_connect_app req.app req.tcUrl true]))) ∧
      (cfg.get_vhost_edge_origin req.vhost = pre ++ [o] → e.connect pre.length o ≠ ERROR_SUCCESS →
        check_edge_token_traverse_auth b cfg e req =
          (e.connect pre.length o, (pre ++ [o]).map (fun h => Event.transport_connect h (3 * 1000 * 1000)))) := by
  constructor
  · intro hl ho
    have hs := connect_origins_skip e pre o post 0 ERROR_SUCCESS hpre
    simp only [Nat.zero_add, connect_origins, connect_server, ho, if_true] at hs
    unfold check_edge_token_traverse_auth
    rw [hl, hs]
    by_cases hh : e.handshake = ERROR_SUCCESS <;>
      simp [do_token_traverse_auth, hh, SRS_EDGE_TOKEN_TRAVERSE_TIMEOUT_US]
  · intro hl ho
    have hs := connect_origins_skip e pre o [] 0 ERROR_SUCCESS hpre
    simp only [Nat.zero_add, connect_origins, connect_server, ho, if_false] at hs
    unfold check_edge_token_traverse_auth
    rw [hl, hs]
    simp [ho, SRS_EDGE_TOKEN_TRAVERSE_TIMEOUT_US]

/-- A concrete instance: scenario S6, where `a:1935` refuses and `b:1935` accepts,
and the same origins when both refuse. -/
theorem check_edge_token_traverse_auth_origins_witness :
    check_edge_token_traverse_auth plain_build two_origins second_accepts (live_request 0) =
        (ERROR_SUCCESS,
          [Event.transport_connect "a:1935" 3000000, Event.transport_connect "b:1935" 3000000,
            Event.client_set_recv_timeout 30000000, Event.client_set_send_timeout 30000000,
            Event.client_handshake, Event.client_connect_app "live" "rtmp://h/live" true]) ∧
      check_edge_token_traverse_auth plain_build two_origins none_accepts (live_request 0) =
        (ErrCode.other 1019,
          [Event.transport_connect "a:1935" 3000000, Event.transport_connect "b:1935" 3000000]) :=
  ⟨(check_edge_token_traverse_auth_origins plain_build two_origins second_accepts (live_request 0)
      ["a:1935"] [] "b:1935" (by decide)).1 rfl (by decide),
    (check_edge_token_traverse_auth_origins plain_build two_origins none_accepts (live_request 0)
      ["a:1935"] [] "b:1935" (by decide)).2 rfl (by decide)⟩

/-! ## The service loop: which codes return -/

theorem entered_publishing_no_cycle (b : Build) (c : Conn) (e : PublishEnv) :
    Method.stream_service_cycle ∉ entered (publishing b c e).trace := by
  by_cases href : e.cfg.get_refer_enabled c.req.vhost ∧ e.refer_check ≠ ERROR_SUCCESS
  · unfold publishing
    rw [if_pos href]
    simp [entered]
  · by_cases hhook : (http_hooks_on_publish b e.cfg e.hooks c.req).1 = ERROR_SUCCESS
    · rw [entered_publishing b c e href hhook]
      (repeat' split) <;> simp
    · unfold publishing
      rw [if_neg href]
      simp only [hhook, ne_eq, not_false_eq_true, if_true]
      have hhk : entered (http_hooks_on_publish b e.cfg e.hooks c.req).2 = [Method.http_hooks_on_publish] :=
        entered_hooks_checked _ _ _ _ _ _
      have hrefer : entered (if e.cfg.get_refer_enabled c.req.vhost then [Event.refer_check c.req.pageUrl]
          else []) = [] := by split <;> rfl
      simp [entered, entered_append, hhk, hrefer]

theorem entered_stream_service_dispatch_no_cycle (b : Build) (c : Conn) (e : StreamEnv) :
    Method.stream_service_cycle ∉ entered (stream_service_dispatch b c e).trace := by
  have hhk : entered (http_hooks_on_play b e.cfg e.hooks c.req).2 = [Method.http_hooks_on_play] :=
    entered_hooks_checked _ _ _ _ _ _
  have hpub := entered_publishing_no_cycle b c e.publish
  unfold stream_service_dispatch
  split
  · unfold stream_service_play
    split
    · simp [entered]
    · split
      · simp [entered, hhk]
      · split <;>
          simp [Run.after, entered, entered_append, hhk, entered_playing, http_hooks_on_stop,
            entered_hooks_notify]
  · split
    · simp [entered]
    · simpa [Run.after, entered, entered_append] using hpub
  · split
    · simp [entered]
    · simpa [Run.after, entered, entered_append] using hpub
  · simp [entered]

theorem entered_stream_service_cycle_count (b : Build) (k : Kernel) (c : Conn) (e : StreamEnv) :
    (entered (stream_service_cycle b k c e).trace).count Method.stream_service_cycle = 1 := by
  have hd := entered_stream_service_dispatch_no_cycle b (stripped k c e) e
  unfold stream_service_cycle
  (repeat' split) <;> first | (simp [entered]; done) | skip
  simp [Run.after, entered_append, stream_service_prologue, entered, List.count_eq_zero_of_not_mem hd]

theorem service_recover_ret (k : Kernel) (r code : ErrCode)
    (hrep : k.srs_is_system_control_error ERROR_CONTROL_REPUBLISH = true)
    (hclose : k.srs_is_system_control_error ERROR_CONTROL_RTMP_CLOSE = true)
    (h : (service_recover k r).1 = Flow.ret code) :
    code = r ∧ r ≠ ERROR_SUCCESS ∧ r ≠ ERROR_CONTROL_REPUBLISH ∧ r ≠ ERROR_CONTROL_RTMP_CLOSE := by
  unfold service_recover at h
  split_ifs at h with h1 h2 h3 h4
  · have hc : r = code := by simpa using h
    refine ⟨hc.symm, h1, ?_, ?_⟩
    · intro hr
      rw [hr, hrep] at h2
      simp at h2
    · intro hr
      rw [hr, hclose] at h2
      simp at h2
  · have hc : r = code := by simpa using h
    exact ⟨hc.symm, h1, h3, h4⟩

theorem service_recover_other (k : Kernel) (r : ErrCode) (h1 : r ≠ ERROR_SUCCESS)
    (h2 : r ≠ ERROR_CONTROL_REPUBLISH) (h3 : r ≠ ERROR_CONTROL_RTMP_CLOSE) :
    (service_recover k r).1 = Flow.ret r := by
  unfold service_recover
  split_ifs <;> simp_all

theorem service_loop_continues (b : Build) (k : Kernel)
    (hrep : k.srs_is_system_control_error ERROR_CONTROL_REPUBLISH = true)
    (hclose : k.srs_is_system_control_error ERROR_CONTROL_RTMP_CLOSE = true) (eps : List Episode) :
    ∀ (c : Conn) (ret : ErrCode), (∀ e ∈ eps, e.disposed = false) →
      (service_loop b k c ret eps).ret ≠ some ERROR_SUCCESS ∧
        (service_loop b k c ret eps).ret ≠ some ERROR_CONTROL_REPUBLISH ∧
        (service_loop b k c ret eps).ret ≠ some ERROR_CONTROL_RTMP_CLOSE := by
  induction eps with
  | nil => intro c ret _; simp [service_loop]
  | cons ep rest ih =>
    intro c ret h
    have hd : ep.disposed = false := h ep (by simp)
    have hrest : ∀ e ∈ rest, e.disposed = false := fun e he => h e (by simp [he])
    simp only [service_loop, hd, Bool.false_eq_true, if_false]
    cases hrun : (stream_service_cycle b k c ep.env).ret with
    | none => simp [hrun]
    | some r =>
      simp only []
      cases hrec : (service_recover k r).1 with
      | ret code =>
        have := service_recover_ret k r code hrep hclose hrec
        simp only [Option.some.injEq, ne_eq]
        rw [this.1]
        exact this.2
      | next =>
        simpa [Run.after] using ih (stream_service_cycle b k c ep.env).conn r hrest

/-- C16. In the loop of `service_cycle`: when `stream_service_cycle` returns a
code `r` other than success, `ERROR_CONTROL_REPUBLISH` and
`ERROR_CONTROL_RTMP_CLOSE`, the loop returns exactly `r` and
`stream_service_cycle` has been entered once, whatever
`srs_is_system_control_error` and the later episodes are; and over episodes none
of which finds the connection disposed the loop never returns success,
`ERROR_CONTROL_REPUBLISH` or `ERROR_CONTROL_RTMP_CLOSE`. The two control codes are
system control errors for `srs_is_system_control_error`. -/
theorem service_loop_return_codes (b : Build) (k : Kernel) (c : Conn) (ret r : ErrCode) (ep : Episode)
    (rest eps : List Episode) (c0 : Conn) (ret0 : ErrCode)
    (hrep : k.srs_is_system_control_error ERROR_CONTROL_REPUBLISH = true)
    (hclose : k.srs_is_system_control_error ERROR_CONTROL_RTMP_CLOSE = true) :
    (ep.disposed = false → (stream_service_cycle b k c ep.env).ret = some r →
      r ≠ ERROR_SUCCESS → r ≠ ERROR_CONTROL_REPUBLISH → r ≠ ERROR_CONTROL_RTMP_CLOSE →
        service_loop b k c ret (ep :: rest) =
            ⟨some r, (stream_service_cycle b k c ep.env).conn, (stream_service_cycle b k c ep.env).trace⟩ ∧
          (entered (service_loop b k c ret (ep :: rest)).trace).count Method.stream_service_cycle = 1) ∧
      ((∀ e ∈ eps, e.disposed = false) →
        (service_loop b k c0 ret0 eps).ret ≠ some ERROR_SUCCESS ∧
          (service_loop b k c0 ret0 eps).ret ≠ some ERROR_CONTROL_REPUBLISH ∧
          (service_loop b k c0 ret0 eps).ret ≠ some ERROR_CONTROL_RTMP_CLOSE) := by
  constructor
  · intro hd hrun h1 h2 h3
    have hrun2 : service_loop b k c ret (ep :: rest) =
        ⟨some r, (stream_service_cycle b k c ep.env).conn, (stream_service_cycle b k c ep.env).trace⟩ := by
      simp [service_loop, hd, hrun, service_recover_other k r h1 h2 h3]
    rw [hrun2]
    exact ⟨rfl, entered_stream_service_cycle_count b k c ep.env⟩
  · exact service_loop_continues b k hrep hclose eps c0 ret0

/-- A concrete instance: a publisher whose receive thread times out, and a
republish followed by a close, after which the loop is still running. -/
theorem service_loop_return_codes_witness :
    (service_loop plain_build plain_kernel (fresh_conn 0) ERROR_SUCCESS
        [publish_episode ERROR_SOCKET_TIMEOUT, close_episode]).ret = some ERROR_SOCKET_TIMEOUT ∧
      (entered (service_loop plain_build plain_kernel (fresh_conn 0) ERROR_SUCCESS
        [publish_episode ERROR_SOCKET_TIMEOUT, close_episode]).trace).count Method.stream_service_cycle = 1 ∧
      (service_loop plain_build plain_kernel (fresh_conn 0) ERROR_SUCCESS
        [publish_episode ERROR_CONTROL_REPUBLISH, close_episode]).ret ≠ some ERROR_CONTROL_RTMP_CLOSE ∧
      (service_loop plain_build plain_kernel (fresh_conn 0) ERROR_SUCCESS
        [publish_episode ERROR_CONTROL_REPUBLISH, close_episode]).ret = none :=
  ⟨congrArg Run.ret ((service_loop_return_codes plain_build plain_kernel (fresh_conn 0) ERROR_SUCCESS
      ERROR_SOCKET_TIMEOUT (publish_episode ERROR_SOCKET_TIMEOUT) [close_episode] [] (fresh_conn 0)
      ERROR_SUCCESS (by decide) (by decide)).1 (by decide) (by decide) (by decide) (by decide)
      (by decide)).1,
    ((service_loop_return_codes plain_build plain_kernel (fresh_conn 0) ERROR_SUCCESS
      ERROR_SOCKET_TIMEOUT (publish_episode ERROR_SOCKET_TIMEOUT) [close_episode] [] (fresh_conn 0)
      ERROR_SUCCESS (by decide) (by decide)).1 (by decide) (by decide) (by decide) (by decide)
      (by decide)).2,
    ((service_loop_return_codes plain_build plain_kernel (fresh_conn 0) ERROR_SUCCESS
      ERROR_SOCKET_TIMEOUT (publish_episode ERROR_SOCKET_TIMEOUT) []
      [publish_episode ERROR_CONTROL_REPUBLISH, close_episode] (fresh_conn 0)
      ERROR_SUCCESS (by decide) (by decide)).2 (by decide)).2.2,
    by decide⟩

/-! ## The bandwidth check -/

/-- C17 (amended). When the vhost has bandwidth check enabled, `service_cycle`
returns the result of `bandwidth_check` right after the window size and the peer
bandwidth have been set, also when the bandwidth test succeeds: it does not set
the chunk size, does not send `response_connect_app` or `on_bw_done`, and does
not enter `stream_service_cycle`. -/
theorem service_cycle_bandwidth_check_returns (b : Build) (k : Kernel) (c : Conn) (e : ServiceEnv)
    (hack : e.set_window_ack_size = ERROR_SUCCESS) (hbw : e.set_peer_bandwidth = ERROR_SUCCESS)
    (hen : e.cfg.get_bw_check_enabled c.req.vhost = true) :
    service_cycle b k c e =
        ⟨some e.bandwidth_check, c,
          [Event.enter Method.service_cycle, Event.set_window_ack_size 2500000,
            Event.set_peer_bandwidth 2500000 2, Event.bandwidth_check]⟩ ∧
      (∀ n : Int, Event.set_chunk_size n ∉ (service_cycle b k c e).trace) ∧
      Event.response_connect_app ∉ (service_cycle b k c e).trace ∧
      Event.on_bw_done ∉ (service_cycle b k c e).trace ∧
      Method.stream_service_cycle ∉ entered (service_cycle b k c e).trace := by
  have hrun : service_cycle b k c e =
      ⟨some e.bandwidth_check, c,
        [Event.enter Method.service_cycle, Event.set_window_ack_size 2500000,
          Event.set_peer_bandwidth 2500000 2, Event.bandwidth_check]⟩ := by
    simp [service_cycle, hack, hbw, hen]
  rw [hrun]
  simp [entered]

/-- A concrete instance: the bandwidth test succeeds and a player is waiting. -/
theorem service_cycle_bandwidth_check_returns_witness :
    service_cycle plain_build plain_kernel (fresh_conn 0) bw_check_service =
      ⟨some ERROR_SUCCESS, fresh_conn 0,
        [Event.enter Method.service_cycle, Event.set_window_ack_size 2500000,
          Event.set_peer_bandwidth 2500000 2, Event.bandwidth_check]⟩ :=
  (service_cycle_bandwidth_check_returns plain_build plain_kernel (fresh_conn 0) bw_check_service rfl rfl
    rfl).1

/-- With bandwidth check enabled and a successful test, `service_cycle` returns
success without the chunk size being set and with `stream_service_cycle` entered
0 times. -/
theorem service_cycle_bandwidth_check_no_loop :
    (service_cycle plain_build plain_kernel (fresh_conn 0) bw_check_service).ret = some ERROR_SUCCESS ∧
      Event.set_chunk_size 60000 ∉ (service_cycle plain_build plain_kernel (fresh_conn 0)
        bw_check_service).trace ∧
      (entered (service_cycle plain_build plain_kernel (fresh_conn 0) bw_check_service).trace).count
        Method.stream_service_cycle = 0 := by
  decide

/-! ## Reload callbacks -/

/-- C18. Each reload callback returns success. Called with a vhost other than
`req->vhost` it makes no call and leaves the session as it is. Called with
`req->vhost`, `on_reload_vhost_removed` changes nothing, and the others change
at most their own field, which afterwards holds the configured value:
`send_min_interval` for play, `tcp_nodelay` for tcp_nodelay, `realtime` for
realtime, the two publish timeouts for publish; only tcp_nodelay makes a call,
the `setsockopt(TCP_NODELAY)` of `set_sock_options` when the value changes. -/
theorem on_reload_vhost_frame (b : Build) (cfg : Config) (s : Session) (vhost : String) :
    (s.conn.req.vhost ≠ vhost →
      on_reload_vhost_removed s vhost = (ERROR_SUCCESS, s, []) ∧
        on_reload_vhost_play cfg s vhost = (ERROR_SUCCESS, s, []) ∧
        on_reload_vhost_tcp_nodelay b cfg s vhost = (ERROR_SUCCESS, s, []) ∧
        on_reload_vhost_realtime cfg s vhost = (ERROR_SUCCESS, s, []) ∧
        on_reload_vhost_publish cfg s vhost = (ERROR_SUCCESS, s, [])) ∧
      (s.conn.req.vhost = vhost →
        on_reload_vhost_removed s vhost = (ERROR_SUCCESS, s, []) ∧
          on_reload_vhost_play cfg s vhost =
            (ERROR_SUCCESS,
              { s with conn := { s.conn with send_min_interval := cfg.get_send_min_interval vhost } }, []) ∧
          on_reload_vhost_tcp_nodelay b cfg s vhost =
            (ERROR_SUCCESS, { s with conn := { s.conn with tcp_nodelay := cfg.get_tcp_nodelay vhost } },
              if cfg.get_tcp_nodelay vhost ≠ s.conn.tcp_nodelay ∧ b.SRS_PERF_TCP_NODELAY = true then
                [Event.setsockopt_TCP_NODELAY (cfg.get_tcp_nodelay vhost)]
              else []) ∧
          on_reload_vhost_realtime cfg s vhost =
            (ERROR_SUCCESS, { s with conn := { s.conn with realtime := cfg.get_realtime_enabled vhost } },
              []) ∧
          on_reload_vhost_publish cfg s vhost =
            (ERROR_SUCCESS,
              { s with conn := { s.conn with
                  publish_1stpkt_timeout := cfg.get_publish_1stpkt_timeout vhost,
                  publish_normal_timeout := cfg.get_publish_normal_timeout vhost } }, [])) := by
  constructor
  · intro h
    simp [on_reload_vhost_removed, on_reload_vhost_play, on_reload_vhost_tcp_nodelay,
      on_reload_vhost_realtime, on_reload_vhost_publish, h]
  · intro h
    subst h
    obtain ⟨conn, disposed, expired⟩ := s
    obtain ⟨req, stream_id, duration, wakable, mw_sleep, mw_enabled, realtime, send_min_interval,
      tcp_nodelay, p1, pn⟩ := conn
    refine ⟨?_, ?_, ?_, ?_, ?_⟩
    · simp [on_reload_vhost_removed]
    · simp only [on_reload_vhost_play, ne_eq, not_true_eq_false, if_false]
      split <;> simp_all
    · simp only [on_reload_vhost_tcp_nodelay, set_sock_options, ne_eq, not_true_eq_false, if_false]
      by_cases h1 : cfg.get_tcp_nodelay req.vhost = tcp_nodelay <;>
        by_cases h2 : b.SRS_PERF_TCP_NODELAY = true <;> simp_all
    · simp only [on_reload_vhost_realtime, ne_eq, not_true_eq_false, if_false]
      split <;> simp_all
    · simp only [on_reload_vhost_publish, ne_eq, not_true_eq_false, if_false]
      by_cases h1 : cfg.get_publish_1stpkt_timeout req.vhost = p1 <;>
        by_cases h2 : cfg.get_publish_normal_timeout req.vhost = pn <;> simp_all

/-- A concrete instance: a session on the vhost `h` and a reload of the play and
of the publish settings. -/
theorem on_reload_vhost_frame_witness :
    on_reload_vhost_play reloaded_config live_session "other" = (ERROR_SUCCESS, live_session, []) ∧
      on_reload_vhost_play reloaded_config live_session "h" =
        (ERROR_SUCCESS, { live_session with conn := { live_session.conn with send_min_interval := 20 } },
          []) ∧
      on_reload_vhost_publish reloaded_config live_session "h" =
        (ERROR_SUCCESS,
          { live_session with conn := { live_session.conn with
              publish_1stpkt_timeout := 10000, publish_normal_timeout := 3000 } }, []) :=
  ⟨((on_reload_vhost_frame plain_build reloaded_config live_session "other").1 (by decide)).2.1,
    ((on_reload_vhost_frame plain_build reloaded_config live_session "h").2 (by decide)).2.1,
    ((on_reload_vhost_frame plain_build reloaded_config live_session "h").2 (by decide)).2.2.2.2⟩

theorem do_playing_deliver_flow (u : Bool) (c : Conn) (st : Int) (it : PlayIter) (msgs : List SharedMsg)
    (h : (do_playing_deliver u c st it msgs).flow = Flow.ret ERROR_USER_DISCONNECT) :
    it.send_and_free_messages = ERROR_USER_DISCONNECT := by
  unfold do_playing_deliver at h
  simp only [] at h
  split_ifs at h <;> simp_all

theorem do_playing_fetch_flow (b : Build) (u : Bool) (c : Conn) (st : Int) (it : PlayIter)
    (h : (do_playing_fetch b u c st it).flow = Flow.ret ERROR_USER_DISCONNECT) :
    (it.dump_packets (dump_count c)).1 = ERROR_USER_DISCONNECT ∨
      it.send_and_free_messages = ERROR_USER_DISCONNECT := by
  unfold do_playing_fetch at h
  simp only [] at h
  by_cases h3 : (it.dump_packets (dump_count c)).1 ≠ ERROR_SUCCESS
  · rw [if_pos h3] at h
    left
    simpa using h
  · rw [if_neg h3] at h
    by_cases h4 : (it.dump_packets (dump_count c)).2.length ≤ 0
    · rw [if_pos h4] at h
      simp at h
    · rw [if_neg h4] at h
      right
      exact do_playing_deliver_flow _ _ _ _ _ (by simpa [PlayStep.after] using h)

theorem do_playing_iter_user_disconnect (b : Build) (u : Bool) (c : Conn) (st : Int) (it : PlayIter)
    (hexp : it.expired = false)
    (h : (do_playing_iter b u c st it).flow = Flow.ret ERROR_USER_DISCONNECT) :
    (pump_control c it.pumped).1 = ERROR_USER_DISCONNECT ∨ it.error_code = ERROR_USER_DISCONNECT ∨
      (it.dump_packets (dump_count c)).1 = ERROR_USER_DISCONNECT ∨
      it.send_and_free_messages = ERROR_USER_DISCONNECT := by
  unfold do_playing_iter at h
  rw [hexp] at h
  simp only [Bool.false_eq_true, if_false] at h
  by_cases h1 : (pump_control c it.pumped).1 ≠ ERROR_SUCCESS
  · rw [if_pos h1] at h
    left
    simpa using h
  · rw [if_neg h1] at h
    by_cases h2 : it.error_code ≠ ERROR_SUCCESS
    · rw [if_pos h2] at h
      right; left
      simpa using h
    · rw [if_neg h2] at h
      right; right
      exact do_playing_fetch_flow b u c st it (by simpa [PlayStep.after] using h)

/-- C19 (amended). `on_reload_vhost_removed(v)` returns success and records
nothing: the session, and its flag `expired` in particular, is as before, also
when `v` is `req->vhost`. So when `expired` was false, the next top of the play
or of the publish loop does not return `ERROR_USER_DISCONNECT` for the removal:
the iteration returns that code only if a collaborator (the receive thread, the
protocol or the consumer) returns it. -/
theorem on_reload_vhost_removed_records_nothing (b : Build) (u : Bool) (s : Session) (vhost : String)
    (st : Int) (it : PlayIter) (nb_msgs : Int) (pit : PublishIter) :
    on_reload_vhost_removed s vhost = (ERROR_SUCCESS, s, []) ∧
      (on_reload_vhost_removed s vhost).2.1.expired = s.expired ∧
      (s.expired = false →
        ((do_playing_iter b u (on_reload_vhost_removed s vhost).2.1.conn st
            (it.reading (on_reload_vhost_removed s vhost).2.1)).flow = Flow.ret ERROR_USER_DISCONNECT →
          (pump_control s.conn it.pumped).1 = ERROR_USER_DISCONNECT ∨
            it.error_code = ERROR_USER_DISCONNECT ∨
            (it.dump_packets (dump_count s.conn)).1 = ERROR_USER_DISCONNECT ∨
            it.send_and_free_messages = ERROR_USER_DISCONNECT) ∧
        ((do_publishing_iter (on_reload_vhost_removed s vhost).2.1.conn nb_msgs
            (pit.reading (on_reload_vhost_removed s vhost).2.1)).1 = Flow.ret ERROR_USER_DISCONNECT →
          pit.error_code = ERROR_USER_DISCONNECT)) := by
  have hcb : on_reload_vhost_removed s vhost = (ERROR_SUCCESS, s, []) := by
    unfold on_reload_vhost_removed
    split <;> rfl
  rw [hcb]
  refine ⟨rfl, rfl, ?_⟩
  intro hexp
  constructor
  · intro h
    exact do_playing_iter_user_disconnect b u s.conn st (it.reading s) (by simp [PlayIter.reading, hexp]) h
  · intro h
    unfold do_publishing_iter at h
    simp only [PublishIter.reading, hexp, Bool.false_eq_true, if_false] at h
    split_ifs at h <;> simp_all

/-- A concrete instance: the vhost of a live session is removed. -/
theorem on_reload_vhost_removed_records_nothing_witness :
    on_reload_vhost_removed live_session "h" = (ERROR_SUCCESS, live_session, []) ∧
      (on_reload_vhost_removed live_session "h").2.1.expired = live_session.expired :=
  ⟨(on_reload_vhost_removed_records_nothing plain_build false live_session "h" (-1) (quiet_iter [⟨0, 0⟩]) 0
      ⟨false, false, ERROR_SUCCESS, 3⟩).1,
    (on_reload_vhost_removed_records_nothing plain_build false live_session "h" (-1) (quiet_iter [⟨0, 0⟩]) 0
      ⟨false, false, ERROR_SUCCESS, 3⟩).2.1⟩

/-- After `on_reload_vhost_removed("h")` on a live session of the vhost `h`,
`expired` is false and the next iteration of the play loop and of the publish
loop goes on to the following one instead of returning `ERROR_USER_DISCONNECT`. -/
theorem on_reload_vhost_removed_not_expired :
    live_session.conn.req.vhost = "h" ∧
      (on_reload_vhost_removed live_session "h").2.1.expired = false ∧
      (do_playing_iter plain_build false (on_reload_vhost_removed live_session "h").2.1.conn (-1)
        ((quiet_iter [⟨0, 0⟩]).reading (on_reload_vhost_removed live_session "h").2.1)).flow = Flow.next ∧
      (do_publishing_iter (on_reload_vhost_removed live_session "h").2.1.conn 0
        (PublishIter.reading ⟨false, false, ERROR_SUCCESS, 3⟩
          (on_reload_vhost_removed live_session "h").2.1)).1 = Flow.next := by
  decide

/-! ## The request after `connect_app` -/

theorem entered_do_cycle_greeting (b : Build) : entered (do_cycle_greeting b) = [] := by
  unfold do_cycle_greeting
  split <;> simp [entered]

theorem entered_check_vhost_policy_mem (b : Build) (cfg : Config) (hk : HooksEnv) (rc : ErrCode)
    (req : Request) : Method.check_vhost ∈ entered (check_vhost_policy b cfg hk rc req).2.2 := by
  unfold check_vhost_policy
  split <;> simp [entered]

theorem entered_check_vhost_mem (b : Build) (cfg : Config) (hk : HooksEnv) (rc : ErrCode) (req : Request)
    (d : Bool) : Method.check_vhost ∈ entered (check_vhost b cfg hk rc req d).2.2 := by
  unfold check_vhost
  split
  · simp [entered]
  · split
    · simp [entered]
    · exact entered_check_vhost_policy_mem _ _ _ _ _

theorem entered_service_cycle_mem (b : Build) (k : Kernel) (c : Conn) (e : ServiceEnv) :
    Method.service_cycle ∈ entered (service_cycle b k c e).trace := by
  unfold service_cycle
  (repeat' split) <;> simp [entered, Run.after, service_prologue]

theorem entered_check_vhost_policy_no_service (b : Build) (cfg : Config) (hk : HooksEnv) (rc : ErrCode)
    (req : Request) : Method.service_cycle ∉ entered (check_vhost_policy b cfg hk rc req).2.2 := by
  have hhk : entered (http_hooks_on_connect b cfg hk req).2 = [Method.http_hooks_on_connect] :=
    entered_hooks_checked _ _ _ _ _ _
  unfold check_vhost_policy
  split
  · simp [entered]
  · simp only [entered, entered_append, hhk]
    split <;> simp [entered]

theorem entered_check_vhost_no_service (b : Build) (cfg : Config) (hk : HooksEnv) (rc : ErrCode)
    (req : Request) (d : Bool) : Method.service_cycle ∉ entered (check_vhost b cfg hk rc req d).2.2 := by
  unfold check_vhost
  split
  · simp [entered]
  · split
    · simp [entered]
    · exact entered_check_vhost_policy_no_service _ _ _ _ _

/-- C20 (amended). After a successful `connect_app` and the vhost discovery,
`do_cycle` tests `schema`, `vhost` and `app` for emptiness and `port` for being
0, not for being positive. When one of the strings is empty or the port is 0 it
returns `ERROR_RTMP_REQ_TCURL` having made no webhook callback and entered no
method of the driver (neither `check_vhost` nor `service_cycle`). Otherwise, also
for a negative port, it enters `check_vhost`, and it enters `service_cycle`
exactly when `check_vhost` succeeds. So `check_vhost` or `service_cycle` is
entered only if the three strings are non-empty and the port is not 0. -/
theorem do_cycle_tcurl_check (b : Build) (k : Kernel) (c : Conn) (e : CycleEnv)
    (hkafka : ¬ (b.SRS_AUTO_KAFKA ∧ e.kafka_on_client ≠ ERROR_SUCCESS))
    (hhs : e.handshake = ERROR_SUCCESS) (hconn : e.connect_app = ERROR_SUCCESS) :
    (((discovered e.cfg e.req e.ip).schema.isEmpty ∨ (discovered e.cfg e.req e.ip).vhost.isEmpty ∨
        (discovered e.cfg e.req e.ip).port = 0 ∨ (discovered e.cfg e.req e.ip).app.isEmpty) →
      (do_cycle b k c e).ret = some ERROR_RTMP_REQ_TCURL ∧
        (do_cycle b k c e).trace = do_cycle_greeting b ++ [Event.connect_app] ∧
        hooked (do_cycle b k c e).trace = [] ∧
        entered (do_cycle b k c e).trace = []) ∧
      (¬ ((discovered e.cfg e.req e.ip).schema.isEmpty ∨ (discovered e.cfg e.req e.ip).vhost.isEmpty ∨
          (discovered e.cfg e.req e.ip).port = 0 ∨ (discovered e.cfg e.req e.ip).app.isEmpty) →
        Method.check_vhost ∈ entered (do_cycle b k c e).trace ∧
          (Method.service_cycle ∈ entered (do_cycle b k c e).trace ↔
            (check_vhost b e.cfg e.hooks e.refer_check (discovered e.cfg e.req e.ip) true).1 =
              ERROR_SUCCESS)) ∧
      ((Method.check_vhost ∈ entered (do_cycle b k c e).trace ∨
          Method.service_cycle ∈ entered (do_cycle b k c e).trace) →
        ¬ ((discovered e.cfg e.req e.ip).schema.isEmpty ∨ (discovered e.cfg e.req e.ip).vhost.isEmpty ∨
          (discovered e.cfg e.req e.ip).port = 0 ∨ (discovered e.cfg e.req e.ip).app.isEmpty)) := by
  have hg := entered_do_cycle_greeting b
  have hv := entered_check_vhost_mem b e.cfg e.hooks e.refer_check (discovered e.cfg e.req e.ip) true
  have hnv := entered_check_vhost_no_service b e.cfg e.hooks e.refer_check (discovered e.cfg e.req e.ip) true
  have hs := entered_service_cycle_mem b k (do_cycle_conn b c e) e.service
  have hfail : ((discovered e.cfg e.req e.ip).schema.isEmpty ∨ (discovered e.cfg e.req e.ip).vhost.isEmpty ∨
        (discovered e.cfg e.req e.ip).port = 0 ∨ (discovered e.cfg e.req e.ip).app.isEmpty) →
      do_cycle b k c e =
        ⟨some ERROR_RTMP_REQ_TCURL, { c with req := discovered e.cfg e.req e.ip },
          do_cycle_greeting b ++ [Event.connect_app]⟩ := by
    intro htc
    unfold do_cycle
    rw [if_neg hkafka]
    simp only [hhs, hconn, ne_eq, not_true_eq_false, if_false]
    rw [if_pos htc]
  refine ⟨?_, ?_, ?_⟩
  · intro htc
    rw [hfail htc]
    refine ⟨rfl, rfl, ?_, ?_⟩
    · unfold do_cycle_greeting
      split <;> simp [hooked]
    · simp [entered_append, hg, entered]
  · intro htc
    unfold do_cycle
    rw [if_neg hkafka]
    simp only [hhs, hconn, ne_eq, not_true_eq_false, if_false]
    rw [if_neg htc]
    by_cases hcv : (check_vhost b e.cfg e.hooks e.refer_check (discovered e.cfg e.req e.ip) true).1 =
        ERROR_SUCCESS
    · simp only [hcv, not_true_eq_false, if_false, iff_true]
      cases hsv : (service_cycle b k (do_cycle_conn b c e) e.service).ret with
      | none =>
        simp only [Run.after, do_cycle_prologue, entered_append, List.mem_append]
        exact ⟨Or.inl (Or.inr hv), Or.inr hs⟩
      | some r =>
        simp only [do_cycle_prologue, entered_append, List.mem_append]
        exact ⟨Or.inl (Or.inl (Or.inr hv)), Or.inl (Or.inr hs)⟩
    · simp only [hcv, not_false_eq_true, if_true, iff_false]
      simp only [do_cycle_prologue, entered_append, List.mem_append, hg, entered, List.not_mem_nil,
        false_or]
      exact ⟨hv, hnv⟩
  · intro hm htc
    rw [hfail htc] at hm
    simp [entered_append, hg, entered] at hm

/-- A concrete instance: a request with port 0, and a request with port 1935. -/
theorem do_cycle_tcurl_check_witness :
    (do_cycle plain_build plain_kernel (fresh_conn 0)
        { quiet_cycle ERROR_SUCCESS [] with req := { live_request 0 with port := 0 } }).ret =
        some ERROR_RTMP_REQ_TCURL ∧
      entered (do_cycle plain_build plain_kernel (fresh_conn 0)
        { quiet_cycle ERROR_SUCCESS [] with req := { live_request 0 with port := 0 } }).trace = [] ∧
      Method.service_cycle ∈ entered (do_cycle plain_build plain_kernel (fresh_conn 0)
        (quiet_cycle ERROR_SUCCESS [disposed_episode])).trace :=
  ⟨((do_cycle_tcurl_check plain_build plain_kernel (fresh_conn 0)
      { quiet_cycle ERROR_SUCCESS [] with req := { live_request 0 with port := 0 } } (by decide) rfl rfl).1
      (by decide)).1,
    ((do_cycle_tcurl_check plain_build plain_kernel (fresh_conn 0)
      { quiet_cycle ERROR_SUCCESS [] with req := { live_request 0 with port := 0 } } (by decide) rfl rfl).1
      (by decide)).2.2.2,
    ((do_cycle_tcurl_check plain_build plain_kernel (fresh_conn 0)
      (quiet_cycle ERROR_SUCCESS [disposed_episode]) (by decide) rfl rfl).2.1 (by decide)).2.mpr (by decide)⟩

/-- A request with port `-1` passes the test: `do_cycle` enters `check_vhost` and
`service_cycle` and returns the code of `service_cycle`, not
`ERROR_RTMP_REQ_TCURL`. -/
theorem do_cycle_negative_port_proceeds :
    (discovered negative_port_cycle.cfg negative_port_cycle.req negative_port_cycle.ip).port = -1 ∧
      (do_cycle plain_build plain_kernel (fresh_conn 0) negative_port_cycle).ret = some ERROR_SUCCESS ∧
      entered (do_cycle plain_build plain_kernel (fresh_conn 0) negative_port_cycle).trace =
        [Method.check_vhost, Method.http_hooks_on_connect, Method.service_cycle, Method.on_disconnect,
          Method.http_hooks_on_close] := by
  decide

/-! ## The publish loop -/

/-- C23. In an iteration of the loop of `do_publishing` with `expired` false, the
receive thread is waited on with `publish_1stpkt_timeout` when the local
`nb_msgs` is 0 and with `publish_normal_timeout` otherwise. Then, if the error
code of the thread is not success the function returns it; otherwise, if
`trd->nb_msgs()` is at most `nb_msgs` the loop ends and the function returns
`ERROR_SOCKET_TIMEOUT`; otherwise `nb_msgs` becomes `trd->nb_msgs()` and the loop
goes on at its top. -/
theorem do_publishing_loop_step (c : Conn) (nb_msgs : Int) (ret : ErrCode) (it : PublishIter)
    (rest : List PublishIter) (hd : it.disposed = false) (hexp : it.expired = false) :
    (it.error_code ≠ ERROR_SUCCESS →
      do_publishing_loop c nb_msgs ret (it :: rest) =
        (some it.error_code,
          [Event.publish_trd_wait
            (if nb_msgs = 0 then c.publish_1stpkt_timeout else c.publish_normal_timeout)])) ∧
      (it.error_code = ERROR_SUCCESS → it.nb_msgs ≤ nb_msgs →
        do_publishing_loop c nb_msgs ret (it :: rest) =
          (some ERROR_SOCKET_TIMEOUT,
            [Event.publish_trd_wait
              (if nb_msgs = 0 then c.publish_1stpkt_timeout else c.publish_normal_timeout)])) ∧
      (it.error_code = ERROR_SUCCESS → nb_msgs < it.nb_msgs →
        do_publishing_loop c nb_msgs ret (it :: rest) =
          ((do_publishing_loop c it.nb_msgs ERROR_SUCCESS rest).1,
            Event.publish_trd_wait
                (if nb_msgs = 0 then c.publish_1stpkt_timeout else c.publish_normal_timeout) ::
              (do_publishing_loop c it.nb_msgs ERROR_SUCCESS rest).2)) := by
  refine ⟨?_, ?_, ?_⟩
  · intro he
    simp [do_publishing_loop, do_publishing_iter, hd, hexp, he]
  · intro he hn
    simp [do_publishing_loop, do_publishing_iter, hd, hexp, he, hn]
  · intro he hn
    have hn2 : ¬ it.nb_msgs ≤ nb_msgs := by omega
    simp [do_publishing_loop, do_publishing_iter, hd, hexp, he, hn2]

/-- A concrete instance: three messages arrive during the first wait and none
during the second. -/
theorem do_publishing_loop_step_witness :
    do_publishing_loop { fresh_conn 0 with publish_1stpkt_timeout := 20000, publish_normal_timeout := 5000 }
        0 ERROR_SUCCESS [⟨false, false, ERROR_SUCCESS, 3⟩, ⟨false, false, ERROR_SUCCESS, 3⟩] =
      (some ERROR_SOCKET_TIMEOUT, [Event.publish_trd_wait 20000, Event.publish_trd_wait 5000]) :=
  ((do_publishing_loop_step
      { fresh_conn 0 with publish_1stpkt_timeout := 20000, publish_normal_timeout := 5000 } 0 ERROR_SUCCESS
      ⟨false, false, ERROR_SUCCESS, 3⟩ [⟨false, false, ERROR_SUCCESS, 3⟩] rfl rfl).2.2 rfl
      (by decide)).trans (by decide)

/-! ## Expired connections -/

/-- C25. When `expired` is true at the top of an iteration of the loop of
`do_playing` or of `do_publishing`, the function returns `ERROR_USER_DISCONNECT`
in that iteration having made no call at all: no control message is processed,
the consumer and the receive thread are not waited on, no packet is dumped and
nothing is sent. -/
theorem loops_expired_return_user_disconnect (b : Build) (u : Bool) (c : Conn) (st : Int) (ret : ErrCode)
    (it : PlayIter) (rest : List PlayIter) (nb_msgs : Int) (pit : PublishIter) (prest : List PublishIter)
    (hd : it.disposed = false) (hexp : it.expired = true)
    (hpd : pit.disposed = false) (hpexp : pit.expired = true) :
    do_playing_loop b u c st ret (it :: rest) = ⟨some ERROR_USER_DISCONNECT, c, []⟩ ∧
      do_publishing_loop c nb_msgs ret (pit :: prest) = (some ERROR_USER_DISCONNECT, []) := by
  constructor
  · have hf : (do_playing_iter b u c st it) = ⟨Flow.ret ERROR_USER_DISCONNECT, c, st, []⟩ := by
      simp [do_playing_iter, hexp]
    rw [do_playing_loop_ret b u c st ret ERROR_USER_DISCONNECT it rest hd (by rw [hf]), hf]
  · simp [do_publishing_loop, do_publishing_iter, hpd, hpexp]

/-- A concrete instance: a play iteration with a pause command pumped and a
message ready, and a publish iteration with messages received. -/
theorem loops_expired_return_user_disconnect_witness :
    do_playing_loop plain_build true (fresh_conn 100) (-1) ERROR_SUCCESS
        [{ quiet_iter [⟨0, 0⟩] with expired := true, pumped := [pause_control true ERROR_SUCCESS ERROR_SUCCESS] },
          quiet_iter [⟨40, 1⟩]] =
        ⟨some ERROR_USER_DISCONNECT, fresh_conn 100, []⟩ ∧
      do_publishing_loop (fresh_conn 0) 0 ERROR_SUCCESS
        [⟨false, true, ERROR_SUCCESS, 3⟩, ⟨false, false, ERROR_SUCCESS, 7⟩] =
        (some ERROR_USER_DISCONNECT, []) :=
  loops_expired_return_user_disconnect plain_build true (fresh_conn 100) (-1) ERROR_SUCCESS
    { quiet_iter [⟨0, 0⟩] with expired := true, pumped := [pause_control true ERROR_SUCCESS ERROR_SUCCESS] }
    [quiet_iter [⟨40, 1⟩]] 0 ⟨false, true, ERROR_SUCCESS, 3⟩ [⟨false, false, ERROR_SUCCESS, 7⟩]
    rfl rfl rfl rfl

/-! ## Media messages of a publisher -/

/-- C26 (amended). `process_publish_message` makes at most one call on the source
and returns its code: on an edge vhost `on_edge_proxy_publish`, whatever the
message is; otherwise `on_audio` for an audio message, `on_video` for a video
message, `on_aggregate` for an aggregate message, and `on_meta_data` for an AMF0
or AMF3 data message that decodes to an onMetaData packet. A data message that
decodes to another packet, and a message of no such type, make no call on the
source and return success; a data message that does not decode makes no call on
the source and returns the error of the decode. The header predicates test the
one message type of the header; the cases are stated in the order in which the
source tests them. -/
theorem process_publish_message_dispatch (m : PublishMsg) (vhost_is_edge : Bool) :
    (vhost_is_edge = true →
      process_publish_message m vhost_is_edge =
        (m.on_edge_proxy_publish, [PublishCall.on_edge_proxy_publish])) ∧
      (vhost_is_edge = false → m.msg.is_audio = true →
        process_publish_message m vhost_is_edge = (m.on_audio, [PublishCall.on_audio])) ∧
      (vhost_is_edge = false → m.msg.is_audio = false → m.msg.is_video = true →
        process_publish_message m vhost_is_edge = (m.on_video, [PublishCall.on_video])) ∧
      (vhost_is_edge = false → m.msg.is_audio = false → m.msg.is_video = false →
        m.msg.is_aggregate = true →
        process_publish_message m vhost_is_edge = (m.on_aggregate, [PublishCall.on_aggregate])) ∧
      (vhost_is_edge = false → m.msg.is_audio = false → m.msg.is_video = false →
        m.msg.is_aggregate = false →
        ((m.msg.is_amf0_data = true ∨ m.msg.is_amf3_data = true) →
          (m.decode_message ≠ ERROR_SUCCESS →
            process_publish_message m vhost_is_edge = (m.decode_message, [PublishCall.decode_message])) ∧
          (m.decode_message = ERROR_SUCCESS → m.pkt = Packet.OnMetaData →
            process_publish_message m vhost_is_edge =
              (m.on_meta_data, [PublishCall.decode_message, PublishCall.on_meta_data])) ∧
          (m.decode_message = ERROR_SUCCESS → m.pkt ≠ Packet.OnMetaData →
            process_publish_message m vhost_is_edge = (ERROR_SUCCESS, [PublishCall.decode_message]))) ∧
        (m.msg.is_amf0_data = false → m.msg.is_amf3_data = false →
          process_publish_message m vhost_is_edge = (ERROR_SUCCESS, []))) ∧
      ((process_publish_message m vhost_is_edge).2.filter dispatches_to_source).length ≤ 1 := by
  refine ⟨?_, ?_, ?_, ?_, ?_, ?_⟩
  · intro he
    simp [process_publish_message, he]
  · intro he ha
    simp [process_publish_message, he, ha]
  · intro he ha hv
    simp [process_publish_message, he, ha, hv]
  · intro he ha hv hg
    simp [process_publish_message, he, ha, hv, hg]
  · intro he ha hv hg
    constructor
    · intro hdata
      have hd : (m.msg.is_amf0_data || m.msg.is_amf3_data) = true := by
        rcases hdata with h | h <;> simp [h]
      refine ⟨?_, ?_, ?_⟩
      · intro hdec
        simp [process_publish_message, he, ha, hv, hg, hd, hdec]
      · intro hdec hp
        simp [process_publish_message, he, ha, hv, hg, hd, hdec, hp]
      · intro hdec hp
        simp only [process_publish_message, he, ha, hv, hg, hd, hdec]
        cases hk : m.pkt <;> simp_all
    · intro h0 h3
      simp [process_publish_message, he, ha, hv, hg, h0, h3]
  · unfold process_publish_message
    (repeat' split) <;> simp [dispatches_to_source]

/-- A concrete instance: a data message that decodes to onMetaData, one that
decodes to another packet, and the first one on an edge vhost. -/
theorem process_publish_message_dispatch_witness :
    process_publish_message (data_msg ERROR_SUCCESS Packet.OnMetaData) false =
        (ErrCode.other 5, [PublishCall.decode_message, PublishCall.on_meta_data]) ∧
      process_publish_message (data_msg ERROR_SUCCESS Packet.Unhandled) false =
        (ERROR_SUCCESS, [PublishCall.decode_message]) ∧
      process_publish_message (data_msg ERROR_SUCCESS Packet.OnMetaData) true =
        (ErrCode.other 1, [PublishCall.on_edge_proxy_publish]) :=
  ⟨((((process_publish_message_dispatch (data_msg ERROR_SUCCESS Packet.OnMetaData) false).2.2.2.2.1 rfl rfl
      rfl rfl).1 (by decide)).2.1) rfl rfl,
    ((((process_publish_message_dispatch (data_msg ERROR_SUCCESS Packet.Unhandled) false).2.2.2.2.1 rfl rfl
      rfl rfl).1 (by decide)).2.2) rfl (by decide),
    (process_publish_message_dispatch (data_msg ERROR_SUCCESS Packet.OnMetaData) true).1 rfl⟩

/-- A data message that does not decode returns the error of the decode, 2007,
and not success. -/
theorem process_publish_message_decode_failure :
    process_publish_message (data_msg (ErrCode.other 2007) Packet.Unhandled) false =
        (ErrCode.other 2007, [PublishCall.decode_message]) ∧
      ErrCode.other 2007 ≠ ERROR_SUCCESS := by
  decide

/-! ## Control messages of a player: close, call and the rest -/

/-- C27. `process_play_control_msg` returns `ERROR_CONTROL_RTMP_CLOSE` for a
command message that decodes to a closeStream packet, having made no call but
the decode. It returns success with no call at all for a null message and for a
message that is neither an AMF0 nor an AMF3 command, and success with no call
but the decode for a decoded command that is no closeStream, call or pause
packet. -/
theorem process_play_control_msg_close_and_ignored (c : Conn) (m : PlayControl) (msg : CommonMessage) :
    (m.msg = some msg → (msg.is_amf0_command = true ∨ msg.is_amf3_command = true) →
      m.decode_message = ERROR_SUCCESS → m.pkt = Packet.CloseStream →
        process_play_control_msg c m = (ERROR_CONTROL_RTMP_CLOSE, [Event.decode_message])) ∧
      (m.msg = none → process_play_control_msg c m = (ERROR_SUCCESS, [])) ∧
      (m.msg = some msg → msg.is_amf0_command = false → msg.is_amf3_command = false →
        process_play_control_msg c m = (ERROR_SUCCESS, [])) ∧
      (m.msg = some msg → (msg.is_amf0_command = true ∨ msg.is_amf3_command = true) →
        m.decode_message = ERROR_SUCCESS → m.pkt ≠ Packet.CloseStream →
        (∀ transaction_id : Rat, m.pkt ≠ Packet.Call transaction_id) →
        (∀ (is_pause : Bool) (time_ms : Int), m.pkt ≠ Packet.Pause is_pause time_ms) →
          process_play_control_msg c m = (ERROR_SUCCESS, [Event.decode_message])) := by
  refine ⟨?_, ?_, ?_, ?_⟩
  · intro hmsg hcmd hdec hpkt
    have hnot : (!msg.is_amf0_command && !msg.is_amf3_command) = false := by
      rcases hcmd with h | h <;> simp [h]
    simp [process_play_control_msg, hmsg, hnot, hdec, hpkt]
  · intro hmsg
    simp [process_play_control_msg, hmsg]
  · intro hmsg h0 h3
    simp [process_play_control_msg, hmsg, h0, h3]
  · intro hmsg hcmd hdec h1 h2 h3
    have hnot : (!msg.is_amf0_command && !msg.is_amf3_command) = false := by
      rcases hcmd with h | h <;> simp [h]
    simp only [process_play_control_msg, hmsg, hnot, hdec]
    cases hk : m.pkt <;> simp_all

/-- A concrete instance: a closeStream command, a video message, and a command
that decodes to an FMLE start packet. -/
theorem process_play_control_msg_close_and_ignored_witness :
    process_play_control_msg (fresh_conn 0) (command_control Packet.CloseStream ERROR_SUCCESS) =
        (ERROR_CONTROL_RTMP_CLOSE, [Event.decode_message]) ∧
      process_play_control_msg (fresh_conn 0) video_control = (ERROR_SUCCESS, []) ∧
      process_play_control_msg (fresh_conn 0) (command_control (Packet.FMLEStart 4) ERROR_SUCCESS) =
        (ERROR_SUCCESS, [Event.decode_message]) :=
  ⟨(process_play_control_msg_close_and_ignored (fresh_conn 0)
      (command_control Packet.CloseStream ERROR_SUCCESS) ⟨true, false, false, false, false, false, false⟩).1
      rfl (by decide) rfl rfl,
    (process_play_control_msg_close_and_ignored (fresh_conn 0) video_control
      ⟨false, false, false, false, true, false, false⟩).2.2.1 rfl rfl rfl,
    (process_play_control_msg_close_and_ignored (fresh_conn 0)
      (command_control (Packet.FMLEStart 4) ERROR_SUCCESS)
      ⟨true, false, false, false, false, false, false⟩).2.2.2 rfl (by decide) rfl
      (by simp [command_control]) (by simp [command_control]) (by simp [command_control])⟩

/-- C28. For a command message that decodes to a call packet,
`process_play_control_msg` sends a response exactly when `transaction_id > 0`:
an `SrsCallResPacket` with the same transaction id whose command object and
response are both null, sent on stream 0, and the function returns the code of
that send; otherwise nothing is sent and success is returned. -/
theorem process_play_control_msg_call (c : Conn) (m : PlayControl) (msg : CommonMessage)
    (transaction_id : Rat) (hmsg : m.msg = some msg)
    (hcmd : msg.is_amf0_command = true ∨ msg.is_amf3_command = true)
    (hdec : m.decode_message = ERROR_SUCCESS) (hpkt : m.pkt = Packet.Call transaction_id) :
    (transaction_id > 0 →
      process_play_control_msg c m =
        (m.send_and_free_packet,
          [Event.decode_message,
            Event.send_call_response transaction_id Amf0Any.null Amf0Any.null 0])) ∧
      (¬ transaction_id > 0 →
        process_play_control_msg c m = (ERROR_SUCCESS, [Event.decode_message])) := by
  have hnot : (!msg.is_amf0_command && !msg.is_amf3_command) = false := by
    rcases hcmd with h | h <;> simp [h]
  constructor
  · intro h
    simp [process_play_control_msg, hmsg, hnot, hdec, hpkt, h]
  · intro h
    simp only [process_play_control_msg, hmsg, hnot, hdec, hpkt]
    simp [h]

/-- A concrete instance: a call with transaction id 7 whose response fails to send
with the code 1009, and a call with transaction id 0. -/
theorem process_play_control_msg_call_witness :
    process_play_control_msg (fresh_conn 0) (command_control (Packet.Call 7) (ErrCode.other 1009)) =
        (ErrCode.other 1009,
          [Event.decode_message, Event.send_call_response 7 Amf0Any.null Amf0Any.null 0]) ∧
      process_play_control_msg (fresh_conn 0) (command_control (Packet.Call 0) (ErrCode.other 1009)) =
        (ERROR_SUCCESS, [Event.decode_message]) :=
  ⟨(process_play_control_msg_call (fresh_conn 0) (command_control (Packet.Call 7) (ErrCode.other 1009))
      ⟨true, false, false, false, false, false, false⟩ 7 rfl (by decide) rfl rfl).1 (by decide),
    (process_play_control_msg_call (fresh_conn 0) (command_control (Packet.Call 0) (ErrCode.other 1009))
      ⟨true, false, false, false, false, false, false⟩ 0 rfl (by decide) rfl rfl).2 (by decide)⟩

/-! ## The publish timeouts -/

theorem set_sock_options_keeps (b : Build) (cfg : Config) (c : Conn) :
    (set_sock_options b cfg c).1.req = c.req ∧
      (set_sock_options b cfg c).1.publish_1stpkt_timeout = c.publish_1stpkt_timeout ∧
      (set_sock_options b cfg c).1.publish_normal_timeout = c.publish_normal_timeout := by
  unfold set_sock_options
  split <;> simp

/-- C24. After the initialisation of `do_publishing`, `publish_1stpkt_timeout` and
`publish_normal_timeout` both hold `get_publish_1stpkt_timeout(req->vhost)`,
whatever `get_publish_normal_timeout` returns, and `do_publishing` leaves
`publish_normal_timeout` at that value. `on_reload_vhost_publish` for the vhost
of the request sets it to `get_publish_normal_timeout(req->vhost)`; for another
vhost it leaves it as it is. -/
theorem do_publishing_setup_timeouts (b : Build) (c : Conn) (e : PublishEnv) (cfg : Config)
    (disposed expired : Bool) (vhost : String) :
    (do_publishing_setup b c e.cfg).1.publish_1stpkt_timeout = e.cfg.get_publish_1stpkt_timeout c.req.vhost ∧
      (do_publishing_setup b c e.cfg).1.publish_normal_timeout =
        e.cfg.get_publish_1stpkt_timeout c.req.vhost ∧
      (e.trd_start = ERROR_SUCCESS →
        (do_publishing b c e).conn.publish_normal_timeout = e.cfg.get_publish_1stpkt_timeout c.req.vhost) ∧
      (on_reload_vhost_publish cfg ⟨(do_publishing_setup b c e.cfg).1, disposed, expired⟩
          c.req.vhost).2.1.conn.publish_normal_timeout = cfg.get_publish_normal_timeout c.req.vhost ∧
      (vhost ≠ c.req.vhost →
        (on_reload_vhost_publish cfg ⟨(do_publishing_setup b c e.cfg).1, disposed, expired⟩
          vhost).2.1.conn.publish_normal_timeout = e.cfg.get_publish_1stpkt_timeout c.req.vhost) := by
  have hk := set_sock_options_keeps b e.cfg
    { c with publish_1stpkt_timeout := e.cfg.get_publish_1stpkt_timeout c.req.vhost,
             publish_normal_timeout := e.cfg.get_publish_1stpkt_timeout c.req.vhost }
  have h1 : (do_publishing_setup b c e.cfg).1.publish_1stpkt_timeout =
      e.cfg.get_publish_1stpkt_timeout c.req.vhost := by
    unfold do_publishing_setup
    rw [hk.2.1]
  have h2 : (do_publishing_setup b c e.cfg).1.publish_normal_timeout =
      e.cfg.get_publish_1stpkt_timeout c.req.vhost := by
    unfold do_publishing_setup
    rw [hk.2.2]
  have h3 : (do_publishing_setup b c e.cfg).1.req = c.req := by
    unfold do_publishing_setup
    rw [hk.1]
  refine ⟨h1, h2, ?_, ?_, ?_⟩
  · intro ht
    simp [do_publishing, ht, h2]
  · simp only [on_reload_vhost_publish, h3, ne_eq, not_true_eq_false, if_false]
    split <;> split <;> simp_all
  · intro hv
    have hv2 : (do_publishing_setup b c e.cfg).1.req.vhost ≠ vhost := by
      rw [h3]
      exact fun h => hv h.symm
    simp [on_reload_vhost_publish, hv2, h2]

/-- A concrete instance: the configuration has a first packet timeout of 20000 and
a normal timeout of 5000. -/
theorem do_publishing_setup_timeouts_witness :
    (do_publishing_setup plain_build (fresh_conn 0) plain_config).1.publish_1stpkt_timeout = 20000 ∧
      (do_publishing_setup plain_build (fresh_conn 0) plain_config).1.publish_normal_timeout = 20000 ∧
      (on_reload_vhost_publish plain_config
        ⟨(do_publishing_setup plain_build (fresh_conn 0) plain_config).1, false, false⟩
        "h").2.1.conn.publish_normal_timeout = 5000 :=
  ⟨(do_publishing_setup_timeouts plain_build (fresh_conn 0) (quiet_publish []) plain_config false false
      "other").1,
    (do_publishing_setup_timeouts plain_build (fresh_conn 0) (quiet_publish []) plain_config false false
      "other").2.1,
    (do_publishing_setup_timeouts plain_build (fresh_conn 0) (quiet_publish []) plain_config false false
      "other").2.2.2.1⟩

/-! ## The play loop: what is sent -/

theorem sent_messages_do_playing_fetch (b : Build) (u : Bool) (c : Conn) (st : Int) (it : PlayIter) :
    sent_messages (do_playing_fetch b u c st it).trace =
      if (it.dump_packets (dump_count c)).1 = ERROR_SUCCESS then (it.dump_packets (dump_count c)).2
      else [] := by
  have hw : sent_messages (if b.SRS_PERF_QUEUE_COND_WAIT then
      [Event.consumer_wait (if c.realtime then 0 else b.SRS_PERF_MW_MIN_MSGS) c.mw_sleep] else []) = [] := by
    split <;> simp [sent_messages]
  have hs : sent_messages (if b.SRS_PERF_QUEUE_COND_WAIT then []
      else [Event.st_usleep (to_utime (wrap32 (c.mw_sleep * 1000)))]) = [] := by
    split <;> simp [sent_messages]
  have hd := (dump_counts_deliver u c st it (it.dump_packets (dump_count c)).2).2
  unfold do_playing_fetch
  simp only []
  by_cases h1 : (it.dump_packets (dump_count c)).1 ≠ ERROR_SUCCESS
  · rw [if_pos h1, if_neg h1]
    simp [sent_messages_append, hw, sent_messages]
  · rw [if_neg h1]
    have h1' : (it.dump_packets (dump_count c)).1 = ERROR_SUCCESS := by simpa using h1
    rw [if_pos h1']
    by_cases h2 : (it.dump_packets (dump_count c)).2.length ≤ 0
    · rw [if_pos h2]
      have hnil : (it.dump_packets (dump_count c)).2 = [] := by
        apply List.length_eq_zero.mp
        omega
      simp [sent_messages_append, hw, hs, sent_messages, hnil]
    · rw [if_neg h2]
      simp [PlayStep.after, sent_messages_append, hw, hd, sent_messages]

theorem sent_messages_do_playing_iter (b : Build) (u : Bool) (c : Conn) (st : Int) (it : PlayIter) :
    sent_messages (do_playing_iter b u c st it).trace =
      (if it.expired = false ∧ (pump_control c it.pumped).1 = ERROR_SUCCESS ∧
          it.error_code = ERROR_SUCCESS ∧ (it.dump_packets (dump_count c)).1 = ERROR_SUCCESS then
        [(it.dump_packets (dump_count c)).2]
      else []).flatten := by
  have hf := sent_messages_do_playing_fetch b u c st it
  have hp := sent_messages_pump c it.pumped
  unfold do_playing_iter
  by_cases h0 : it.expired = true
  · rw [if_pos h0]
    simp [h0, sent_messages]
  · rw [if_neg h0]
    have h0' : it.expired = false := by simpa using h0
    by_cases h1 : (pump_control c it.pumped).1 ≠ ERROR_SUCCESS
    · rw [if_pos h1]
      simp [h1, hp]
    · rw [if_neg h1]
      have h1' : (pump_control c it.pumped).1 = ERROR_SUCCESS := by simpa using h1
      by_cases h2 : it.error_code ≠ ERROR_SUCCESS
      · rw [if_pos h2]
        simp [h2, hp]
      · rw [if_neg h2]
        have h2' : it.error_code = ERROR_SUCCESS := by simpa using h2
        simp only [PlayStep.after, sent_messages_append, hp, hf, h0', h1', h2', true_and, List.nil_append]
        split <;> simp

theorem sent_messages_do_playing_loop (b : Build) (u : Bool) (iters : List PlayIter) (c : Conn) (st : Int)
    (ret : ErrCode) :
    sent_messages (do_playing_loop b u c st ret iters).trace = (dumped_batches b u c st iters).flatten := by
  revert iters c st ret
  apply do_playing_loop_induct b u
  · intro c st ret
    rw [do_playing_loop_nil]
    simp [dumped_batches, sent_messages]
  · intro c st ret it rest hd
    rw [do_playing_loop_disposed _ _ _ _ _ _ _ hd]
    simp [dumped_batches, hd, sent_messages]
  · intro c st ret it rest code hd hf
    rw [do_playing_loop_ret _ _ _ _ _ _ _ _ hd hf]
    simp only [dumped_batches, hd, Bool.false_eq_true, if_false, hf, List.append_nil]
    exact sent_messages_do_playing_iter b u c st it
  · intro c st ret it rest hd hf ih
    rw [do_playing_loop_next _ _ _ _ _ _ _ hd hf]
    simp only [dumped_batches, hd, Bool.false_eq_true, if_false, hf, Run.after, sent_messages_append,
      List.flatten_append, ih]
    rw [sent_messages_do_playing_iter b u c st it]

theorem flatten_filter_nonempty (l : List (List SharedMsg)) :
    (l.filter (fun x => !x.isEmpty)).flatten = l.flatten := by
  induction l with
  | nil => rfl
  | cons a rest ih =>
    cases a with
    | nil => simpa using ih
    | cons x xs => simp [ih]

/-- C22. For every run of `do_playing`: the messages handed to
`send_and_free_messages`, in order, are the concatenation of the non-empty
batches that `consumer->dump_packets` has handed out with success up to the
point where the loop returns (or the script ends); when the referer check fails
nothing is sent. -/
theorem do_playing_sends_dumped_batches (b : Build) (c : Conn) (e : PlayEnv) :
    ((e.cfg.get_refer_enabled c.req.vhost ∧ e.refer_check ≠ ERROR_SUCCESS) →
      sent_messages (do_playing b c e).trace = []) ∧
      (¬ (e.cfg.get_refer_enabled c.req.vhost ∧ e.refer_check ≠ ERROR_SUCCESS) →
        sent_messages (do_playing b c e).trace =
          ((dumped_batches b (decide (c.req.duration > 0)) (do_playing_setup b c e.cfg).1 (-1)
            e.iters).filter (fun x => !x.isEmpty)).flatten) := by
  constructor
  · intro href
    unfold do_playing
    rw [if_pos href]
    simp [sent_messages]
  · intro href
    rw [(sent_messages_do_playing b c e href).2, sent_messages_do_playing_loop, flatten_filter_nonempty]

/-- A concrete instance, on three batches with 3, 0 and 2 messages. -/
theorem do_playing_sends_dumped_batches_witness :
    sent_messages (do_playing plain_build (fresh_conn 100) three_batches).trace =
      [⟨10, 0⟩, ⟨10, 1⟩, ⟨30, 2⟩, ⟨30, 3⟩, ⟨70, 4⟩] :=
  ((do_playing_sends_dumped_batches plain_build (fresh_conn 100) three_batches).2 (by decide)).trans
    (by decide)

/-! ## The play duration over episodes -/

theorem hooked_append (a b : List Event) : hooked (a ++ b) = hooked a ++ hooked b := by
  induction a with
  | nil => rfl
  | cons x xs ih => cases x <;> simp [hooked, ih]

theorem released_append (a b : List Event) : released (a ++ b) = released a ++ released b := by
  induction a with
  | nil => rfl
  | cons x xs ih => cases x <;> simp [released, ih]

theorem hooked_map_http_hook (h : Hook) (l : List String) :
    hooked (l.map (Event.http_hook h)) = l.map (fun url => (h, url)) ∧
      released (l.map (Event.http_hook h)) = [] := by
  induction l with
  | nil => exact ⟨rfl, rfl⟩
  | cons x xs ih => simp [hooked, released, ih]

theorem hooked_call_hooks (h : Hook) (answer : Nat → String → ErrCode) (l : List String) :
    ∀ i, ((call_hooks h answer i l).1 = ERROR_SUCCESS →
        hooked (call_hooks h answer i l).2 = l.map (fun url => (h, url))) ∧
      (∀ p ∈ hooked (call_hooks h answer i l).2, p.1 = h) ∧
      released (call_hooks h answer i l).2 = [] := by
  induction l with
  | nil => intro i; simp [call_hooks, hooked, released]
  | cons url rest ih =>
    intro i
    unfold call_hooks
    by_cases ha : answer i url ≠ ERROR_SUCCESS
    · rw [if_pos ha]
      refine ⟨fun h0 => absurd h0 ha, ?_, ?_⟩ <;> simp [hooked, released]
    · rw [if_neg ha]
      obtain ⟨h1, h2, h3⟩ := ih (i + 1)
      refine ⟨?_, ?_, ?_⟩
      · intro h0
        simp [hooked, h1 h0]
      · intro p hp
        simp only [hooked, List.mem_cons] at hp
        rcases hp with rfl | hp
        · rfl
        · exact h2 p hp
      · simp [released, h3]

theorem hooked_hooks_checked (b : Build) (enabled : Bool) (conf : Option (List String)) (m : Method)
    (h : Hook) (answer : Nat → String → ErrCode) :
    ((hooks_checked b enabled conf m h answer).1 = ERROR_SUCCESS →
        hooked (hooks_checked b enabled conf m h answer).2 =
          if b.SRS_AUTO_HTTP_CALLBACK = true ∧ enabled = true then
            (conf.getD []).map (fun url => (h, url))
          else []) ∧
      (∀ p ∈ hooked (hooks_checked b enabled conf m h answer).2, p.1 = h) ∧
      released (hooks_checked b enabled conf m h answer).2 = [] := by
  unfold hooks_checked
  by_cases hb : b.SRS_AUTO_HTTP_CALLBACK = true
  · by_cases he : enabled = true
    · cases conf with
      | none => simp [hb, he, hooked, released]
      | some hooks =>
        obtain ⟨h1, h2, h3⟩ := hooked_call_hooks h answer hooks 0
        simp only [hb, he, Bool.not_true, Bool.false_eq_true, if_false, and_self, if_true,
          Option.getD_some, hooked, released]
        exact ⟨h1, h2, h3⟩
    · simp [hb, he, hooked, released]
  · simp [hb, hooked, released]

theorem hooked_hooks_notify (b : Build) (enabled : Bool) (conf : Option (List String)) (m : Method)
    (h : Hook) :
    hooked (hooks_notify b enabled conf m h) =
        (if b.SRS_AUTO_HTTP_CALLBACK = true ∧ enabled = true then
          (conf.getD []).map (fun url => (h, url))
        else []) ∧
      released (hooks_notify b enabled conf m h) = [] := by
  unfold hooks_notify
  by_cases hb : b.SRS_AUTO_HTTP_CALLBACK = true
  · by_cases he : enabled = true
    · cases conf with
      | none => simp [hb, he, hooked, released]
      | some hooks =>
        simp [hb, he, hooked, released, hooked_map_http_hook]
    · simp [hb, he, hooked, released]
  · simp [hb, hooked, released]

theorem hooks_notify_calls (b : Build) (enabled : Bool) (conf : Option (List String)) (m : Method)
    (h : Hook) :
    hooks_notify b enabled conf m h =
      Event.enter m ::
        (if b.SRS_AUTO_HTTP_CALLBACK = true ∧ enabled = true then (conf.getD []).map (Event.http_hook h)
        else []) := by
  unfold hooks_notify
  by_cases hb : b.SRS_AUTO_HTTP_CALLBACK = true
  · by_cases he : enabled = true
    · cases conf <;> simp [hb, he]
    · simp [hb, he]
  · simp [hb]

theorem hooked_set_sock_options (b : Build) (cfg : Config) (c : Conn) :
    hooked (set_sock_options b cfg c).2 = [] ∧ released (set_sock_options b cfg c).2 = [] := by
  unfold set_sock_options
  (repeat' split) <;> simp [hooked, released]

theorem hooked_change_mw_sleep (b : Build) (c : Conn) (n : Int) :
    hooked (change_mw_sleep b c n).2 = [] := by
  unfold change_mw_sleep
  (repeat' split) <;> simp [hooked]

theorem hooked_process_play_control_msg (c : Conn) (m : PlayControl) :
    hooked (process_play_control_msg c m).2 = [] := by
  unfold process_play_control_msg
  repeat' split
  all_goals simp [hooked]

theorem hooked_pump_control (c : Conn) (l : List PlayControl) : hooked (pump_control c l).2 = [] := by
  induction l with
  | nil => simp [pump_control, hooked]
  | cons m rest ih =>
    unfold pump_control
    split
    · exact hooked_process_play_control_msg c m
    · simp [hooked_append, hooked_process_play_control_msg, ih]

theorem hooked_do_playing_deliver (u : Bool) (c : Conn) (st : Int) (it : PlayIter) (msgs : List SharedMsg) :
    hooked (do_playing_deliver u c st it msgs).trace = [] ∧
      (do_playing_deliver u c st it msgs).conn.req = c.req := by
  unfold do_playing_deliver
  simp only []
  (repeat' split) <;> simp [hooked]

theorem hooked_do_playing_fetch (b : Build) (u : Bool) (c : Conn) (st : Int) (it : PlayIter) :
    hooked (do_playing_fetch b u c st it).trace = [] ∧ (do_playing_fetch b u c st it).conn.req = c.req := by
  have hd := hooked_do_playing_deliver u c st it (it.dump_packets (dump_count c)).2
  unfold do_playing_fetch
  simp only []
  (repeat' split) <;> simp [hooked, hooked_append, PlayStep.after, hd]

theorem hooked_do_playing_iter (b : Build) (u : Bool) (c : Conn) (st : Int) (it : PlayIter) :
    hooked (do_playing_iter b u c st it).trace = [] ∧ (do_playing_iter b u c st it).conn.req = c.req := by
  have hf := hooked_do_playing_fetch b u c st it
  unfold do_playing_iter
  (repeat' split) <;> simp [hooked, hooked_append, PlayStep.after, hf, hooked_pump_control]

theorem hooked_do_playing_loop (b : Build) (u : Bool) (iters : List PlayIter) (c : Conn) (st : Int)
    (ret : ErrCode) :
    hooked (do_playing_loop b u c st ret iters).trace = [] ∧
      (do_playing_loop b u c st ret iters).conn.req = c.req := by
  revert iters c st ret
  apply do_playing_loop_induct b u
  · intro c st ret
    rw [do_playing_loop_nil]
    exact ⟨rfl, rfl⟩
  · intro c st ret it rest hd
    rw [do_playing_loop_disposed _ _ _ _ _ _ _ hd]
    exact ⟨rfl, rfl⟩
  · intro c st ret it rest code hd hf
    rw [do_playing_loop_ret _ _ _ _ _ _ _ _ hd hf]
    exact hooked_do_playing_iter b u c st it
  · intro c st ret it rest hd hf ih
    rw [do_playing_loop_next _ _ _ _ _ _ _ hd hf]
    have hi := hooked_do_playing_iter b u c st it
    simp [Run.after, hooked_append, ih, hi]

theorem hooked_do_playing (b : Build) (c : Conn) (e : PlayEnv) :
    hooked (do_playing b c e).trace = [] ∧ (do_playing b c e).conn.req = c.req := by
  unfold do_playing
  split
  · exact ⟨rfl, rfl⟩
  · have hs : hooked (do_playing_setup b c e.cfg).2 = [] := by
      simp [do_playing_setup, hooked_append, hooked_change_mw_sleep, hooked_set_sock_options]
    have hl := hooked_do_playing_loop b (decide (c.req.duration > 0)) e.iters
      (do_playing_setup b c e.cfg).1 (-1) ERROR_SUCCESS
    have hr := (do_playing_setup_duration b c e.cfg).2.1
    simp only [Run.after, hooked_append, hs, hl, hr]
    split <;> simp [hooked]

theorem hooked_playing (b : Build) (c : Conn) (e : PlayEnv) :
    hooked (playing b c e).trace = [] ∧ (playing b c e).conn.req = c.req := by
  have hd := hooked_do_playing b { c with wakable := true } e
  unfold playing
  split
  · exact ⟨rfl, rfl⟩
  · split
    · exact ⟨rfl, rfl⟩
    · split <;> simp [Run.after, hooked_append, hooked, hd]

theorem hooked_acquire_publish (e : PublishEnv) (is_edge : Bool) :
    hooked (acquire_publish e is_edge).2 = [] ∧ released (acquire_publish e is_edge).2 = [] := by
  unfold acquire_publish
  (repeat' split) <;> simp [hooked, released]

theorem hooked_release_publish (is_edge : Bool) :
    hooked (release_publish is_edge) = [] ∧ released (release_publish is_edge) = [is_edge] := by
  unfold release_publish
  split <;> simp_all [hooked, released]

theorem hooked_do_publishing_loop (c : Conn) (iters : List PublishIter) :
    ∀ (nb : Int) (ret : ErrCode), hooked (do_publishing_loop c nb ret iters).2 = [] ∧
      released (do_publishing_loop c nb ret iters).2 = [] := by
  induction iters with
  | nil => intro nb ret; simp [do_publishing_loop, hooked, released]
  | cons it rest ih =>
    intro nb ret
    have htr : hooked (do_publishing_iter c nb it).2.2 = [] ∧
        released (do_publishing_iter c nb it).2.2 = [] := by
      unfold do_publishing_iter
      (repeat' split) <;> simp [hooked, released]
    simp only [do_publishing_loop]
    split
    · exact ⟨rfl, rfl⟩
    · split
      · exact htr
      · simp [hooked_append, released_append, htr, ih]

theorem hooked_do_publishing (b : Build) (c : Conn) (e : PublishEnv) :
    hooked (do_publishing b c e).trace = [] ∧ released (do_publishing b c e).trace = [] ∧
      (do_publishing b c e).conn.req = c.req := by
  unfold do_publishing
  split
  · exact ⟨rfl, rfl, rfl⟩
  · have hk := set_sock_options_keeps b e.cfg
      { c with publish_1stpkt_timeout := e.cfg.get_publish_1stpkt_timeout c.req.vhost,
               publish_normal_timeout := e.cfg.get_publish_1stpkt_timeout c.req.vhost }
    have hs := hooked_set_sock_options b e.cfg
      { c with publish_1stpkt_timeout := e.cfg.get_publish_1stpkt_timeout c.req.vhost,
               publish_normal_timeout := e.cfg.get_publish_1stpkt_timeout c.req.vhost }
    simp [hooked, released, hooked_append, released_append, do_publishing_setup, hs, hk,
      hooked_do_publishing_loop]

theorem hooked_publishing_acquire (b : Build) (c : Conn) (e : PublishEnv) :
    hooked (publishing_acquire b c e) = hooked (http_hooks_on_publish b e.cfg e.hooks c.req).2 ∧
      released (publishing_acquire b c e) = [] := by
  have hrefer : hooked (if e.cfg.get_refer_enabled c.req.vhost then [Event.refer_check c.req.pageUrl]
      else []) = [] ∧
      released (if e.cfg.get_refer_enabled c.req.vhost then [Event.refer_check c.req.pageUrl]
      else []) = [] := by split <;> exact ⟨rfl, rfl⟩
  have hcons : ∀ l, hooked (Event.enter Method.publishing :: l) = hooked l ∧
      released (Event.enter Method.publishing :: l) = released l := fun l => ⟨rfl, rfl⟩
  have hk : released (http_hooks_on_publish b e.cfg e.hooks c.req).2 = [] :=
    (hooked_hooks_checked _ _ _ _ _ _).2.2
  have ha := hooked_acquire_publish e (e.cfg.get_vhost_is_edge c.req.vhost)
  unfold publishing_acquire
  constructor
  · rw [hooked_append, hooked_append, (hcons _).1, hrefer.1, ha.1]
    simp
  · rw [released_append, released_append, (hcons _).2, hrefer.2, ha.2, hk]
    simp

theorem hooked_publishing_finish (b : Build) (cfg : Config) (c : Conn) (is_edge : Bool) (r : ErrCode) :
    hooked (publishing_finish b cfg c is_edge r) = hooked (http_hooks_on_unpublish b cfg c.req) ∧
      released (publishing_finish b cfg c is_edge r) =
        (if r ≠ ERROR_SYSTEM_STREAM_BUSY then [is_edge] else []) := by
  have hk : released (http_hooks_on_unpublish b cfg c.req) = [] := (hooked_hooks_notify _ _ _ _ _).2
  have hr := hooked_release_publish is_edge
  unfold publishing_finish
  constructor
  · rw [hooked_append]
    split <;> simp [hr.1, hooked]
  · rw [released_append, hk]
    split <;> simp [hr.2, released]

/-- The webhook callbacks and the release calls of `publishing` once the referer
check and the publish hook have passed. -/
theorem hooked_publishing (b : Build) (c : Conn) (e : PublishEnv)
    (href : ¬ (e.cfg.get_refer_enabled c.req.vhost ∧ e.refer_check ≠ ERROR_SUCCESS))
    (hhook : (http_hooks_on_publish b e.cfg e.hooks c.req).1 = ERROR_SUCCESS) :
    hooked (publishing b c e).trace =
        hooked (http_hooks_on_publish b e.cfg e.hooks c.req).2 ++
          (match (publishing b c e).ret with
            | none => []
            | some _ => hooked (http_hooks_on_unpublish b e.cfg c.req)) ∧
      released (publishing b c e).trace =
        (match (publishing b c e).ret with
          | none => []
          | some r => if r ≠ ERROR_SYSTEM_STREAM_BUSY then [e.cfg.get_vhost_is_edge c.req.vhost] else []) := by
  obtain ⟨hdh, hdr, hdq⟩ := hooked_do_publishing b c e
  obtain ⟨hah, har⟩ := hooked_publishing_acquire b c e
  have hstop : hooked [Event.publish_trd_stop] = [] ∧ released [Event.publish_trd_stop] = [] := ⟨rfl, rfl⟩
  unfold publishing
  rw [if_neg href]
  simp only [hhook, ne_eq, not_true_eq_false, if_false]
  by_cases hacq : (acquire_publish e (e.cfg.get_vhost_is_edge c.req.vhost)).1 = ERROR_SUCCESS
  · rw [if_pos hacq]
    cases hdo : (do_publishing b c e).ret with
    | none =>
      simp only [Run.after, hdo, hooked_append, released_append, hah, har, hdh, hdr]
      simp
    | some code =>
      have hf := hooked_publishing_finish b e.cfg (do_publishing b c e).conn
        (e.cfg.get_vhost_is_edge c.req.vhost) code
      rw [hdq] at hf
      simp only [hooked_append, released_append, hah, har, hdh, hdr, hstop.1, hstop.2, hf.1, hf.2]
      simp
  · rw [if_neg hacq]
    have hf := hooked_publishing_finish b e.cfg c (e.cfg.get_vhost_is_edge c.req.vhost)
      (acquire_publish e (e.cfg.get_vhost_is_edge c.req.vhost)).1
    simp only [hooked_append, released_append, hah, har, hf.1, hf.2]
    simp

/-! ## Play: the hooks around `playing` -/

/-- C7. In `stream_service_cycle` for a play client that has been identified and
admitted: if `start_play` and the play hooks succeed, then whenever `playing`
returns, the cycle returns exactly the code `playing` returned, and
`http_hooks_on_stop` is entered exactly once, as the last step, after the calls
of `playing`: on a build with webhooks and a vhost with hooks enabled it calls
every configured `on_stop` url once, in order, so that the callbacks of the whole
cycle are those of `on_play` followed by those of `on_stop` (without webhooks in
the build or on the vhost the hook methods return at once and no callback is
made). If the play hooks reject, the cycle returns their code, neither `playing`
nor `http_hooks_on_stop` is entered, and no callback other than `on_play` is made. -/
theorem stream_service_cycle_play_hooks (b : Build) (k : Kernel) (c : Conn) (e : StreamEnv)
    (r : ErrCode)
    (hid : e.identify_client = ERROR_SUCCESS) (hsec : e.security_check = ERROR_SUCCESS)
    (hfetch : e.fetch_or_create = ERROR_SUCCESS) (hstat : e.stat_on_client = ERROR_SUCCESS)
    (htype : e.type = SrsRtmpConnType.SrsRtmpConnPlay) (hstart : e.start_play = ERROR_SUCCESS) :
    ((http_hooks_on_play b e.cfg e.hooks (stripped k c e).req).1 = ERROR_SUCCESS →
      (playing b (stripped k c e) e.play).ret = some r →
        (stream_service_cycle b k c e).ret = some r ∧
          (stream_service_cycle b k c e).trace =
            stream_service_prologue b (stripped k c e) e ++
              (Event.start_play (stripped k c e).stream_id ::
                  (http_hooks_on_play b e.cfg e.hooks (stripped k c e).req).2 ++
                (playing b (stripped k c e) e.play).trace ++
                Event.enter Method.http_hooks_on_stop ::
                  (if b.SRS_AUTO_HTTP_CALLBACK = true ∧
                      e.cfg.get_vhost_http_hooks_enabled (stripped k c e).req.vhost = true then
                    ((e.cfg.get_vhost_on_stop (stripped k c e).req.vhost).getD []).map
                      (Event.http_hook Hook.on_stop)
                  else [])) ∧
          entered (stream_service_cycle b k c e).trace =
            [Method.stream_service_cycle, Method.http_hooks_on_play, Method.playing,
              Method.http_hooks_on_stop] ∧
          hooked (stream_service_cycle b k c e).trace =
            (if b.SRS_AUTO_HTTP_CALLBACK = true ∧
                e.cfg.get_vhost_http_hooks_enabled (stripped k c e).req.vhost = true then
              ((e.cfg.get_vhost_on_play (stripped k c e).req.vhost).getD []).map
                  (fun url => (Hook.on_play, url)) ++
                ((e.cfg.get_vhost_on_stop (stripped k c e).req.vhost).getD []).map
                  (fun url => (Hook.on_stop, url))
            else [])) ∧
    ((http_hooks_on_play b e.cfg e.hooks (stripped k c e).req).1 ≠ ERROR_SUCCESS →
      (stream_service_cycle b k c e).ret = some (http_hooks_on_play b e.cfg e.hooks (stripped k c e).req).1 ∧
        entered (stream_service_cycle b k c e).trace =
          [Method.stream_service_cycle, Method.http_hooks_on_play] ∧
        (∀ p ∈ hooked (stream_service_cycle b k c e).trace, p.1 = Hook.on_play)) := by
  have hhk : entered (http_hooks_on_play b e.cfg e.hooks (stripped k c e).req).2 =
      [Method.http_hooks_on_play] := entered_hooks_checked _ _ _ _ _ _
  have hpro : hooked (stream_service_prologue b (stripped k c e) e) = [] := rfl
  have hcons : ∀ l, hooked (Event.start_play (stripped k c e).stream_id :: l) = hooked l := fun _ => rfl
  obtain ⟨hph, hpreq⟩ := hooked_playing b (stripped k c e) e.play
  obtain ⟨hplayed, hown, -⟩ :
      ((http_hooks_on_play b e.cfg e.hooks (stripped k c e).req).1 = ERROR_SUCCESS →
        hooked (http_hooks_on_play b e.cfg e.hooks (stripped k c e).req).2 =
          if b.SRS_AUTO_HTTP_CALLBACK = true ∧
              e.cfg.get_vhost_http_hooks_enabled (stripped k c e).req.vhost = true then
            ((e.cfg.get_vhost_on_play (stripped k c e).req.vhost).getD []).map
              (fun url => (Hook.on_play, url))
          else []) ∧
        (∀ p ∈ hooked (http_hooks_on_play b e.cfg e.hooks (stripped k c e).req).2, p.1 = Hook.on_play) ∧
        released (http_hooks_on_play b e.cfg e.hooks (stripped k c e).req).2 = [] :=
    hooked_hooks_checked _ _ _ _ _ _
  have hstopped : hooked (http_hooks_on_stop b e.cfg (stripped k c e).req) =
      if b.SRS_AUTO_HTTP_CALLBACK = true ∧
          e.cfg.get_vhost_http_hooks_enabled (stripped k c e).req.vhost = true then
        ((e.cfg.get_vhost_on_stop (stripped k c e).req.vhost).getD []).map (fun url => (Hook.on_stop, url))
      else [] := (hooked_hooks_notify _ _ _ _ _).1
  have hstop : http_hooks_on_stop b e.cfg (stripped k c e).req =
      Event.enter Method.http_hooks_on_stop ::
        (if b.SRS_AUTO_HTTP_CALLBACK = true ∧
            e.cfg.get_vhost_http_hooks_enabled (stripped k c e).req.vhost = true then
          ((e.cfg.get_vhost_on_stop (stripped k c e).req.vhost).getD []).map
            (Event.http_hook Hook.on_stop)
        else []) := hooks_notify_calls _ _ _ _ _
  constructor
  · intro hhook hplay
    have hrun : stream_service_cycle b k c e =
        ⟨some r, (playing b (stripped k c e) e.play).conn,
          stream_service_prologue b (stripped k c e) e ++
            (Event.start_play (stripped k c e).stream_id ::
                (http_hooks_on_play b e.cfg e.hooks (stripped k c e).req).2 ++
              (playing b (stripped k c e) e.play).trace ++
              http_hooks_on_stop b e.cfg (stripped k c e).req)⟩ := by
      simp [stream_service_cycle, stream_service_dispatch, stream_service_play, hid, hsec, hfetch, hstat,
        htype, hstart, hhook, hplay, Run.after, hpreq]
    rw [hrun]
    refine ⟨rfl, ?_, ?_, ?_⟩
    · simp only []
      rw [hstop]
    · simp [entered_append, entered, stream_service_prologue, hhk, entered_playing, http_hooks_on_stop,
        entered_hooks_notify]
    · simp only []
      rw [hooked_append, hooked_append, hooked_append, hcons, hpro, hph, hplayed hhook, hstopped]
      split <;> simp
  · intro hhook
    have hrun : stream_service_cycle b k c e =
        ⟨some (http_hooks_on_play b e.cfg e.hooks (stripped k c e).req).1, stripped k c e,
          stream_service_prologue b (stripped k c e) e ++
            Event.start_play (stripped k c e).stream_id ::
              (http_hooks_on_play b e.cfg e.hooks (stripped k c e).req).2⟩ := by
      simp [stream_service_cycle, stream_service_dispatch, stream_service_play, hid, hsec, hfetch, hstat,
        htype, hstart, hhook, Run.after]
    rw [hrun]
    refine ⟨rfl, ?_, ?_⟩
    · simp [entered_append, entered, stream_service_prologue, hhk]
    · simp only []
      rw [hooked_append, hcons, hpro]
      simpa using hown

/-- A concrete instance on a vhost with webhooks: a player that closes the stream,
after which both `on_stop` urls are called, and a player the play hook rejects. -/
theorem stream_service_cycle_play_hooks_witness :
    ((stream_service_cycle plain_build plain_kernel (fresh_conn 0) hooked_close_stream).ret =
        some ERROR_CONTROL_RTMP_CLOSE ∧
      hooked (stream_service_cycle plain_build plain_kernel (fresh_conn 0) hooked_close_stream).trace =
        [(Hook.on_play, "http://hook/play"), (Hook.on_stop, "http://hook/stop"),
          (Hook.on_stop, "http://hook/stop2")]) ∧
    (stream_service_cycle plain_build plain_kernel (fresh_conn 0) hooked_rejected_play).ret =
        some (ErrCode.other 3000) ∧
      entered (stream_service_cycle plain_build plain_kernel (fresh_conn 0) hooked_rejected_play).trace =
        [Method.stream_service_cycle, Method.http_hooks_on_play] :=
  ⟨⟨((stream_service_cycle_play_hooks plain_build plain_kernel (fresh_conn 0) hooked_close_stream
        ERROR_CONTROL_RTMP_CLOSE (by decide) (by decide) (by decide) (by decide) (by decide)
        (by decide)).1 (by decide) (by decide)).1,
      ((stream_service_cycle_play_hooks plain_build plain_kernel (fresh_conn 0) hooked_close_stream
        ERROR_CONTROL_RTMP_CLOSE (by decide) (by decide) (by decide) (by decide) (by decide)
        (by decide)).1 (by decide) (by decide)).2.2.2⟩,
    ((stream_service_cycle_play_hooks plain_build plain_kernel (fresh_conn 0) hooked_rejected_play
      ERROR_SUCCESS (by decide) (by decide) (by decide) (by decide) (by decide)
      (by decide)).2 (by decide)).1,
    ((stream_service_cycle_play_hooks plain_build plain_kernel (fresh_conn 0) hooked_rejected_play
      ERROR_SUCCESS (by decide) (by decide) (by decide) (by decide) (by decide)
      (by decide)).2 (by decide)).2.1⟩

/-! ## Publish: the code of the receive thread -/

/-- The handler the publish receive thread calls for each message does not
produce `ERROR_SYSTEM_STREAM_BUSY` itself: it returns that code only if the
protocol or the source answers with it. -/
theorem handle_publish_message_not_busy (c : Conn) (m : PublishMsg) (is_fmle vhost_is_edge : Bool)
    (h1 : m.decode_message ≠ ERROR_SYSTEM_STREAM_BUSY) (h2 : m.fmle_unpublish ≠ ERROR_SYSTEM_STREAM_BUSY)
    (h3 : m.on_edge_proxy_publish ≠ ERROR_SYSTEM_STREAM_BUSY) (h4 : m.on_audio ≠ ERROR_SYSTEM_STREAM_BUSY)
    (h5 : m.on_video ≠ ERROR_SYSTEM_STREAM_BUSY) (h6 : m.on_aggregate ≠ ERROR_SYSTEM_STREAM_BUSY)
    (h7 : m.on_meta_data ≠ ERROR_SYSTEM_STREAM_BUSY) :
    (handle_publish_message c m is_fmle vhost_is_edge).1 ≠ ERROR_SYSTEM_STREAM_BUSY := by
  unfold handle_publish_message process_publish_message
  (repeat' split) <;> first | assumption | simp

/-- Why the receive thread enters the statement on `release_publish`: the test
before `release_publish` reads the code `publishing` is about to return, not the
result of `acquire_publish`. In a run scripted so that the thread reports
`ERROR_SYSTEM_STREAM_BUSY` after a successful acquire, `publishing` returns
without a call of `release_publish`. -/
theorem publishing_busy_from_loop_not_released :
    (acquire_publish (publish_episode ERROR_SYSTEM_STREAM_BUSY).env.publish false).1 = ERROR_SUCCESS ∧
      (do_publishing plain_build (fresh_conn 0) (publish_episode ERROR_SYSTEM_STREAM_BUSY).env.publish).ret =
        some ERROR_SYSTEM_STREAM_BUSY ∧
      (publishing plain_build (fresh_conn 0) (publish_episode ERROR_SYSTEM_STREAM_BUSY).env.publish).ret =
        some ERROR_SYSTEM_STREAM_BUSY ∧
      (entered (publishing plain_build (fresh_conn 0)
        (publish_episode ERROR_SYSTEM_STREAM_BUSY).env.publish).trace).count Method.release_publish = 0 := by
  decide

/-- C21. In `publishing`, when the referer check has passed and the publish hook
has accepted, then whenever `publishing` returns a code `r` (whether
`acquire_publish` succeeded, failed with `ERROR_SYSTEM_STREAM_BUSY` or failed
with another code) the methods it has entered are `http_hooks_on_publish`, then
`release_publish` unless `r` is `ERROR_SYSTEM_STREAM_BUSY`, then
`http_hooks_on_unpublish`. The unpublish hooks are invoked exactly once: on a
build with webhooks and a vhost with hooks enabled the callbacks of the run are
the configured `on_publish` urls followed by every configured `on_unpublish`
url, each once and in order. `release_publish` is called exactly once if `r` is
not `ERROR_SYSTEM_STREAM_BUSY`, making one release call on the source
(`on_edge_proxy_unpublish` on an edge vhost, `on_unpublish` otherwise), and not
at all if it is, and then no release call is made. When the referer check or the
publish hook rejects, `publishing` returns the rejecting code, neither
`release_publish` nor the unpublish hooks are invoked, no release call is made
on the source and no callback other than `on_publish` is made. -/
theorem publishing_unpublish_and_release (b : Build) (c : Conn) (e : PublishEnv) :
    (¬ (e.cfg.get_refer_enabled c.req.vhost ∧ e.refer_check ≠ ERROR_SUCCESS) →
      (http_hooks_on_publish b e.cfg e.hooks c.req).1 = ERROR_SUCCESS →
      ∀ r : ErrCode, (publishing b c e).ret = some r →
        entered (publishing b c e).trace =
            [Method.publishing, Method.http_hooks_on_publish] ++
              (if r = ERROR_SYSTEM_STREAM_BUSY then [] else [Method.release_publish]) ++
              [Method.http_hooks_on_unpublish] ∧
          (entered (publishing b c e).trace).count Method.http_hooks_on_unpublish = 1 ∧
          (entered (publishing b c e).trace).count Method.release_publish =
            (if r = ERROR_SYSTEM_STREAM_BUSY then 0 else 1) ∧
          hooked (publishing b c e).trace =
            (if b.SRS_AUTO_HTTP_CALLBACK = true ∧ e.cfg.get_vhost_http_hooks_enabled c.req.vhost = true then
              ((e.cfg.get_vhost_on_publish c.req.vhost).getD []).map (fun url => (Hook.on_publish, url)) ++
                ((e.cfg.get_vhost_on_unpublish c.req.vhost).getD []).map
                  (fun url => (Hook.on_unpublish, url))
            else []) ∧
          released (publishing b c e).trace =
            (if r = ERROR_SYSTEM_STREAM_BUSY then [] else [e.cfg.get_vhost_is_edge c.req.vhost])) ∧
      ((e.cfg.get_refer_enabled c.req.vhost ∧ e.refer_check ≠ ERROR_SUCCESS) →
        (publishing b c e).ret = some e.refer_check ∧
          entered (publishing b c e).trace = [Method.publishing] ∧
          hooked (publishing b c e).trace = [] ∧
          released (publishing b c e).trace = []) ∧
      (¬ (e.cfg.get_refer_enabled c.req.vhost ∧ e.refer_check ≠ ERROR_SUCCESS) →
        (http_hooks_on_publish b e.cfg e.hooks c.req).1 ≠ ERROR_SUCCESS →
        (publishing b c e).ret = some (http_hooks_on_publish b e.cfg e.hooks c.req).1 ∧
          entered (publishing b c e).trace = [Method.publishing, Method.http_hooks_on_publish] ∧
          (∀ p ∈ hooked (publishing b c e).trace, p.1 = Hook.on_publish) ∧
          released (publishing b c e).trace = []) := by
  obtain ⟨hpub, hown, hrel0⟩ :
      ((http_hooks_on_publish b e.cfg e.hooks c.req).1 = ERROR_SUCCESS →
        hooked (http_hooks_on_publish b e.cfg e.hooks c.req).2 =
          if b.SRS_AUTO_HTTP_CALLBACK = true ∧ e.cfg.get_vhost_http_hooks_enabled c.req.vhost = true then
            ((e.cfg.get_vhost_on_publish c.req.vhost).getD []).map (fun url => (Hook.on_publish, url))
          else []) ∧
        (∀ p ∈ hooked (http_hooks_on_publish b e.cfg e.hooks c.req).2, p.1 = Hook.on_publish) ∧
        released (http_hooks_on_publish b e.cfg e.hooks c.req).2 = [] :=
    hooked_hooks_checked _ _ _ _ _ _
  have hunpub : hooked (http_hooks_on_unpublish b e.cfg c.req) =
      if b.SRS_AUTO_HTTP_CALLBACK = true ∧ e.cfg.get_vhost_http_hooks_enabled c.req.vhost = true then
        ((e.cfg.get_vhost_on_unpublish c.req.vhost).getD []).map (fun url => (Hook.on_unpublish, url))
      else [] := (hooked_hooks_notify _ _ _ _ _).1
  have hrefer : hooked (if e.cfg.get_refer_enabled c.req.vhost then [Event.refer_check c.req.pageUrl]
      else []) = [] ∧
      released (if e.cfg.get_refer_enabled c.req.vhost then [Event.refer_check c.req.pageUrl]
      else []) = [] := by split <;> exact ⟨rfl, rfl⟩
  have hcons : ∀ l, hooked (Event.enter Method.publishing :: l) = hooked l ∧
      released (Event.enter Method.publishing :: l) = released l := fun l => ⟨rfl, rfl⟩
  refine ⟨?_, ?_, ?_⟩
  · intro href hhook r hr
    have h := entered_publishing b c e href hhook
    obtain ⟨hh, hl⟩ := hooked_publishing b c e href hhook
    rw [hr] at h hh hl
    simp only [] at hh hl
    rw [h, hh, hl, hpub hhook, hunpub]
    refine ⟨?_, ?_, ?_, ?_, ?_⟩
    · by_cases hb : r = ERROR_SYSTEM_STREAM_BUSY <;> simp [hb]
    · by_cases hb : r = ERROR_SYSTEM_STREAM_BUSY <;> simp [hb]
    · by_cases hb : r = ERROR_SYSTEM_STREAM_BUSY <;> simp [hb]
    · split <;> simp
    · by_cases hb : r = ERROR_SYSTEM_STREAM_BUSY <;> simp [hb]
  · intro href
    unfold publishing
    rw [if_pos href]
    exact ⟨rfl, rfl, rfl, rfl⟩
  · intro href hhook
    have hhk : entered (http_hooks_on_publish b e.cfg e.hooks c.req).2 = [Method.http_hooks_on_publish] :=
      entered_hooks_checked _ _ _ _ _ _
    have hrefer2 : entered (if e.cfg.get_refer_enabled c.req.vhost then [Event.refer_check c.req.pageUrl]
        else []) = [] := by split <;> rfl
    unfold publishing
    rw [if_neg href, if_pos hhook]
    refine ⟨rfl, ?_, ?_, ?_⟩
    · simp [entered, entered_append, hhk, hrefer2]
    · simp only []
      rw [hooked_append, (hcons _).1, hrefer.1]
      simpa using hown
    · simp only []
      rw [released_append, (hcons _).2, hrefer.2, hrel0]
      rfl

/-- A concrete instance of each path, on a vhost with webhooks where the hooks are
accepted: the acquire succeeds and the publish times out, the stream is busy, the
vhost is an edge; then `source->on_publish` fails, and the publish hook rejects. -/
theorem publishing_unpublish_and_release_witness :
    (entered (publishing plain_build (fresh_conn 0) (hooked_publish timeout_publish.iters)).trace =
        [Method.publishing, Method.http_hooks_on_publish, Method.release_publish,
          Method.http_hooks_on_unpublish] ∧
      hooked (publishing plain_build (fresh_conn 0) (hooked_publish timeout_publish.iters)).trace =
        [(Hook.on_publish, "http://hook/publish"), (Hook.on_unpublish, "http://hook/unpublish")] ∧
      released (publishing plain_build (fresh_conn 0) (hooked_publish timeout_publish.iters)).trace =
        [false]) ∧
    (entered (publishing plain_build (fresh_conn 0) hooked_busy_publish).trace =
        [Method.publishing, Method.http_hooks_on_publish, Method.http_hooks_on_unpublish] ∧
      hooked (publishing plain_build (fresh_conn 0) hooked_busy_publish).trace =
        [(Hook.on_publish, "http://hook/publish"), (Hook.on_unpublish, "http://hook/unpublish")] ∧
      released (publishing plain_build (fresh_conn 0) hooked_busy_publish).trace = []) ∧
    released (publishing plain_build (fresh_conn 0) hooked_edge_publish).trace = [true] ∧
    (entered (publishing plain_build (fresh_conn 0) failing_publish).trace =
        [Method.publishing, Method.http_hooks_on_publish, Method.release_publish,
          Method.http_hooks_on_unpublish] ∧
      released (publishing plain_build (fresh_conn 0) failing_publish).trace = [false]) ∧
    (entered (publishing plain_build (fresh_conn 0) rejecting_publish).trace =
        [Method.publishing, Method.http_hooks_on_publish] ∧
      released (publishing plain_build (fresh_conn 0) rejecting_publish).trace = []) :=
  ⟨⟨((publishing_unpublish_and_release plain_build (fresh_conn 0)
        (hooked_publish timeout_publish.iters)).1 (by decide) (by decide)
        ERROR_SOCKET_TIMEOUT (by decide)).1,
      ((publishing_unpublish_and_release plain_build (fresh_conn 0)
        (hooked_publish timeout_publish.iters)).1 (by decide) (by decide)
        ERROR_SOCKET_TIMEOUT (by decide)).2.2.2.1,
      ((publishing_unpublish_and_release plain_build (fresh_conn 0)
        (hooked_publish timeout_publish.iters)).1 (by decide) (by decide)
        ERROR_SOCKET_TIMEOUT (by decide)).2.2.2.2⟩,
    ⟨((publishing_unpublish_and_release plain_build (fresh_conn 0) hooked_busy_publish).1 (by decide)
        (by decide) ERROR_SYSTEM_STREAM_BUSY (by decide)).1,
      ((publishing_unpublish_and_release plain_build (fresh_conn 0) hooked_busy_publish).1 (by decide)
        (by decide) ERROR_SYSTEM_STREAM_BUSY (by decide)).2.2.2.1,
      ((publishing_unpublish_and_release plain_build (fresh_conn 0) hooked_busy_publish).1 (by decide)
        (by decide) ERROR_SYSTEM_STREAM_BUSY (by decide)).2.2.2.2⟩,
    ((publishing_unpublish_and_release plain_build (fresh_conn 0) hooked_edge_publish).1 (by decide)
      (by decide) ERROR_SOCKET_TIMEOUT (by decide)).2.2.2.2,
    ⟨((publishing_unpublish_and_release plain_build (fresh_conn 0) failing_publish).1 (by decide)
        (by decide) (ErrCode.other 1024) (by decide)).1,
      ((publishing_unpublish_and_release plain_build (fresh_conn 0) failing_publish).1 (by decide)
        (by decide) (ErrCode.other 1024) (by decide)).2.2.2.2⟩,
    ⟨((publishing_unpublish_and_release plain_build (fresh_conn 0) rejecting_publish).2.2 (by decide)
        (by decide)).2.1,
      ((publishing_unpublish_and_release plain_build (fresh_conn 0) rejecting_publish).2.2 (by decide)
        (by decide)).2.2.2⟩⟩

end Srs
